import Mathlib

/-!
# Thor system-call surface: descriptors, completion batches and stream submission

A shallow embedding of `thor/kernel/src/generic/hel.cpp`.  Kernel objects that
the C++ code reaches through shared pointers are referred to by identifiers and
live in an explicit `KernelState`; a failed `assert` is an explicit outcome.
The last definitions embed the receive queue of the UART driver
(`drivers/uart/src/main.cpp`).
-/

namespace Thor

/-! ## Basic types -/

/-- HelHandle: a signed 64-bit handle value. -/
abbrev Handle := Int

abbrev UniverseId := Nat
abbrev ThreadId := Nat
abbrev ObjectId := Nat

/-- LaneHandle: a reference to one endpoint of a stream. -/
abbrev LaneHandle := Nat

/-- Modelled from the spec: the reserved sentinel handle `null` (declared in hel.h). -/
def kHelNullHandle : Handle := 0

/-- Modelled from the spec: the reserved sentinel handle `this-universe` (declared in hel.h). -/
def kHelThisUniverse : Handle := -1

/-- Modelled from the spec: the reserved sentinel handle `this-thread` (declared in hel.h). -/
def kHelThisThread : Handle := -2

/-- HelError: the user-visible error codes named in hel.cpp and in the spec. -/
inductive HelError where
  | kHelErrNone
  | kHelErrNoDescriptor
  | kHelErrBadDescriptor
  | kHelErrIllegalArgs
  | kHelErrClosedLocally
  | kHelErrClosedRemotely
  | kHelErrBufferTooSmall
  deriving DecidableEq, Repr

/-- Error: the kernel-internal error codes that appear in translateError. -/
inductive Error where
  | kErrSuccess
  | kErrClosedLocally
  | kErrClosedRemotely
  | kErrBufferTooSmall
  deriving DecidableEq, Repr

/-- AnyDescriptor: the variant of descriptor kinds; each holds a reference to
its kernel object. -/
inductive AnyDescriptor where
  | UniverseDescriptor (univ : UniverseId)
  | MemoryAccessDescriptor (memory : ObjectId)
  | AddressSpaceDescriptor (space : ObjectId)
  | ThreadDescriptor (thread : ThreadId)
  | LaneDescriptor (handle : LaneHandle)
  | IrqDescriptor (irq : ObjectId)
  | IoDescriptor (ioSpace : ObjectId)
  deriving DecidableEq, Repr

/-! ## Universe -/

/-- Modelled from the spec: the Universe class (its declaration is not part of
hel.cpp).  "An ordered mapping Handle → Descriptor.  Allocates fresh handles
monotonically within an internal pool."  The first entry for a handle in
`descriptorMap` is the live one. -/
structure Universe where
  descriptorMap : List (Handle × AnyDescriptor)
  nextHandle : Handle
  deriving Repr

/-- Modelled from the spec: Universe::getDescriptor, the lookup of a handle;
`none` is the null pointer the callers test for. -/
def Universe.getDescriptor (u : Universe) (handle : Handle) : Option AnyDescriptor :=
  u.descriptorMap.lookup handle

/-- Modelled from the spec: Universe::attachDescriptor, which allocates a fresh
handle, maps it to the descriptor and returns it. -/
def Universe.attachDescriptor (u : Universe) (descriptor : AnyDescriptor) :
    Handle × Universe :=
  (u.nextHandle,
    { descriptorMap := (u.nextHandle, descriptor) :: u.descriptorMap,
      nextHandle := u.nextHandle + 1 })

/-- Modelled from the spec: Universe::detachDescriptor; the flag tells whether
the handle was attached. -/
def Universe.detachDescriptor (u : Universe) (handle : Handle) : Bool × Universe :=
  match u.getDescriptor handle with
  | none => (false, u)
  | some _ =>
    (true, { u with descriptorMap := u.descriptorMap.filter (fun e => e.1 != handle) })

/-- The universe a freshly created Universe object starts from. -/
def Universe.empty : Universe := { descriptorMap := [], nextHandle := 1 }

/-- Every attached handle is positive and was handed out by the allocator. -/
def Universe.WellFormed (u : Universe) : Prop :=
  ∀ e ∈ u.descriptorMap, 0 < e.1 ∧ e.1 < u.nextHandle

/-! ## Kernel state -/

/-- The general-purpose register image `_executor.general()` of a thread, with
the members hel.cpp names. -/
structure GeneralRegisters where
  rax : Nat
  rbx : Nat
  rcx : Nat
  rdx : Nat
  rdi : Nat
  rsi : Nat
  r8 : Nat
  r9 : Nat
  r10 : Nat
  r11 : Nat
  r12 : Nat
  r13 : Nat
  r14 : Nat
  r15 : Nat
  rbp : Nat
  clientFs : Nat
  clientGs : Nat
  deriving DecidableEq, Repr

/-- The executor (register image) of a thread: `*ip()`, `*sp()` and `general()`. -/
structure Executor where
  ip : Nat
  sp : Nat
  general : GeneralRegisters
  deriving DecidableEq, Repr

/-- The flags hel.cpp sets on a Thread object: Thread::kFlagExclusive and
Thread::kFlagTrapsAreFatal. -/
structure ThreadFlags where
  kFlagExclusive : Bool
  kFlagTrapsAreFatal : Bool
  deriving DecidableEq, Repr

/-- The parts of a Thread object that hel.cpp reads or writes. -/
structure Thread where
  univ : UniverseId
  inferiorLane : LaneHandle
  superiorLane : LaneHandle
  addressSpace : ObjectId
  executor : Executor
  flags : ThreadFlags
  deriving Repr

/-- The kernel objects reachable from the system calls modelled here.
`universeAlive u` tells whether a weak pointer to universe `u` can still be
grabbed, `memoryLength m` is what `getLength()` of memory object `m` returns,
`breakOnWrite` is the address last handed to breakOnWrite(), if any. -/
structure KernelState where
  universes : UniverseId → Universe
  universeAlive : UniverseId → Bool
  threads : ThreadId → Thread
  memoryLength : ObjectId → Nat
  breakOnWrite : Option Nat

/-- What a system call hands back: the new kernel state, the returned error
code and the value stored through the out-pointer, if it was written. -/
structure SyscallResult (α : Type) where
  state : KernelState
  error : HelError
  out : Option α

/-! ## helTransferDescriptor -/

/-- The target universe selected by helTransferDescriptor (hel.cpp 410-419). -/
def resolveTargetUniverse (this_universe : UniverseId) (u : Universe)
    (universe_handle : Handle) : Except HelError UniverseId :=
  if universe_handle = kHelThisUniverse then
    .ok this_universe
  else
    match u.getDescriptor universe_handle with
    | none => .error .kHelErrNoDescriptor
    | some (.UniverseDescriptor univ) => .ok univ
    | some _ => .error .kHelErrBadDescriptor

/-- helTransferDescriptor (hel.cpp 395-429). -/
def helTransferDescriptor (s : KernelState) (this_thread : ThreadId)
    (handle universe_handle : Handle) : SyscallResult Handle :=
  let this_universe := (s.threads this_thread).univ
  match (s.universes this_universe).getDescriptor handle with
  | none => { state := s, error := .kHelErrNoDescriptor, out := none }
  | some descriptor =>
    match resolveTargetUniverse this_universe (s.universes this_universe) universe_handle with
    | .error e => { state := s, error := e, out := none }
    | .ok univ =>
      let r := (s.universes univ).attachDescriptor descriptor
      { state := { s with universes := Function.update s.universes univ r.2 },
        error := .kHelErrNone,
        out := some r.1 }

/-! ## Completion records -/

/-- The range of size_t and uintptr_t: arithmetic on them wraps at 2^64. -/
def sizeModulus : Nat := 2 ^ 64

/-- The range of unsigned int: arithmetic on it wraps at 2^32. -/
def uintModulus : Nat := 2 ^ 32

/-- Modelled from the spec: sizeof(HelSimpleResult), the record `simple {err, _}`
of two 32-bit fields (the struct is declared in hel.h). -/
def sizeofHelSimpleResult : Nat := 8

/-- Modelled from the spec: sizeof(HelHandleResult), the record
`handle {err, _, handle}` (the struct is declared in hel.h). -/
def sizeofHelHandleResult : Nat := 16

/-- Modelled from the spec: sizeof(HelLengthResult), the record
`length {err, _, length}` (the struct is declared in hel.h). -/
def sizeofHelLengthResult : Nat := 16

/-- Modelled from the spec: sizeof(HelInlineResult), the fixed part
`inline {err, _, length, ...}` before the payload (the struct is declared in hel.h). -/
def sizeofHelInlineResult : Nat := 16

/-- Modelled from the spec: offsetof(HelInlineResult, data); "length field
precedes raw bytes" (the struct is declared in hel.h). -/
def offsetofHelInlineResultData : Nat := 16

/-- Modelled from the spec: the offset of the length field of HelInlineResult,
which follows the (error, reserved) pair (the struct is declared in hel.h). -/
def offsetofHelInlineResultLength : Nat := 8

/-- The object handed to ForeignSpaceAccessor::copyTo: one of the result
structs, with its fields in initializer order, or a raw byte buffer. -/
inductive RecordData where
  | HelSimpleResult (error : HelError) (reserved : Nat)
  | HelHandleResult (error : HelError) (reserved : Nat) (handle : Handle)
  | HelLengthResult (error : HelError) (reserved : Nat) (length : Nat)
  | HelInlineResult (error : HelError) (reserved : Nat) (length : Nat)
  | HelObserveResult (error : HelError) (observation : Nat) (reserved : Nat)
  | bytes (data : List Nat)
  deriving DecidableEq, Repr

/-- One call accessor.copyTo(disp, pointer, size). -/
structure CopyTo where
  disp : Nat
  data : RecordData
  size : Nat
  deriving DecidableEq, Repr

/-- translateError (hel.cpp 8-18); `none` is the failed assertion of the
default case. -/
def translateError (error : Error) : Option HelError :=
  match error with
  | .kErrSuccess => some .kHelErrNone
  | _ => none

/-- The ItemWriter variant (hel.cpp 287-295) with the members of each writer. -/
inductive ItemWriter where
  | OfferWriter (error : Error)
  | AcceptWriter (error : Error) (weakUniverse : UniverseId) (descriptor : LaneHandle)
  | SendStringWriter (error : Error)
  | RecvInlineWriter (error : Error) (buffer : List Nat)
  | RecvStringWriter (error : Error) (length : Nat)
  | PushDescriptorWriter (error : Error)
  | PullDescriptorWriter (error : Error) (weakUniverse : UniverseId) (lane : AnyDescriptor)
  deriving DecidableEq, Repr

/-- The alternatives of the ItemWriter variant, without their members. -/
inductive WriterKind where
  | OfferWriter
  | AcceptWriter
  | SendStringWriter
  | RecvInlineWriter
  | RecvStringWriter
  | PushDescriptorWriter
  | PullDescriptorWriter
  deriving DecidableEq, Repr

/-- The alternative a writer belongs to. -/
def ItemWriter.kind : ItemWriter → WriterKind
  | .OfferWriter _ => .OfferWriter
  | .AcceptWriter _ _ _ => .AcceptWriter
  | .SendStringWriter _ => .SendStringWriter
  | .RecvInlineWriter _ _ => .RecvInlineWriter
  | .RecvStringWriter _ _ => .RecvStringWriter
  | .PushDescriptorWriter _ => .PushDescriptorWriter
  | .PullDescriptorWriter _ _ _ => .PullDescriptorWriter

/-- The `_error` member every writer carries. -/
def ItemWriter.error : ItemWriter → Error
  | .OfferWriter e => e
  | .AcceptWriter e _ _ => e
  | .SendStringWriter e => e
  | .RecvInlineWriter e _ => e
  | .RecvStringWriter e _ => e
  | .PushDescriptorWriter e => e
  | .PullDescriptorWriter e _ _ => e

/-- The `_weakUniverse` member of the two writers that attach a descriptor. -/
def ItemWriter.weakUniverse : ItemWriter → Option UniverseId
  | .AcceptWriter _ u _ => some u
  | .PullDescriptorWriter _ u _ => some u
  | _ => none

/-- RecvInlineWriter::size (hel.cpp 157-160) as a function of the buffer size:
size_t arithmetic, then rounding by `& ~size_t(7)`. -/
def RecvInlineWriter.size (bufferSize : Nat) : Nat :=
  let size := (sizeofHelInlineResult + bufferSize) % sizeModulus
  ((size + 7) % sizeModulus) &&& (sizeModulus - 8)

/-- The size() member of each writer (hel.cpp 96, 113, 140, 157, 178, 196, 213). -/
def ItemWriter.size : ItemWriter → Nat
  | .OfferWriter _ => sizeofHelSimpleResult
  | .AcceptWriter _ _ _ => sizeofHelHandleResult
  | .SendStringWriter _ => sizeofHelSimpleResult
  | .RecvInlineWriter _ buffer => RecvInlineWriter.size buffer.length
  | .RecvStringWriter _ _ => sizeofHelLengthResult
  | .PushDescriptorWriter _ => sizeofHelSimpleResult
  | .PullDescriptorWriter _ _ _ => sizeofHelHandleResult

/-- The block shared by AcceptWriter::write and PullDescriptorWriter::write:
grab the weak universe pointer, assert it is live, attach the descriptor. -/
def attachThroughWeak (s : KernelState) (weakUniverse : UniverseId)
    (descriptor : AnyDescriptor) : Option (KernelState × Handle) :=
  if s.universeAlive weakUniverse then
    let r := (s.universes weakUniverse).attachDescriptor descriptor
    some ({ s with universes := Function.update s.universes weakUniverse r.2 }, r.1)
  else
    none

/-- The write(accessor, disp) member of each writer (hel.cpp 100, 117, 144, 162,
182, 200, 217): the new kernel state and the copyTo calls made, or `none` when
an assertion fails. -/
def ItemWriter.write (w : ItemWriter) (s : KernelState) (disp : Nat) :
    Option (KernelState × List CopyTo) :=
  match w with
  | .OfferWriter error =>
    (translateError error).map fun e =>
      (s, [{ disp := disp, data := .HelSimpleResult e 0, size := sizeofHelSimpleResult }])
  | .AcceptWriter error weakUniverse descriptor =>
    (attachThroughWeak s weakUniverse (.LaneDescriptor descriptor)).bind fun r =>
      (translateError error).map fun e =>
        (r.1, [{ disp := disp, data := .HelHandleResult e 0 r.2, size := sizeofHelHandleResult }])
  | .SendStringWriter error =>
    (translateError error).map fun e =>
      (s, [{ disp := disp, data := .HelSimpleResult e 0, size := sizeofHelSimpleResult }])
  | .RecvInlineWriter error buffer =>
    (translateError error).map fun e =>
      (s, [{ disp := disp, data := .HelInlineResult e 0 buffer.length,
             size := sizeofHelInlineResult },
           { disp := (disp + offsetofHelInlineResultData) % sizeModulus,
             data := .bytes buffer, size := buffer.length }])
  | .RecvStringWriter error length =>
    (translateError error).map fun e =>
      (s, [{ disp := disp, data := .HelLengthResult e 0 length, size := sizeofHelLengthResult }])
  | .PushDescriptorWriter error =>
    (translateError error).map fun e =>
      (s, [{ disp := disp, data := .HelSimpleResult e 0, size := sizeofHelSimpleResult }])
  | .PullDescriptorWriter error weakUniverse lane =>
    (attachThroughWeak s weakUniverse lane).bind fun r =>
      (translateError error).map fun e =>
        (r.1, [{ disp := disp, data := .HelHandleResult e 0 r.2, size := sizeofHelHandleResult }])

/-! ## MsgHandler and SetResult -/

/-- One call queueSpace.submit(handle, space, queue, size, context, functor):
the chunk of `size` bytes reserved in the completion queue. -/
structure QueueSubmit where
  space : ObjectId
  queue : Nat
  size : Nat
  context : Nat
  deriving DecidableEq, Repr

/-- MsgHandler (hel.cpp 297-352).  A slot of `results` is `none` while its
variant is still empty. -/
structure MsgHandler where
  results : List (Option ItemWriter)
  numComplete : Nat
  space : ObjectId
  queue : Nat
  context : Nat
  deriving DecidableEq, Repr

/-- The MsgHandler constructor (hel.cpp 314-319): `num_items` empty slots. -/
def MsgHandler.new (num_items : Nat) (space : ObjectId) (queue context : Nat) : MsgHandler :=
  { results := List.replicate num_items none, numComplete := 0,
    space := space, queue := queue, context := context }

/-- The loop of MsgHandler::complete (hel.cpp 323-328), from slot `i` on with
the running `size`; `none` when a slot is still empty. -/
def MsgHandler.sumSizes : List (Option ItemWriter) → Nat → Option Nat
  | [], size => some size
  | none :: _, _ => none
  | some writer :: rest, size => MsgHandler.sumSizes rest ((size + writer.size) % sizeModulus)

/-- MsgHandler::complete (hel.cpp 322-333): the submit call it makes. -/
def MsgHandler.complete (h : MsgHandler) : Option QueueSubmit :=
  (MsgHandler.sumSizes h.results 0).map fun size =>
    { space := h.space, queue := h.queue, size := size, context := h.context }

/-- One call writer.write(accessor, disp) made by MsgHandler::write, with the
copies it performed. -/
structure WriteCall where
  writer : ItemWriter
  disp : Nat
  copies : List CopyTo
  deriving DecidableEq, Repr

/-- The loop of MsgHandler::write (hel.cpp 337-343) from the running `disp`;
`none` when the alignment assertion or an assertion inside a writer fails. -/
def MsgHandler.writeLoop : List (Option ItemWriter) → KernelState → Nat →
    Option (KernelState × List WriteCall)
  | [], s, _ => some (s, [])
  | none :: _, _, _ => none
  | some writer :: rest, s, disp =>
    if disp &&& 7 ≠ 0 then
      none
    else
      (writer.write s disp).bind fun r =>
        (MsgHandler.writeLoop rest r.1 ((disp + writer.size) % sizeModulus)).map fun t =>
          (t.1, { writer := writer, disp := disp, copies := r.2 } :: t.2)

/-- MsgHandler::write (hel.cpp 335-344). -/
def MsgHandler.write (h : MsgHandler) (s : KernelState) :
    Option (KernelState × List WriteCall) :=
  MsgHandler.writeLoop h.results s 0

/-- What one invocation of a SetResult token did. -/
structure SetResultEffect where
  handler : MsgHandler
  completeInvoked : Bool
  posted : Option QueueSubmit
  deriving DecidableEq, Repr

/-- SetResult::operator() (hel.cpp 360-365) of the token with index `index`,
called with the writer built from its arguments. -/
def SetResult.call (h : MsgHandler) (index : Nat) (writer : ItemWriter) : SetResultEffect :=
  let h1 := { h with results := h.results.set index (some writer) }
  let c := h1.numComplete
  let h2 := { h1 with numComplete := (c + 1) % uintModulus }
  if (c + 1) % uintModulus = h2.results.length then
    { handler := h2, completeInvoked := true, posted := h2.complete }
  else
    { handler := h2, completeInvoked := false, posted := none }

/-- The effects of invoking tokens one after the other, in the given order. -/
def SetResult.callAll : MsgHandler → List (Nat × ItemWriter) → List SetResultEffect
  | _, [] => []
  | h, (index, writer) :: rest =>
    let r := SetResult.call h index writer
    r :: SetResult.callAll r.handler rest

/-- The handler left by a sequence of token invocations. -/
def SetResult.finalHandler : MsgHandler → List (Nat × ItemWriter) → MsgHandler
  | h, [] => h
  | h, (index, writer) :: rest => SetResult.finalHandler (SetResult.call h index writer).handler rest

/-! ## helSubmitAsync -/

/-- Modelled from the spec: the action flag `chain` = do-not-pop stack (the
constant is declared in hel.h). -/
def kHelItemChain : Nat := 1

/-- Modelled from the spec: the action flag `ancillary` = push result (child
lane) onto stack (the constant is declared in hel.h). -/
def kHelItemAncillary : Nat := 2

/-- The value of HelAction::type as the switch of helSubmitAsync sees it: one
of its seven case labels, or any other value (the default case). -/
inductive HelActionType where
  | kHelActionOffer
  | kHelActionAccept
  | kHelActionSendFromBuffer
  | kHelActionRecvInline
  | kHelActionRecvToBuffer
  | kHelActionPushDescriptor
  | kHelActionPullDescriptor
  | other (value : Nat)
  deriving DecidableEq, Repr

/-- HelAction: the members helSubmitAsync reads. -/
structure HelAction where
  type : HelActionType
  flags : Nat
  buffer : Nat
  length : Nat
  handle : Handle
  deriving DecidableEq, Repr

/-- The test `action.flags & kHelItemChain`. -/
def HelAction.chain (action : HelAction) : Bool :=
  action.flags &&& kHelItemChain != 0

/-- The test `action.flags & kHelItemAncillary`. -/
def HelAction.ancillary (action : HelAction) : Bool :=
  action.flags &&& kHelItemAncillary != 0

/-- A token SetResult<W>(handler, index). -/
structure Token where
  writer : WriterKind
  index : Nat
  deriving DecidableEq, Repr

/-- The submit function of the stream that an action calls, with its arguments
other than the lane and the token. -/
inductive StreamOp where
  | submitOffer
  | submitAccept (weakUniverse : UniverseId)
  | submitSendBuffer (buffer length : Nat)
  | submitRecvInline
  | submitRecvBuffer (buffer length : Nat)
  | submitPushDescriptor (operand : AnyDescriptor)
  | submitPullDescriptor (weakUniverse : UniverseId)
  deriving DecidableEq, Repr

/-- One call target.getStream()->submit...(target.getLane(), ..., Token(handler, i - 1)). -/
structure StreamSubmit where
  lane : LaneHandle
  op : StreamOp
  token : Token
  deriving DecidableEq, Repr

/-- How a system call that contains assertions ends. -/
inductive Outcome where
  | returned (error : HelError)
  | assertionFailed
  deriving DecidableEq, Repr

/-- The root lane selected by helSubmitAsync (hel.cpp 1148-1164). -/
def resolveRootLane (s : KernelState) (this_thread : ThreadId) (handle : Handle) :
    Except HelError LaneHandle :=
  if handle = kHelThisThread then
    .ok (s.threads this_thread).inferiorLane
  else
    match (s.universes (s.threads this_thread).univ).getDescriptor handle with
    | none => .error .kHelErrNoDescriptor
    | some (.LaneDescriptor lane) => .ok lane
    | some (.ThreadDescriptor thread) => .ok (s.threads thread).superiorLane
    | some _ => .error .kHelErrBadDescriptor

/-- Prepend a stream submission to the effects of the rest of the loop. -/
def afterSubmit (x : StreamSubmit) (r : Outcome × List StreamSubmit) :
    Outcome × List StreamSubmit :=
  (r.1, x :: r.2)

/-- The loop of helSubmitAsync and the assertion after it (hel.cpp 1172-1245).
`stack` has its back first, the second list is `actions[i .. count)`, so
`i < count` reads "the list is not empty" and `i == count` reads "the list is
empty".  `branch i` is the lane that the submitOffer or submitAccept call of
action `i` returns.  The result is the way the call ends and the submissions
made to streams, in order. -/
def submitLoop (this_universe : UniverseId) (u : Universe) (branch : Nat → LaneHandle) :
    List LaneHandle → List HelAction → Nat → Outcome × List StreamSubmit
  | [], [], _ => (.returned .kHelErrNone, [])
  | [], _ :: _, _ => (.assertionFailed, [])
  | _ :: _, [], _ => (.assertionFailed, [])
  | target :: below, action :: rest, i =>
    let stack := if action.chain then target :: below else below
    match action.type with
    | .kHelActionOffer =>
      afterSubmit { lane := target, op := .submitOffer, token := ⟨.OfferWriter, i⟩ }
        (submitLoop this_universe u branch
          (if action.ancillary then branch i :: stack else stack) rest (i + 1))
    | .kHelActionAccept =>
      afterSubmit { lane := target, op := .submitAccept this_universe,
                    token := ⟨.AcceptWriter, i⟩ }
        (submitLoop this_universe u branch
          (if action.ancillary then branch i :: stack else stack) rest (i + 1))
    | .kHelActionSendFromBuffer =>
      afterSubmit { lane := target, op := .submitSendBuffer action.buffer action.length,
                    token := ⟨.SendStringWriter, i⟩ }
        (submitLoop this_universe u branch stack rest (i + 1))
    | .kHelActionRecvInline =>
      afterSubmit { lane := target, op := .submitRecvInline, token := ⟨.RecvInlineWriter, i⟩ }
        (submitLoop this_universe u branch stack rest (i + 1))
    | .kHelActionRecvToBuffer =>
      afterSubmit { lane := target, op := .submitRecvBuffer action.buffer action.length,
                    token := ⟨.RecvStringWriter, i⟩ }
        (submitLoop this_universe u branch stack rest (i + 1))
    | .kHelActionPushDescriptor =>
      match u.getDescriptor action.handle with
      | none => (.returned .kHelErrNoDescriptor, [])
      | some operand =>
        afterSubmit { lane := target, op := .submitPushDescriptor operand,
                      token := ⟨.PushDescriptorWriter, i⟩ }
          (submitLoop this_universe u branch stack rest (i + 1))
    | .kHelActionPullDescriptor =>
      afterSubmit { lane := target, op := .submitPullDescriptor this_universe,
                    token := ⟨.PullDescriptorWriter, i⟩ }
        (submitLoop this_universe u branch stack rest (i + 1))
    | .other _ => (.assertionFailed, [])

/-- What helSubmitAsync did: how it ended, the MsgHandler it constructed (if it
got that far) and the submissions it made to streams, in order. -/
structure SubmitAsyncResult where
  outcome : Outcome
  handler : Option MsgHandler
  submitted : List StreamSubmit
  deriving DecidableEq, Repr

/-- helSubmitAsync (hel.cpp 1140-1246); `actions` is the array of `count`
actions, `space` the address space of the calling thread. -/
def helSubmitAsync (s : KernelState) (this_thread : ThreadId) (space : ObjectId)
    (branch : Nat → LaneHandle) (handle : Handle) (actions : List HelAction)
    (queue context : Nat) : SubmitAsyncResult :=
  match resolveRootLane s this_thread handle with
  | .error e => { outcome := .returned e, handler := none, submitted := [] }
  | .ok lane =>
    let this_universe := (s.threads this_thread).univ
    let r := submitLoop this_universe (s.universes this_universe) branch [lane] actions 0
    { outcome := r.1,
      handler := some (MsgHandler.new actions.length space queue context),
      submitted := r.2 }

/-! ## The reference stack machine of the specification -/

/-- The state of the reference machine: the lane stack (top first) and, for
each action processed so far, the lane it was executed on (`none` if the
stack was empty). -/
structure RefState where
  stack : List LaneHandle
  targets : List (Option LaneHandle)
  deriving DecidableEq, Repr

/-- Does the action produce an output lane that is pushed: an offer or accept
with the ancillary flag. -/
def HelAction.pushesOutput (action : HelAction) : Bool :=
  (action.type == .kHelActionOffer || action.type == .kHelActionAccept) && action.ancillary

/-- One step of the reference machine, as the specification words it: take the
top lane as target, pop it unless the action is chained, execute on the
target, push the output lane if the action is an ancillary offer or accept. -/
def refStep (branch : Nat → LaneHandle) (st : RefState) (ia : Nat × HelAction) : RefState :=
  match st.stack.head? with
  | none => { stack := [], targets := st.targets ++ [none] }
  | some top =>
    let popped := if ia.2.chain then st.stack else st.stack.tail
    let pushed := if ia.2.pushesOutput then branch ia.1 :: popped else popped
    { stack := pushed, targets := st.targets ++ [some top] }

/-- The reference machine run over a whole submission, starting from a stack
holding only the root lane. -/
def refRun (branch : Nat → LaneHandle) (root : LaneHandle) (actions : List HelAction) :
    RefState :=
  (List.zip (List.range actions.length) actions).foldl (refStep branch)
    { stack := [root], targets := [] }

/-- The test `is<UniverseDescriptor>()` on a descriptor. -/
def AnyDescriptor.isUniverseDescriptor : AnyDescriptor → Bool
  | .UniverseDescriptor _ => true
  | _ => false

/-! ## Concrete states used to evaluate the model -/

/-- A universe holding a memory descriptor (handle 1), a lane descriptor
(handle 2), a descriptor of universe 1 (handle 3) and a thread descriptor
(handle 4). -/
def sampleUniverse : Universe :=
  { descriptorMap :=
      [(4, .ThreadDescriptor 1), (3, .UniverseDescriptor 1), (2, .LaneDescriptor 7),
       (1, .MemoryAccessDescriptor 0)],
    nextHandle := 5 }

/-- A kernel state whose threads all run in universe 0; universe 0 is
`sampleUniverse`, every other universe is empty. -/
def sampleState : KernelState :=
  { universes := fun u => if u = 0 then sampleUniverse else Universe.empty,
    universeAlive := fun _ => true,
    threads := fun _ =>
      { univ := 0, inferiorLane := 100, superiorLane := 200, addressSpace := 50,
        executor :=
          { ip := 4096, sp := 8192,
            general :=
              { rax := 1, rbx := 2, rcx := 3, rdx := 4, rdi := 5, rsi := 6, r8 := 8, r9 := 9,
                r10 := 10, r11 := 11, r12 := 12, r13 := 13, r14 := 14, r15 := 15, rbp := 16,
                clientFs := 17, clientGs := 18 } },
        flags := { kFlagExclusive := false, kFlagTrapsAreFatal := false } },
    memoryLength := fun _ => 8192,
    breakOnWrite := none }

/-! ## One iteration of the helSubmitAsync loop, factored for the proofs -/

/-- What the switch of helSubmitAsync does with one action: `none` for the
failed assertion of the default case, an error for the early return of
push-descriptor, otherwise the stream call made and the writer of its token. -/
def dispatchAction (this_universe : UniverseId) (u : Universe) (action : HelAction) :
    Option (Except HelError (StreamOp × WriterKind)) :=
  match action.type with
  | .kHelActionOffer => some (.ok (.submitOffer, .OfferWriter))
  | .kHelActionAccept => some (.ok (.submitAccept this_universe, .AcceptWriter))
  | .kHelActionSendFromBuffer =>
    some (.ok (.submitSendBuffer action.buffer action.length, .SendStringWriter))
  | .kHelActionRecvInline => some (.ok (.submitRecvInline, .RecvInlineWriter))
  | .kHelActionRecvToBuffer =>
    some (.ok (.submitRecvBuffer action.buffer action.length, .RecvStringWriter))
  | .kHelActionPushDescriptor =>
    match u.getDescriptor action.handle with
    | none => some (.error .kHelErrNoDescriptor)
    | some operand => some (.ok (.submitPushDescriptor operand, .PushDescriptorWriter))
  | .kHelActionPullDescriptor =>
    some (.ok (.submitPullDescriptor this_universe, .PullDescriptorWriter))
  | .other _ => none

/-- The lane stack (back first) after one iteration that executed `action`,
the `i`-th of the array, on `target`. -/
def nextStack (branch : Nat → LaneHandle) (i : Nat) (action : HelAction)
    (target : LaneHandle) (below : List LaneHandle) : List LaneHandle :=
  let stack := if action.chain then target :: below else below
  if action.pushesOutput then branch i :: stack else stack

/-- The writers two tokens are invoked with in the examples: token 0 with an
OfferWriter, every other token with a RecvInlineWriter holding two bytes. -/
def sampleWriters (i : Nat) : ItemWriter :=
  if i = 0 then .OfferWriter .kErrSuccess else .RecvInlineWriter .kErrSuccess [104, 105]

/-- An action with the given type and flags and no operands. -/
def sampleAction (type : HelActionType) (flags : Nat) : HelAction :=
  { type := type, flags := flags, buffer := 0, length := 0, handle := 0 }

/-- A push-descriptor action naming `handle`. -/
def samplePush (flags : Nat) (handle : Handle) : HelAction :=
  { type := .kHelActionPushDescriptor, flags := flags, buffer := 0, length := 0,
    handle := handle }

/-- The child lanes handed out in the examples: action `i` gets lane `10 + i`. -/
def sampleBranch (i : Nat) : LaneHandle := 10 + i

/-! ## System calls: common parts -/

/-- Modelled from the spec: kPageSize, the page size that offsets and lengths
must be multiples of (4096 in the spec's managed-fault scenario; the constant is
declared outside hel.cpp). -/
def kPageSize : Nat := 4096

/-- The flags hel.cpp passes to AddressSpace::map, by name; `map_flags` is the
list of the flags or-ed into it, in program order. -/
inductive MapFlag where
  | kMapFixed
  | kMapPreferTop
  | kMapReadOnly
  | kMapReadWrite
  | kMapReadExecute
  | kMapDropAtFork
  | kMapShareAtFork
  | kMapCopyOnWriteAtFork
  | kMapDontRequireBacking
  deriving DecidableEq, Repr

/-- A call from hel.cpp into kernel code that is not part of hel.cpp, with the
object it is invoked on and its arguments. -/
inductive KernelOp where
  | getLength (memory : ObjectId)
  | submitHandleLoad (memory space : ObjectId) (queue context : Nat)
  | completeLoad (memory : ObjectId) (offset length : Nat)
  | submitInitiateLoad (memory : ObjectId) (offset size : Nat) (space : ObjectId)
      (queue context : Nat)
  | submitObserve (thread : ThreadId) (space : ObjectId) (queue context : Nat)
  | resumeOther (thread : ThreadId)
  | foreignLoad (space : ObjectId) (address length : Nat)
  | acknowledge (irq : ObjectId)
  | submitAwait (irq space : ObjectId) (queue context : Nat)
  | enableInThread (ioSpace : ObjectId) (thread : ThreadId)
  | map (space memory : ObjectId) (pointer offset length : Nat) (map_flags : List MapFlag)
  | invalidateSpace
  | fork (space : ObjectId)
  | grabPhysical (space : ObjectId) (address : Nat)
  | makeAllocatedMemory (memory : ObjectId) (size : Nat) (continuous : Bool)
  | makeManagedSpace (managed : ObjectId) (size : Nat)
  | makeHardwareMemory (memory : ObjectId) (physical size : Nat)
  | setupDefaultMappings (space : ObjectId)
  | threadCreate (thread : ThreadId) (univ : UniverseId) (space : ObjectId) (ip sp : Nat)
  | schedulerAttach (thread : ThreadId)
  | attachIrq (pin : Int) (irq : ObjectId)
  | addPort (ioSpace : ObjectId) (port : Nat)
  deriving DecidableEq, Repr

/-- What a system call did: the kernel state it left, how it ended, the value
it stored through its out-pointer (if it stored one) and the calls it made
into the rest of the kernel, in order. -/
structure SysResult (α : Type) where
  state : KernelState
  outcome : Outcome
  out : Option α
  invoked : List KernelOp

/-- An early `return error;` before anything was touched. -/
def SysResult.fail {α : Type} (s : KernelState) (error : HelError) : SysResult α :=
  { state := s, outcome := .returned error, out := none, invoked := [] }

/-- A failed assertion before anything was touched. -/
def SysResult.assertFail {α : Type} (s : KernelState) : SysResult α :=
  { state := s, outcome := .assertionFailed, out := none, invoked := [] }

/-- The block `Universe::Guard lock(...); universe->attachDescriptor(lock, ...)`
on universe `univ`: the new state and the handle. -/
def attachIn (s : KernelState) (univ : UniverseId) (descriptor : AnyDescriptor) :
    KernelState × Handle :=
  let r := (s.universes univ).attachDescriptor descriptor
  ({ s with universes := Function.update s.universes univ r.2 }, r.1)

/-! ## Descriptor calls -/

/-- helCreateUniverse (hel.cpp 380-393); `new_universe` is the object that
makeShared returns. -/
def helCreateUniverse (s : KernelState) (this_thread : ThreadId) (new_universe : UniverseId) :
    SysResult Handle :=
  let r := attachIn s (s.threads this_thread).univ (.UniverseDescriptor new_universe)
  { state := r.1, outcome := .returned .kHelErrNone, out := some r.2, invoked := [] }

/-- helDescriptorInfo (hel.cpp 431-446): the switch has only a default case,
which asserts. -/
def helDescriptorInfo (s : KernelState) (this_thread : ThreadId) (handle : Handle) :
    SysResult Unit :=
  match (s.universes (s.threads this_thread).univ).getDescriptor handle with
  | none => SysResult.fail s .kHelErrNoDescriptor
  | some _ => SysResult.assertFail s

/-- helCloseDescriptor (hel.cpp 448-458). -/
def helCloseDescriptor (s : KernelState) (this_thread : ThreadId) (handle : Handle) :
    SysResult Unit :=
  let univ := (s.threads this_thread).univ
  let r := (s.universes univ).detachDescriptor handle
  if !r.1 then
    SysResult.fail s .kHelErrNoDescriptor
  else
    { state := { s with universes := Function.update s.universes univ r.2 },
      outcome := .returned .kHelErrNone, out := none, invoked := [] }

/-! ## Memory calls -/

/-- Modelled from the spec: the allocate flag `continuous` (declared in hel.h). -/
def kHelAllocContinuous : Nat := 4

/-- Modelled from the spec: the allocate flag `on-demand` (declared in hel.h). -/
def kHelAllocOnDemand : Nat := 1

/-- helAllocateMemory (hel.cpp 460-488); `memory` is the object that makeShared
returns. -/
def helAllocateMemory (s : KernelState) (this_thread : ThreadId) (size flags : Nat)
    (memory : ObjectId) : SysResult Handle :=
  if ¬ (size > 0) then SysResult.assertFail s
  else if ¬ (size % kPageSize = 0) then SysResult.assertFail s
  else
    let r := attachIn s (s.threads this_thread).univ (.MemoryAccessDescriptor memory)
    { state := r.1, outcome := .returned .kHelErrNone, out := some r.2,
      invoked := [.makeAllocatedMemory memory size (flags &&& kHelAllocContinuous != 0)] }

/-- helCreateManagedMemory (hel.cpp 490-512); `managed`, `backing_memory` and
`frontal_memory` are the objects that makeShared returns. -/
def helCreateManagedMemory (s : KernelState) (this_thread : ThreadId) (size _flags : Nat)
    (managed backing_memory frontal_memory : ObjectId) : SysResult (Handle × Handle) :=
  if ¬ (size > 0) then SysResult.assertFail s
  else if ¬ (size % kPageSize = 0) then SysResult.assertFail s
  else
    let r1 := attachIn s (s.threads this_thread).univ (.MemoryAccessDescriptor backing_memory)
    let r2 := attachIn r1.1 (s.threads this_thread).univ
      (.MemoryAccessDescriptor frontal_memory)
    { state := r2.1, outcome := .returned .kHelErrNone, out := some (r1.2, r2.2),
      invoked := [.makeManagedSpace managed size] }

/-- helAccessPhysical (hel.cpp 514-529); `memory` is the object that makeShared
returns. -/
def helAccessPhysical (s : KernelState) (this_thread : ThreadId) (physical size : Nat)
    (memory : ObjectId) : SysResult Handle :=
  if ¬ (physical % kPageSize = 0) then SysResult.assertFail s
  else if ¬ (size % kPageSize = 0) then SysResult.assertFail s
  else
    let r := attachIn s (s.threads this_thread).univ (.MemoryAccessDescriptor memory)
    { state := r.1, outcome := .returned .kHelErrNone, out := some r.2,
      invoked := [.makeHardwareMemory memory physical size] }

/-- helMemoryInfo (hel.cpp 729-747). -/
def helMemoryInfo (s : KernelState) (this_thread : ThreadId) (handle : Handle) :
    SysResult Nat :=
  match (s.universes (s.threads this_thread).univ).getDescriptor handle with
  | none => SysResult.fail s .kHelErrNoDescriptor
  | some (.MemoryAccessDescriptor memory) =>
    { state := s, outcome := .returned .kHelErrNone, out := some (s.memoryLength memory),
      invoked := [.getLength memory] }
  | some _ => SysResult.fail s .kHelErrBadDescriptor

/-- helSubmitManageMemory (hel.cpp 749-774). -/
def helSubmitManageMemory (s : KernelState) (this_thread : ThreadId) (handle : Handle)
    (queue context : Nat) : SysResult Unit :=
  match (s.universes (s.threads this_thread).univ).getDescriptor handle with
  | none => SysResult.fail s .kHelErrNoDescriptor
  | some (.MemoryAccessDescriptor memory) =>
    { state := s, outcome := .returned .kHelErrNone, out := none,
      invoked := [.submitHandleLoad memory (s.threads this_thread).addressSpace queue context] }
  | some _ => SysResult.fail s .kHelErrBadDescriptor

/-- helCompleteLoad (hel.cpp 776-798): the assertion comes first. -/
def helCompleteLoad (s : KernelState) (this_thread : ThreadId) (handle : Handle)
    (offset length : Nat) : SysResult Unit :=
  if ¬ (offset % kPageSize = 0 ∧ length % kPageSize = 0) then SysResult.assertFail s
  else
    match (s.universes (s.threads this_thread).univ).getDescriptor handle with
    | none => SysResult.fail s .kHelErrNoDescriptor
    | some (.MemoryAccessDescriptor memory) =>
      { state := s, outcome := .returned .kHelErrNone, out := none,
        invoked := [.completeLoad memory offset length] }
    | some _ => SysResult.fail s .kHelErrBadDescriptor

/-- helSubmitLockMemory (hel.cpp 800-826). -/
def helSubmitLockMemory (s : KernelState) (this_thread : ThreadId) (handle : Handle)
    (offset size queue context : Nat) : SysResult Unit :=
  match (s.universes (s.threads this_thread).univ).getDescriptor handle with
  | none => SysResult.fail s .kHelErrNoDescriptor
  | some (.MemoryAccessDescriptor memory) =>
    { state := s, outcome := .returned .kHelErrNone, out := none,
      invoked := [.submitInitiateLoad memory offset size
        (s.threads this_thread).addressSpace queue context] }
  | some _ => SysResult.fail s .kHelErrBadDescriptor

/-! ## Address-space calls -/

/-- Modelled from the spec: the map flag `RO` (declared in hel.h). -/
def kHelMapReadOnly : Nat := 1

/-- Modelled from the spec: the map flag `RW` (declared in hel.h). -/
def kHelMapReadWrite : Nat := 2

/-- Modelled from the spec: the map flag `RX` (declared in hel.h). -/
def kHelMapReadExecute : Nat := 4

/-- Modelled from the spec: the map flag for fork policy `drop` (declared in hel.h). -/
def kHelMapDropAtFork : Nat := 8

/-- Modelled from the spec: the map flag for fork policy `share` (declared in hel.h). -/
def kHelMapShareAtFork : Nat := 16

/-- Modelled from the spec: the map flag for fork policy `copy-on-write`
(declared in hel.h). -/
def kHelMapCopyOnWriteAtFork : Nat := 32

/-- Modelled from the spec: the map flag `don't-require-backing` (declared in hel.h). -/
def kHelMapDontRequireBacking : Nat := 64

/-- helCreateSpace (hel.cpp 531-544); `space` is the object that makeShared
returns. -/
def helCreateSpace (s : KernelState) (this_thread : ThreadId) (space : ObjectId) :
    SysResult Handle :=
  let r := attachIn s (s.threads this_thread).univ (.AddressSpaceDescriptor space)
  { state := r.1, outcome := .returned .kHelErrNone, out := some r.2,
    invoked := [.setupDefaultMappings space] }

/-- The address space selected by a space handle, where kHelNullHandle stands
for the space of the calling thread (hel.cpp 554-563, 606-615, 667-676, 882-891). -/
def resolveSpace (s : KernelState) (this_thread : ThreadId) (space_handle : Handle) :
    Except HelError ObjectId :=
  if space_handle = kHelNullHandle then
    .ok (s.threads this_thread).addressSpace
  else
    match (s.universes (s.threads this_thread).univ).getDescriptor space_handle with
    | none => .error .kHelErrNoDescriptor
    | some (.AddressSpaceDescriptor space) => .ok space
    | some _ => .error .kHelErrBadDescriptor

/-- helForkSpace (hel.cpp 546-578); `forked` is the space that fork() returns. -/
def helForkSpace (s : KernelState) (this_thread : ThreadId) (handle : Handle)
    (forked : ObjectId) : SysResult Handle :=
  match resolveSpace s this_thread handle with
  | .error e => SysResult.fail s e
  | .ok space =>
    let r := attachIn s (s.threads this_thread).univ (.AddressSpaceDescriptor forked)
    { state := r.1, outcome := .returned .kHelErrNone, out := some r.2,
      invoked := [.fork space] }

/-- The protection part of map_flags (hel.cpp 627-635); `none` is the failed
assertion of the last branch. -/
def mapProtection (flags : Nat) : Option MapFlag :=
  let mask := kHelMapReadOnly ||| kHelMapReadWrite ||| kHelMapReadExecute
  if flags &&& mask = kHelMapReadWrite then some .kMapReadWrite
  else if flags &&& mask = kHelMapReadExecute then some .kMapReadExecute
  else if flags &&& mask = kHelMapReadOnly then some .kMapReadOnly
  else none

/-- The fork-policy part of map_flags (hel.cpp 637-643). -/
def mapForkPolicy (flags : Nat) : List MapFlag :=
  if flags &&& kHelMapDropAtFork ≠ 0 then [.kMapDropAtFork]
  else if flags &&& kHelMapShareAtFork ≠ 0 then [.kMapShareAtFork]
  else if flags &&& kHelMapCopyOnWriteAtFork ≠ 0 then [.kMapCopyOnWriteAtFork]
  else []

/-- helMapMemory (hel.cpp 580-659); `actual_address` is the address that
AddressSpace::map stores. -/
def helMapMemory (s : KernelState) (this_thread : ThreadId)
    (memory_handle space_handle : Handle) (pointer offset length flags : Nat)
    (actual_address : Nat) : SysResult Nat :=
  if length = 0 then SysResult.fail s .kHelErrIllegalArgs
  else if pointer % kPageSize ≠ 0 then SysResult.fail s .kHelErrIllegalArgs
  else if offset % kPageSize ≠ 0 then SysResult.fail s .kHelErrIllegalArgs
  else if length % kPageSize ≠ 0 then SysResult.fail s .kHelErrIllegalArgs
  else
    match (s.universes (s.threads this_thread).univ).getDescriptor memory_handle with
    | none => SysResult.fail s .kHelErrNoDescriptor
    | some (.MemoryAccessDescriptor memory) =>
      match resolveSpace s this_thread space_handle with
      | .error e => SysResult.fail s e
      | .ok space =>
        match mapProtection flags with
        | none => SysResult.assertFail s
        | some protection =>
          let map_flags :=
            [if pointer ≠ 0 then MapFlag.kMapFixed else MapFlag.kMapPreferTop]
              ++ [protection] ++ mapForkPolicy flags
              ++ (if flags &&& kHelMapDontRequireBacking ≠ 0
                  then [MapFlag.kMapDontRequireBacking] else [])
          { state := s, outcome := .returned .kHelErrNone, out := some actual_address,
            invoked := [.map space memory pointer offset length map_flags, .invalidateSpace] }
    | some _ => SysResult.fail s .kHelErrBadDescriptor

/-- helPointerPhysical (hel.cpp 686-703); `page_physical` is what grabPhysical
returns. -/
def helPointerPhysical (s : KernelState) (this_thread : ThreadId) (pointer : Nat)
    (page_physical : Nat) : SysResult Nat :=
  let misalign := pointer % kPageSize
  { state := s, outcome := .returned .kHelErrNone,
    out := some ((page_physical + misalign) % sizeModulus),
    invoked := [.grabPhysical (s.threads this_thread).addressSpace (pointer - misalign)] }

/-- helLoadForeign (hel.cpp 705-727); `loaded` is the content that
accessor.load copies into the buffer. -/
def helLoadForeign (s : KernelState) (this_thread : ThreadId) (handle : Handle)
    (address length : Nat) (loaded : List Nat) : SysResult (List Nat) :=
  match (s.universes (s.threads this_thread).univ).getDescriptor handle with
  | none => SysResult.fail s .kHelErrNoDescriptor
  | some (.AddressSpaceDescriptor space) =>
    { state := s, outcome := .returned .kHelErrNone, out := some loaded,
      invoked := [.foreignLoad space address length] }
  | some _ => SysResult.fail s .kHelErrBadDescriptor

/-! ## Thread calls -/

/-- Modelled from the spec: the create-thread flag `exclusive` (declared in hel.h). -/
def kHelThreadExclusive : Nat := 1

/-- Modelled from the spec: the create-thread flag `traps-fatal` (declared in hel.h). -/
def kHelThreadTrapsAreFatal : Nat := 8

/-- Modelled from the spec: the create-thread flag `start-stopped` (declared in hel.h). -/
def kHelThreadStopped : Nat := 16

/-- The universe selected by helCreateThread, where kHelNullHandle stands for
the universe of the calling thread (hel.cpp 871-880). -/
def resolveThreadUniverse (s : KernelState) (this_thread : ThreadId)
    (universe_handle : Handle) : Except HelError UniverseId :=
  if universe_handle = kHelNullHandle then
    .ok (s.threads this_thread).univ
  else
    match (s.universes (s.threads this_thread).univ).getDescriptor universe_handle with
    | none => .error .kHelErrNoDescriptor
    | some (.UniverseDescriptor univ) => .ok univ
    | some _ => .error .kHelErrBadDescriptor

/-- helCreateThread (hel.cpp 856-916); `new_thread` is the thread object that
Thread::create returns and `created` its initial content.  `flags` is a
uint32_t, so `~(...)` is taken in 32 bits. -/
def helCreateThread (s : KernelState) (this_thread : ThreadId)
    (universe_handle space_handle : Handle) (ip sp flags : Nat)
    (new_thread : ThreadId) (created : Thread) : SysResult Handle :=
  if flags &&& (uintModulus - 1 -
      (kHelThreadExclusive ||| kHelThreadTrapsAreFatal ||| kHelThreadStopped)) ≠ 0 then
    SysResult.fail s .kHelErrIllegalArgs
  else
    match resolveThreadUniverse s this_thread universe_handle with
    | .error e => SysResult.fail s e
    | .ok univ =>
      match resolveSpace s this_thread space_handle with
      | .error e => SysResult.fail s e
      | .ok space =>
        let thread : Thread :=
          { created with
            flags :=
              { kFlagExclusive :=
                  created.flags.kFlagExclusive || (flags &&& kHelThreadExclusive != 0),
                kFlagTrapsAreFatal :=
                  created.flags.kFlagTrapsAreFatal
                    || (flags &&& kHelThreadTrapsAreFatal != 0) } }
        let s1 := { s with threads := Function.update s.threads new_thread thread }
        let r := attachIn s1 (s.threads this_thread).univ (.ThreadDescriptor new_thread)
        { state := r.1, outcome := .returned .kHelErrNone, out := some r.2,
          invoked :=
            [.threadCreate new_thread univ space ip sp, .schedulerAttach new_thread]
              ++ (if flags &&& kHelThreadStopped = 0 then [.resumeOther new_thread] else []) }

/-- helSubmitObserve (hel.cpp 926-947). -/
def helSubmitObserve (s : KernelState) (this_thread : ThreadId) (handle : Handle)
    (queue context : Nat) : SysResult Unit :=
  match (s.universes (s.threads this_thread).univ).getDescriptor handle with
  | none => SysResult.fail s .kHelErrNoDescriptor
  | some (.ThreadDescriptor thread) =>
    { state := s, outcome := .returned .kHelErrNone, out := none,
      invoked := [.submitObserve thread (s.threads this_thread).addressSpace queue context] }
  | some _ => SysResult.fail s .kHelErrBadDescriptor

/-- helResume (hel.cpp 949-968). -/
def helResume (s : KernelState) (this_thread : ThreadId) (handle : Handle) :
    SysResult Unit :=
  match (s.universes (s.threads this_thread).univ).getDescriptor handle with
  | none => SysResult.fail s .kHelErrNoDescriptor
  | some (.ThreadDescriptor thread) =>
    { state := s, outcome := .returned .kHelErrNone, out := none,
      invoked := [.resumeOther thread] }
  | some _ => SysResult.fail s .kHelErrBadDescriptor

/-- The value of the `set` argument as the if-chains of helLoadRegisters and
helStoreRegisters see it: one of the four named register sets, or any other
value. -/
inductive RegisterSet where
  | kHelRegsProgram
  | kHelRegsGeneral
  | kHelRegsThread
  | kHelRegsDebug
  | other (value : Int)
  deriving DecidableEq, Repr

/-- helLoadRegisters (hel.cpp 970-1016); the out-value lists the words stored
to accessor[0], accessor[1], ... of the image. -/
def helLoadRegisters (s : KernelState) (this_thread : ThreadId) (handle : Handle)
    (set : RegisterSet) : SysResult (List Nat) :=
  match (s.universes (s.threads this_thread).univ).getDescriptor handle with
  | none => SysResult.fail s .kHelErrNoDescriptor
  | some (.ThreadDescriptor thread) =>
    let executor := (s.threads thread).executor
    match set with
    | .kHelRegsProgram =>
      { state := s, outcome := .returned .kHelErrNone,
        out := some [executor.ip, executor.sp], invoked := [] }
    | .kHelRegsGeneral =>
      { state := s, outcome := .returned .kHelErrNone,
        out := some [executor.general.rax, executor.general.rbx, executor.general.rcx,
          executor.general.rdx, executor.general.rdi, executor.general.rsi,
          executor.general.r8, executor.general.r9, executor.general.r10,
          executor.general.r11, executor.general.r12, executor.general.r13,
          executor.general.r14, executor.general.r15, executor.general.rbp],
        invoked := [] }
    | .kHelRegsThread =>
      { state := s, outcome := .returned .kHelErrNone,
        out := some [executor.general.clientFs, executor.general.clientGs], invoked := [] }
    | _ => SysResult.fail s .kHelErrIllegalArgs
  | some _ => SysResult.fail s .kHelErrBadDescriptor

/-- The thread selected by helStoreRegisters, where kHelThisThread stands for
the calling thread (hel.cpp 1024-1037). -/
def resolveStoreThread (s : KernelState) (this_thread : ThreadId) (handle : Handle) :
    Except HelError ThreadId :=
  if handle = kHelThisThread then
    .ok this_thread
  else
    match (s.universes (s.threads this_thread).univ).getDescriptor handle with
    | none => .error .kHelErrNoDescriptor
    | some (.ThreadDescriptor thread) => .ok thread
    | some _ => .error .kHelErrBadDescriptor

/-- The thread `thread` with its executor replaced. -/
def setExecutor (s : KernelState) (thread : ThreadId) (executor : Executor) : KernelState :=
  let old := s.threads thread
  { s with threads := Function.update s.threads thread { old with executor := executor } }

/-- helStoreRegisters (hel.cpp 1020-1074); `image k` is the word accessor[k]
of the image. -/
def helStoreRegisters (s : KernelState) (this_thread : ThreadId) (handle : Handle)
    (set : RegisterSet) (image : Nat → Nat) : SysResult Unit :=
  match resolveStoreThread s this_thread handle with
  | .error e => SysResult.fail s e
  | .ok thread =>
    let executor := (s.threads thread).executor
    match set with
    | .kHelRegsProgram =>
      { state := setExecutor s thread { executor with ip := image 0, sp := image 1 },
        outcome := .returned .kHelErrNone, out := none, invoked := [] }
    | .kHelRegsGeneral =>
      { state := setExecutor s thread
          { executor with
            general :=
              { executor.general with
                rax := image 0, rbx := image 1, rcx := image 2, rdx := image 3,
                rdi := image 4, rsi := image 5, r8 := image 6, r9 := image 7,
                r10 := image 8, r11 := image 9, r12 := image 10, r13 := image 11,
                r14 := image 12, r15 := image 13, rbp := image 14 } },
        outcome := .returned .kHelErrNone, out := none, invoked := [] }
    | .kHelRegsThread =>
      { state := setExecutor s thread
          { executor with
            general := { executor.general with clientFs := image 0, clientGs := image 1 } },
        outcome := .returned .kHelErrNone, out := none, invoked := [] }
    | .kHelRegsDebug =>
      { state := { s with breakOnWrite := some (image 0) },
        outcome := .returned .kHelErrNone, out := none, invoked := [] }
    | .other _ => SysResult.fail s .kHelErrIllegalArgs

/-! ## Clock, stream, IRQ and I/O calls -/

/-- helGetClock (hel.cpp 1081-1084); `nanos` is what currentNanos() returns. -/
def helGetClock (s : KernelState) (nanos : Nat) : SysResult Nat :=
  { state := s, outcome := .returned .kHelErrNone, out := some nanos, invoked := [] }

/-- helCreateStream (hel.cpp 1124-1138); `lane1` and `lane2` are the two lanes
that createStream() returns. -/
def helCreateStream (s : KernelState) (this_thread : ThreadId) (lane1 lane2 : LaneHandle) :
    SysResult (Handle × Handle) :=
  let r1 := attachIn s (s.threads this_thread).univ (.LaneDescriptor lane1)
  let r2 := attachIn r1.1 (s.threads this_thread).univ (.LaneDescriptor lane2)
  { state := r2.1, outcome := .returned .kHelErrNone, out := some (r1.2, r2.2),
    invoked := [] }

/-- helAccessIrq (hel.cpp 1291-1304); `irq` is the object that makeShared
returns.  The pin is `globalSystemIrqs[number]`, recorded by its index. -/
def helAccessIrq (s : KernelState) (this_thread : ThreadId) (number : Int) (irq : ObjectId) :
    SysResult Handle :=
  let r := attachIn s (s.threads this_thread).univ (.IrqDescriptor irq)
  { state := r.1, outcome := .returned .kHelErrNone, out := some r.2,
    invoked := [.attachIrq number irq] }

/-- helAcknowledgeIrq (hel.cpp 1308-1326). -/
def helAcknowledgeIrq (s : KernelState) (this_thread : ThreadId) (handle : Handle) :
    SysResult Unit :=
  match (s.universes (s.threads this_thread).univ).getDescriptor handle with
  | none => SysResult.fail s .kHelErrNoDescriptor
  | some (.IrqDescriptor irq) =>
    { state := s, outcome := .returned .kHelErrNone, out := none,
      invoked := [.acknowledge irq] }
  | some _ => SysResult.fail s .kHelErrBadDescriptor

/-- helSubmitWaitForIrq (hel.cpp 1327-1352). -/
def helSubmitWaitForIrq (s : KernelState) (this_thread : ThreadId) (handle : Handle)
    (queue context : Nat) : SysResult Unit :=
  match (s.universes (s.threads this_thread).univ).getDescriptor handle with
  | none => SysResult.fail s .kHelErrNoDescriptor
  | some (.IrqDescriptor irq) =>
    { state := s, outcome := .returned .kHelErrNone, out := none,
      invoked := [.submitAwait irq (s.threads this_thread).addressSpace queue context] }
  | some _ => SysResult.fail s .kHelErrBadDescriptor

/-- helAccessIo (hel.cpp 1354-1370); `ports` is the user array of `num_ports`
ports and `io_space` the object that makeShared returns. -/
def helAccessIo (s : KernelState) (this_thread : ThreadId) (ports : List Nat)
    (io_space : ObjectId) : SysResult Handle :=
  let r := attachIn s (s.threads this_thread).univ (.IoDescriptor io_space)
  { state := r.1, outcome := .returned .kHelErrNone, out := some r.2,
    invoked := ports.map (fun port => KernelOp.addPort io_space port) }

/-- helEnableIo (hel.cpp 1372-1391). -/
def helEnableIo (s : KernelState) (this_thread : ThreadId) (handle : Handle) :
    SysResult Unit :=
  match (s.universes (s.threads this_thread).univ).getDescriptor handle with
  | none => SysResult.fail s .kHelErrNoDescriptor
  | some (.IoDescriptor io_space) =>
    { state := s, outcome := .returned .kHelErrNone, out := none,
      invoked := [.enableInThread io_space this_thread] }
  | some _ => SysResult.fail s .kHelErrBadDescriptor

/-! ## ObserveThreadWriter -/

/-- The interrupt codes of the kernel (enum Interrupt) and the observation
codes of the user interface that ObserveThreadWriter::write names; both
enumerations are declared outside hel.cpp, so their values are parameters. -/
structure ObserveCodes where
  kIntrStop : Nat
  kIntrPanic : Nat
  kIntrBreakpoint : Nat
  kIntrPageFault : Nat
  kIntrSuperCall : Nat
  kHelObserveStop : Nat
  kHelObservePanic : Nat
  kHelObserveBreakpoint : Nat
  kHelObservePageFault : Nat
  kHelObserveSuperCall : Nat
  deriving DecidableEq, Repr

/-- The if-chain of ObserveThreadWriter::write (hel.cpp 262-276): the value of
the unsigned int `observation`, or `none` for the panic of the last branch. -/
def ObserveThreadWriter.observation (codes : ObserveCodes) (interrupt : Nat) : Option Nat :=
  if interrupt = codes.kIntrStop then some codes.kHelObserveStop
  else if interrupt = codes.kIntrPanic then some codes.kHelObservePanic
  else if interrupt = codes.kIntrBreakpoint then some codes.kHelObserveBreakpoint
  else if interrupt = codes.kIntrPageFault then some codes.kHelObservePageFault
  else if interrupt ≥ codes.kIntrSuperCall then
    some ((codes.kHelObserveSuperCall + (interrupt - codes.kIntrSuperCall)) % uintModulus)
  else none

/-- ObserveThreadWriter::write (hel.cpp 261-280): the copyTo call it makes, or
`none` when it panics or translateError asserts. -/
def ObserveThreadWriter.write (codes : ObserveCodes) (error : Error) (interrupt : Nat) :
    Option (List CopyTo) :=
  (ObserveThreadWriter.observation codes interrupt).bind fun observation =>
    (translateError error).map fun e =>
      [{ disp := 0, data := .HelObserveResult e observation 0, size := sizeofHelSimpleResult }]

/-- The test `is<MemoryAccessDescriptor>()` on a descriptor. -/
def AnyDescriptor.isMemoryAccessDescriptor : AnyDescriptor → Bool
  | .MemoryAccessDescriptor _ => true
  | _ => false

/-- The test `is<AddressSpaceDescriptor>()` on a descriptor. -/
def AnyDescriptor.isAddressSpaceDescriptor : AnyDescriptor → Bool
  | .AddressSpaceDescriptor _ => true
  | _ => false

/-- The test `is<ThreadDescriptor>()` on a descriptor. -/
def AnyDescriptor.isThreadDescriptor : AnyDescriptor → Bool
  | .ThreadDescriptor _ => true
  | _ => false

/-- The test `is<IrqDescriptor>()` on a descriptor. -/
def AnyDescriptor.isIrqDescriptor : AnyDescriptor → Bool
  | .IrqDescriptor _ => true
  | _ => false

/-- The test `is<IoDescriptor>()` on a descriptor. -/
def AnyDescriptor.isIoDescriptor : AnyDescriptor → Bool
  | .IoDescriptor _ => true
  | _ => false

/-- Interrupt and observation codes used to evaluate ObserveThreadWriter: the
four named interrupts are 1 to 4 and the supercalls start at 2^31 on both
sides. -/
def sampleObserveCodes : ObserveCodes :=
  { kIntrStop := 1, kIntrPanic := 2, kIntrBreakpoint := 3, kIntrPageFault := 4,
    kIntrSuperCall := 2147483648,
    kHelObserveStop := 1, kHelObservePanic := 2, kHelObserveBreakpoint := 3,
    kHelObservePageFault := 4, kHelObserveSuperCall := 2147483648 }

/-- A register image whose word `k` is `1000 + k`. -/
def sampleImage (k : Nat) : Nat := 1000 + k

/-- A handler of two results: an offer that succeeded and a send whose peer
closed the lane. -/
def sampleFailedBatch : MsgHandler :=
  { results := [some (.OfferWriter .kErrSuccess), some (.SendStringWriter .kErrClosedRemotely)],
    numComplete := 2, space := 0, queue := 5, context := 6 }

/-! ## Remaining record writers -/

/-- Modelled from the spec: sizeof(HelObserveResult), the record
`observe {err, observation, _}` of three fields in a layout with 8-byte
alignment (the struct is declared in hel.h). -/
def sizeofHelObserveResult : Nat := 16

/-- ObserveThreadWriter::size (hel.cpp 257-259). -/
def ObserveThreadWriter.size : Nat := sizeofHelObserveResult

/-- LockMemoryWriter::size and AwaitIrqWriter::size (hel.cpp 79-81, 240-242). -/
def LockMemoryWriter.size : Nat := sizeofHelSimpleResult

/-- LockMemoryWriter::write and AwaitIrqWriter::write (hel.cpp 83-86, 244-247),
which have the same body. -/
def LockMemoryWriter.write (error : Error) : Option (List CopyTo) :=
  (translateError error).map fun e =>
    [{ disp := 0, data := .HelSimpleResult e 0, size := sizeofHelSimpleResult }]

/-! ## The IRQ pin table -/

/-- The number of entries of `globalSystemIrqs` (hel.cpp 1288). -/
def globalSystemIrqsSize : Nat := 16

/-- Is the index that helAccessIrq uses inside the pin table. -/
def pinIndexInBounds (number : Int) : Bool :=
  decide (0 ≤ number ∧ number < globalSystemIrqsSize)

/-! ## Futex -/

/-- Modelled from the spec: the futex of an address space (`space->futexSpace`,
a class declared outside hel.cpp): for each virtual address the queue of
waiters.  A waiter is the thread whose callback is to be run on wake. -/
structure FutexSpace where
  queues : Nat → List ThreadId

/-- Modelled from the spec: Futex::waitIf(address, condition, functor): "if it
equals `expected`, enqueue and block; otherwise return immediately".  The
result tells whether the functor was run at once (the caller does not wait). -/
def FutexSpace.waitIf (f : FutexSpace) (address : Nat) (condition : Bool)
    (waiter : ThreadId) : FutexSpace × Bool :=
  if condition then
    ({ queues := Function.update f.queues address (f.queues address ++ [waiter]) }, false)
  else
    (f, true)

/-- Modelled from the spec: Futex::wake(address): "wake all threads enqueued on
`addr`": the queue of the address is emptied and the functor of each of its
waiters is run. -/
def FutexSpace.wake (f : FutexSpace) (address : Nat) : FutexSpace × List ThreadId :=
  ({ queues := Function.update f.queues address [] }, f.queues address)

/-- The futexes of all address spaces and, for each thread, whether it is
inside `Thread::blockCurrentWhile` of helFutexWait with `complete` still
false. -/
structure FutexWorld where
  futexSpace : ObjectId → FutexSpace
  waiting : ThreadId → Bool

/-- How a call of helFutexWait stands after its last statement that can run:
it has returned, or the caller is blocked in blockCurrentWhile. -/
inductive WaitOutcome where
  | returned (error : HelError)
  | blocked
  deriving DecidableEq, Repr

/-- helFutexWait (hel.cpp 1249-1271); `loaded` is the value that
`__atomic_load_n(pointer, ...)` yields inside the condition. -/
def helFutexWait (s : KernelState) (w : FutexWorld) (this_thread : ThreadId)
    (pointer : Nat) (expected loaded : Int) : FutexWorld × WaitOutcome :=
  let space := (s.threads this_thread).addressSpace
  let r := (w.futexSpace space).waitIf pointer (expected == loaded) this_thread
  let complete := r.2
  let w1 : FutexWorld := { w with futexSpace := Function.update w.futexSpace space r.1 }
  if complete then
    (w1, .returned .kHelErrNone)
  else
    ({ w1 with waiting := Function.update w1.waiting this_thread true }, .blocked)

/-- The callback that helFutexWait hands to waitIf, run for each woken
waiter: `complete.store(true)` and `Thread::unblockOther`, after which the
waiter leaves blockCurrentWhile and its helFutexWait returns kHelErrNone. -/
def runWaitCallbacks (waiting : ThreadId → Bool) : List ThreadId → ThreadId → Bool
  | [], t => waiting t
  | waiter :: rest, t => runWaitCallbacks (Function.update waiting waiter false) rest t

/-- helFutexWake (hel.cpp 1273-1284). -/
def helFutexWake (s : KernelState) (w : FutexWorld) (this_thread : ThreadId)
    (pointer : Nat) : FutexWorld × HelError :=
  let space := (s.threads this_thread).addressSpace
  let r := (w.futexSpace space).wake pointer
  ({ futexSpace := Function.update w.futexSpace space r.1,
     waiting := runWaitCallbacks w.waiting r.2 },
   .kHelErrNone)

/-- A world in which no thread waits on any futex. -/
def sampleFutexWorld : FutexWorld :=
  { futexSpace := fun _ => { queues := fun _ => [] }, waiting := fun _ => false }

/-- The test `is<LaneDescriptor>()` on a descriptor. -/
def AnyDescriptor.isLaneDescriptor : AnyDescriptor → Bool
  | .LaneDescriptor _ => true
  | _ => false

/-- A pull-descriptor action. -/
def samplePull : HelAction := sampleAction .kHelActionPullDescriptor 0

/-! ## The UART driver (src/drivers/uart/src/main.cpp) -/

/-- ReadRequest (main.cpp 25-33): the address of the destination buffer and
`maxLength`; the promise is identified with the request. -/
structure ReadRequest where
  buffer : Nat
  maxLength : Nat
  deriving DecidableEq, Repr

/-- What processRecv did for one request: the bytes it stored to
`req->buffer[0]`, `req->buffer[1]`, ... in order, and the value passed to
`req->promise.set_value`. -/
structure ReadCompletion where
  request : ReadRequest
  stored : List Nat
  value : Nat
  deriving DecidableEq, Repr

/-- The two globals of the driver: the queue `recvRequests` (front first) and
the deque `recvBuffer` (front first). -/
structure UartState where
  recvRequests : List ReadRequest
  recvBuffer : List Nat
  deriving DecidableEq, Repr

/-- The for loop of processRecv (main.cpp 52-55) with `count` iterations left:
each iteration stores `recvBuffer[0]` to the next byte of the request buffer
and pops the front of the deque.  The result is the bytes stored, in order, and
the deque left; `none` if `recvBuffer[0]` is read from an empty deque. -/
def processRecv.copyLoop : Nat → List Nat → Option (List Nat × List Nat)
  | 0, recvBuffer => some ([], recvBuffer)
  | _ + 1, [] => none
  | count + 1, byte :: rest =>
    (processRecv.copyLoop count rest).map fun r => (byte :: r.1, r.2)

/-- processRecv (main.cpp 47-61): the state it leaves and the requests it
completed, in order.  Every iteration of the while loop pops the front request,
so the loop is a recursion on the queue. -/
def processRecv : List ReadRequest → List Nat → Option (UartState × List ReadCompletion)
  | [], recvBuffer => some ({ recvRequests := [], recvBuffer := recvBuffer }, [])
  | req :: rest, recvBuffer =>
    if recvBuffer.isEmpty then
      some ({ recvRequests := req :: rest, recvBuffer := recvBuffer }, [])
    else
      let read_size := min req.maxLength recvBuffer.length
      (processRecv.copyLoop read_size recvBuffer).bind fun r =>
        (processRecv rest r.2).map fun t =>
          (t.1, { request := req, stored := r.1, value := read_size } :: t.2)

/-! # Theorems -/

/-! ## Universe lemmas -/

lemma getDescriptor_attach_self (u : Universe) (d : AnyDescriptor) :
    (u.attachDescriptor d).2.getDescriptor (u.attachDescriptor d).1 = some d := by
  simp [Universe.attachDescriptor, Universe.getDescriptor, List.lookup]

lemma getDescriptor_attach_of_ne (u : Universe) (d : AnyDescriptor) (h : Handle)
    (hne : h ≠ u.nextHandle) :
    (u.attachDescriptor d).2.getDescriptor h = u.getDescriptor h := by
  have hb : (h == u.nextHandle) = false := by simpa using hne
  simp [Universe.attachDescriptor, Universe.getDescriptor, List.lookup, hb]

/-- Attaching a copy of the descriptor that `h` resolves to never changes what
`h` resolves to, whichever handle the allocator hands out. -/
lemma getDescriptor_attach_copy (u : Universe) (d : AnyDescriptor) (h : Handle)
    (hd : u.getDescriptor h = some d) :
    (u.attachDescriptor d).2.getDescriptor h = some d := by
  by_cases hne : h = u.nextHandle
  · subst hne
    exact getDescriptor_attach_self u d
  · rw [getDescriptor_attach_of_ne u d h hne, hd]

lemma resolveTargetUniverse_of_absent (tu : UniverseId) (u : Universe) (uh : Handle)
    (hs : uh ≠ kHelThisUniverse) (ha : u.getDescriptor uh = none) :
    resolveTargetUniverse tu u uh = .error .kHelErrNoDescriptor := by
  simp [resolveTargetUniverse, hs, ha]

lemma resolveTargetUniverse_of_other (tu : UniverseId) (u : Universe) (uh : Handle)
    (d : AnyDescriptor) (hs : uh ≠ kHelThisUniverse) (ha : u.getDescriptor uh = some d)
    (hd : d.isUniverseDescriptor = false) :
    resolveTargetUniverse tu u uh = .error .kHelErrBadDescriptor := by
  cases d <;> simp_all [resolveTargetUniverse, AnyDescriptor.isUniverseDescriptor]

lemma resolveTargetUniverse_error_ne_none (tu : UniverseId) (u : Universe) (uh : Handle)
    (e : HelError) (ht : resolveTargetUniverse tu u uh = .error e) : e ≠ .kHelErrNone := by
  intro h
  subst h
  unfold resolveTargetUniverse at ht
  split at ht
  · cases ht
  · split at ht <;> cases ht

lemma helTransferDescriptor_of_absent (s : KernelState) (t : ThreadId) (handle uh : Handle)
    (hd : (s.universes (s.threads t).univ).getDescriptor handle = none) :
    helTransferDescriptor s t handle uh
      = { state := s, error := .kHelErrNoDescriptor, out := none } := by
  simp [helTransferDescriptor, hd]

lemma helTransferDescriptor_of_target_error (s : KernelState) (t : ThreadId)
    (handle uh : Handle) (d : AnyDescriptor) (e : HelError)
    (hd : (s.universes (s.threads t).univ).getDescriptor handle = some d)
    (ht : resolveTargetUniverse (s.threads t).univ (s.universes (s.threads t).univ) uh
      = .error e) :
    helTransferDescriptor s t handle uh = { state := s, error := e, out := none } := by
  simp [helTransferDescriptor, hd, ht]

lemma helTransferDescriptor_of_target_ok (s : KernelState) (t : ThreadId)
    (handle uh : Handle) (d : AnyDescriptor) (target : UniverseId)
    (hd : (s.universes (s.threads t).univ).getDescriptor handle = some d)
    (ht : resolveTargetUniverse (s.threads t).univ (s.universes (s.threads t).univ) uh
      = .ok target) :
    helTransferDescriptor s t handle uh
      = { state := { s with universes := Function.update s.universes target
                              ((s.universes target).attachDescriptor d).2 },
          error := .kHelErrNone,
          out := some ((s.universes target).attachDescriptor d).1 } := by
  simp [helTransferDescriptor, hd, ht]

/-- C9 (as stated, refuted): the source handle 1 is attached, the target-universe
handle 9 is neither the this-universe sentinel nor a handle to a universe
descriptor (it is not attached at all), and helTransferDescriptor returns
no-descriptor, not bad-descriptor. -/
theorem helTransferDescriptor_absent_target_not_bad_descriptor :
    (sampleState.universes (sampleState.threads 0).univ).getDescriptor 1
        = some (.MemoryAccessDescriptor 0) ∧
      (9 : Handle) ≠ kHelThisUniverse ∧
      ((sampleState.universes (sampleState.threads 0).univ).getDescriptor 9).all
        (fun d => !d.isUniverseDescriptor) = true ∧
      (helTransferDescriptor sampleState 0 1 9).error = .kHelErrNoDescriptor ∧
      (helTransferDescriptor sampleState 0 1 9).error ≠ .kHelErrBadDescriptor := by
  decide

/-- C9 (amended): helTransferDescriptor returns no-descriptor whenever the source
handle is absent from the caller's universe, for every target-universe handle.
When the source handle is present and the target-universe handle is not the
this-universe sentinel, it returns no-descriptor if the target-universe handle
is absent and bad-descriptor if it is attached to a descriptor that is not a
universe descriptor. -/
theorem helTransferDescriptor_error_codes (s : KernelState) (this_thread : ThreadId)
    (handle universe_handle : Handle) :
    ((s.universes (s.threads this_thread).univ).getDescriptor handle = none →
      (helTransferDescriptor s this_thread handle universe_handle).error
        = .kHelErrNoDescriptor) ∧
    (∀ d, (s.universes (s.threads this_thread).univ).getDescriptor handle = some d →
      universe_handle ≠ kHelThisUniverse →
      ((s.universes (s.threads this_thread).univ).getDescriptor universe_handle = none →
        (helTransferDescriptor s this_thread handle universe_handle).error
          = .kHelErrNoDescriptor) ∧
      (∀ t, (s.universes (s.threads this_thread).univ).getDescriptor universe_handle = some t →
        t.isUniverseDescriptor = false →
        (helTransferDescriptor s this_thread handle universe_handle).error
          = .kHelErrBadDescriptor)) := by
  refine ⟨fun h => ?_, fun d hd hs => ⟨fun ha => ?_, fun t ht hu => ?_⟩⟩
  · simp [helTransferDescriptor, h]
  · simp [helTransferDescriptor, hd, resolveTargetUniverse_of_absent _ _ _ hs ha]
  · simp [helTransferDescriptor, hd, resolveTargetUniverse_of_other _ _ _ t hs ht hu]

/-- Witness for C9 (amended): an absent source (handle 9), an absent target
universe handle (9) and a target handle attached to a lane descriptor (2). -/
theorem helTransferDescriptor_error_codes_witness :
    (helTransferDescriptor sampleState 0 9 3).error = .kHelErrNoDescriptor ∧
    (helTransferDescriptor sampleState 0 1 9).error = .kHelErrNoDescriptor ∧
    (helTransferDescriptor sampleState 0 1 2).error = .kHelErrBadDescriptor :=
  ⟨(helTransferDescriptor_error_codes sampleState 0 9 3).1 (by decide),
   ((helTransferDescriptor_error_codes sampleState 0 1 9).2 (.MemoryAccessDescriptor 0)
      (by decide) (by decide)).1 (by decide),
   ((helTransferDescriptor_error_codes sampleState 0 1 2).2 (.MemoryAccessDescriptor 0)
      (by decide) (by decide)).2 (.LaneDescriptor 7) (by decide) (by decide)⟩

lemma resolveTargetUniverse_of_ok (tu : UniverseId) (u : Universe) (uh : Handle)
    (target : UniverseId) (ht : resolveTargetUniverse tu u uh = .ok target) :
    (uh = kHelThisUniverse ∧ target = tu) ∨
    (uh ≠ kHelThisUniverse ∧ u.getDescriptor uh = some (.UniverseDescriptor target)) := by
  unfold resolveTargetUniverse at ht
  split at ht
  · next h =>
    cases ht
    exact Or.inl ⟨h, rfl⟩
  · next h =>
    split at ht
    · cases ht
    · next univ hg =>
      cases ht
      exact Or.inr ⟨h, hg⟩
    · cases ht

/-- C10: when helTransferDescriptor returns none, the source handle resolved to
a descriptor before the call and still resolves to it afterwards in the
caller's universe, and the out-handle was written and resolves to that same
descriptor (a reference to the same object) in the target universe, which is
the caller's own universe when universe_handle is the this-universe sentinel
and otherwise the universe of the universe descriptor that universe_handle
resolves to in the caller's universe; every universe other than the target is
as before, and in the target every handle other than the out-handle resolves
as before.  When it returns an error, the kernel state (hence both universes)
is unchanged and no handle is written.  So the source handle is never
consumed. -/
theorem helTransferDescriptor_frame (s : KernelState) (this_thread : ThreadId)
    (handle universe_handle : Handle) :
    ((helTransferDescriptor s this_thread handle universe_handle).error = .kHelErrNone →
      ∃ d target out,
        (s.universes (s.threads this_thread).univ).getDescriptor handle = some d ∧
        ((universe_handle = kHelThisUniverse ∧ target = (s.threads this_thread).univ) ∨
         (universe_handle ≠ kHelThisUniverse ∧
          (s.universes (s.threads this_thread).univ).getDescriptor universe_handle
            = some (.UniverseDescriptor target))) ∧
        (helTransferDescriptor s this_thread handle universe_handle).out = some out ∧
        (((helTransferDescriptor s this_thread handle universe_handle).state.universes
          (s.threads this_thread).univ).getDescriptor handle = some d) ∧
        (((helTransferDescriptor s this_thread handle universe_handle).state.universes
          target).getDescriptor out = some d) ∧
        (∀ other, other ≠ target →
          (helTransferDescriptor s this_thread handle universe_handle).state.universes other
            = s.universes other) ∧
        (∀ h, h ≠ out →
          ((helTransferDescriptor s this_thread handle universe_handle).state.universes
            target).getDescriptor h = (s.universes target).getDescriptor h)) ∧
    ((helTransferDescriptor s this_thread handle universe_handle).error ≠ .kHelErrNone →
      (helTransferDescriptor s this_thread handle universe_handle).state = s ∧
      (helTransferDescriptor s this_thread handle universe_handle).out = none) := by
  cases hd : (s.universes (s.threads this_thread).univ).getDescriptor handle with
  | none =>
    rw [helTransferDescriptor_of_absent s this_thread handle universe_handle hd]
    simp
  | some d =>
    cases ht : resolveTargetUniverse (s.threads this_thread).univ
        (s.universes (s.threads this_thread).univ) universe_handle with
    | error e =>
      rw [helTransferDescriptor_of_target_error s this_thread handle universe_handle d e hd ht]
      have he : e ≠ .kHelErrNone := resolveTargetUniverse_error_ne_none _ _ _ e ht
      simp [he]
    | ok target =>
      rw [helTransferDescriptor_of_target_ok s this_thread handle universe_handle d target hd ht]
      simp only [true_implies, ne_eq, not_true_eq_false, false_implies, and_true]
      refine ⟨d, target, _, rfl, resolveTargetUniverse_of_ok _ _ _ target ht, rfl, ?_, ?_,
        ?_, ?_⟩
      · by_cases hx : (s.threads this_thread).univ = target
        · subst hx
          simp only [Function.update_same]
          exact getDescriptor_attach_copy _ d handle hd
        · simp only [Function.update_noteq hx]
          exact hd
      · simp only [Function.update_same]
        exact getDescriptor_attach_self _ d
      · intro other hother
        simp only [Function.update_noteq hother]
      · intro h hh
        simp only [Function.update_same]
        exact getDescriptor_attach_of_ne _ d h hh

/-- Witness for C10: thread 0 transfers its memory handle 1 through handle 3,
which names universe 1: the new handle 1 of universe 1 resolves to the memory
object, universe 0 is as before and handle 1 still resolves there.  A transfer
into the caller's own universe succeeds too, and a transfer of an absent handle
fails with the state unchanged. -/
theorem helTransferDescriptor_frame_witness :
    ((helTransferDescriptor sampleState 0 1 3).out = some 1 ∧
     ((helTransferDescriptor sampleState 0 1 3).state.universes 1).getDescriptor 1
        = some (.MemoryAccessDescriptor 0) ∧
     ((helTransferDescriptor sampleState 0 1 3).state.universes 0) = sampleUniverse ∧
     (sampleState.universes 1).getDescriptor 1 = none) ∧
    (∃ d target out,
        (sampleState.universes (sampleState.threads 0).univ).getDescriptor 1 = some d ∧
        (((3 : Handle) = kHelThisUniverse ∧ target = (sampleState.threads 0).univ) ∨
         ((3 : Handle) ≠ kHelThisUniverse ∧
          (sampleState.universes (sampleState.threads 0).univ).getDescriptor 3
            = some (.UniverseDescriptor target))) ∧
        (helTransferDescriptor sampleState 0 1 3).out = some out ∧
        (((helTransferDescriptor sampleState 0 1 3).state.universes
          (sampleState.threads 0).univ).getDescriptor 1 = some d) ∧
        (((helTransferDescriptor sampleState 0 1 3).state.universes
          target).getDescriptor out = some d) ∧
        (∀ other, other ≠ target →
          (helTransferDescriptor sampleState 0 1 3).state.universes other
            = sampleState.universes other) ∧
        (∀ h, h ≠ out →
          ((helTransferDescriptor sampleState 0 1 3).state.universes
            target).getDescriptor h = (sampleState.universes target).getDescriptor h)) ∧
    (∃ d target out,
        (sampleState.universes (sampleState.threads 0).univ).getDescriptor 1 = some d ∧
        ((kHelThisUniverse = kHelThisUniverse ∧ target = (sampleState.threads 0).univ) ∨
         (kHelThisUniverse ≠ kHelThisUniverse ∧
          (sampleState.universes (sampleState.threads 0).univ).getDescriptor kHelThisUniverse
            = some (.UniverseDescriptor target))) ∧
        (helTransferDescriptor sampleState 0 1 kHelThisUniverse).out = some out ∧
        (((helTransferDescriptor sampleState 0 1 kHelThisUniverse).state.universes
          (sampleState.threads 0).univ).getDescriptor 1 = some d) ∧
        (((helTransferDescriptor sampleState 0 1 kHelThisUniverse).state.universes
          target).getDescriptor out = some d) ∧
        (∀ other, other ≠ target →
          (helTransferDescriptor sampleState 0 1 kHelThisUniverse).state.universes other
            = sampleState.universes other) ∧
        (∀ h, h ≠ out →
          ((helTransferDescriptor sampleState 0 1 kHelThisUniverse).state.universes
            target).getDescriptor h = (sampleState.universes target).getDescriptor h)) ∧
    ((helTransferDescriptor sampleState 0 9 3).state = sampleState ∧
      (helTransferDescriptor sampleState 0 9 3).out = none) :=
  ⟨⟨by decide, by decide, rfl, by decide⟩,
   (helTransferDescriptor_frame sampleState 0 1 3).1 (by decide),
   (helTransferDescriptor_frame sampleState 0 1 kHelThisUniverse).1 (by decide),
   (helTransferDescriptor_frame sampleState 0 9 3).2 (by decide)⟩

/-! ## Rounding with `& ~size_t(7)` -/

lemma and_not_seven (x : Nat) (hx : x < 2 ^ 64) : x &&& (2 ^ 64 - 8) = 8 * (x / 8) := by
  apply Nat.eq_of_testBit_eq
  intro i
  have h1 : (2 : Nat) ^ 64 - 8 = (2 ^ 61 - 1) <<< 3 := by norm_num [Nat.shiftLeft_eq]
  have h2 : 8 * (x / 8) = (x >>> 3) <<< 3 := by
    simp [Nat.shiftLeft_eq, Nat.shiftRight_eq_div_pow, Nat.mul_comm]
  rw [Nat.testBit_and, h1, h2, Nat.testBit_shiftLeft, Nat.testBit_shiftLeft,
    Nat.testBit_two_pow_sub_one, Nat.testBit_shiftRight]
  by_cases h3 : 3 ≤ i
  · have h4 : 3 + (i - 3) = i := by omega
    rw [h4]
    by_cases h5 : i < 64
    · have : i - 3 < 61 := by omega
      simp [h3, this]
    · have h6 : x.testBit i = false := by
        apply Nat.testBit_lt_two_pow
        calc x < 2 ^ 64 := hx
          _ ≤ 2 ^ i := Nat.pow_le_pow_right (by norm_num) (by omega)
      simp [h6]
  · simp [h3]

lemma RecvInlineWriter_size_eq (L : Nat) (h : sizeofHelInlineResult + L + 7 < sizeModulus) :
    RecvInlineWriter.size L = 8 * ((sizeofHelInlineResult + L + 7) / 8) := by
  have h1 : (sizeofHelInlineResult + L) % sizeModulus = sizeofHelInlineResult + L :=
    Nat.mod_eq_of_lt (by omega)
  have h2 : (sizeofHelInlineResult + L + 7) % sizeModulus = sizeofHelInlineResult + L + 7 :=
    Nat.mod_eq_of_lt h
  have h3 : sizeofHelInlineResult + L + 7 < 2 ^ 64 := h
  simp only [RecvInlineWriter.size, h1, h2]
  exact and_not_seven _ h3

/-- C8: for every payload length L with sizeof(HelInlineResult) + L + 7 inside
size_t, RecvInlineWriter::size() is a multiple of 8, at least the unpadded size
sizeof(HelInlineResult) + L, less than the unpadded size + 8, and the least
such multiple; write() stores L in the length field of the header it copies to
the displacement, and copies the L payload bytes to displacement +
offsetof(HelInlineResult, data), which lies after the length field. -/
theorem RecvInlineWriter_size_and_layout (L : Nat)
    (h : sizeofHelInlineResult + L + 7 < sizeModulus) :
    8 ∣ RecvInlineWriter.size L ∧
    sizeofHelInlineResult + L ≤ RecvInlineWriter.size L ∧
    RecvInlineWriter.size L < sizeofHelInlineResult + L + 8 ∧
    (∀ m, 8 ∣ m → sizeofHelInlineResult + L ≤ m → RecvInlineWriter.size L ≤ m) ∧
    (∀ (error : Error) (e : HelError) (buffer : List Nat) (s : KernelState) (disp : Nat),
      buffer.length = L → translateError error = some e →
      disp + offsetofHelInlineResultData < sizeModulus →
      (ItemWriter.RecvInlineWriter error buffer).size = RecvInlineWriter.size L ∧
      (ItemWriter.RecvInlineWriter error buffer).write s disp =
        some (s, [{ disp := disp, data := .HelInlineResult e 0 L,
                    size := sizeofHelInlineResult },
                  { disp := disp + offsetofHelInlineResultData, data := .bytes buffer,
                    size := L }])) ∧
    offsetofHelInlineResultLength + 8 ≤ offsetofHelInlineResultData := by
  rw [RecvInlineWriter_size_eq L h]
  refine ⟨Dvd.intro _ rfl, by omega, by omega, ?_, ?_, by decide⟩
  · rintro m ⟨k, rfl⟩ hm
    omega
  · intro error e buffer s disp hL he hd
    subst hL
    refine ⟨?_, ?_⟩
    · simp only [ItemWriter.size]
      exact RecvInlineWriter_size_eq _ h
    · simp [ItemWriter.write, he, Nat.mod_eq_of_lt hd]

/-- Witness for C8: a payload of three bytes gives a record of 24 bytes. -/
theorem RecvInlineWriter_size_and_layout_witness :
    sizeofHelInlineResult + 3 + 7 < sizeModulus ∧
    8 ∣ RecvInlineWriter.size 3 ∧
    sizeofHelInlineResult + 3 ≤ RecvInlineWriter.size 3 ∧
    RecvInlineWriter.size 3 < sizeofHelInlineResult + 3 + 8 ∧
    (ItemWriter.RecvInlineWriter .kErrSuccess [104, 105, 33]).write sampleState 8 =
      some (sampleState,
        [{ disp := 8, data := .HelInlineResult .kHelErrNone 0 3, size := sizeofHelInlineResult },
         { disp := 8 + offsetofHelInlineResultData, data := .bytes [104, 105, 33],
           size := 3 }]) :=
  ⟨by decide,
   (RecvInlineWriter_size_and_layout 3 (by decide)).1,
   (RecvInlineWriter_size_and_layout 3 (by decide)).2.1,
   (RecvInlineWriter_size_and_layout 3 (by decide)).2.2.1,
   ((RecvInlineWriter_size_and_layout 3 (by decide)).2.2.2.2.1 .kErrSuccess .kHelErrNone
      [104, 105, 33] sampleState 8 rfl rfl (by decide)).2⟩

/-! ## SetResult and MsgHandler lemmas -/

lemma SetResult_call_results (h : MsgHandler) (i : Nat) (w : ItemWriter) :
    (SetResult.call h i w).handler.results = h.results.set i (some w) := by
  simp only [SetResult.call]
  split <;> rfl

lemma SetResult_call_numComplete (h : MsgHandler) (i : Nat) (w : ItemWriter) :
    (SetResult.call h i w).handler.numComplete = (h.numComplete + 1) % uintModulus := by
  simp only [SetResult.call]
  split <;> rfl

lemma SetResult_call_fields (h : MsgHandler) (i : Nat) (w : ItemWriter) :
    (SetResult.call h i w).handler.space = h.space ∧
    (SetResult.call h i w).handler.queue = h.queue ∧
    (SetResult.call h i w).handler.context = h.context := by
  simp only [SetResult.call]
  split <;> exact ⟨rfl, rfl, rfl⟩

lemma SetResult_call_completeInvoked (h : MsgHandler) (i : Nat) (w : ItemWriter) :
    (SetResult.call h i w).completeInvoked
      = decide ((h.numComplete + 1) % uintModulus = h.results.length) := by
  simp only [SetResult.call]
  split <;> simp_all

lemma SetResult_call_posted (h : MsgHandler) (i : Nat) (w : ItemWriter) :
    (SetResult.call h i w).posted
      = if (h.numComplete + 1) % uintModulus = h.results.length
        then (SetResult.call h i w).handler.complete else none := by
  simp only [SetResult.call]
  split <;> simp_all

/-- A handler with at least 2^32 slots never sees its counter reach the number
of slots. -/
lemma SetResult_callAll_never (invs : List (Nat × ItemWriter)) :
    ∀ h : MsgHandler, uintModulus ≤ h.results.length →
      (SetResult.callAll h invs).all (fun e => !e.completeInvoked) = true := by
  induction invs with
  | nil => intro h _; rfl
  | cons x rest ih =>
    intro h hlen
    obtain ⟨i, w⟩ := x
    have hlt : (h.numComplete + 1) % uintModulus < uintModulus :=
      Nat.mod_lt _ (by decide)
    have hne : (h.numComplete + 1) % uintModulus ≠ h.results.length := by omega
    have hlen2 : uintModulus ≤ (SetResult.call h i w).handler.results.length := by
      rw [SetResult_call_results]; simpa using hlen
    simp only [SetResult.callAll, List.all_cons, SetResult_call_completeInvoked, hne,
      decide_False, Bool.not_false, Bool.true_and]
    exact ih _ hlen2

/-- With a counter at `c` and `n` invocations still to come, `c + n` being the
number of slots (below 2^32), exactly the last invocation calls complete(). -/
lemma SetResult_callAll_last (invs : List (Nat × ItemWriter)) :
    ∀ h : MsgHandler, invs ≠ [] → h.numComplete + invs.length = h.results.length →
      h.results.length < uintModulus →
      (SetResult.callAll h invs).map (fun e => e.completeInvoked)
          = List.replicate (invs.length - 1) false ++ [true] ∧
      (SetResult.callAll h invs).map (fun e => e.posted)
          = List.replicate (invs.length - 1) none
            ++ [(SetResult.finalHandler h invs).complete] := by
  induction invs with
  | nil => intro h hne; exact absurd rfl hne
  | cons x rest ih =>
    intro h _ hsum hlt
    obtain ⟨i, w⟩ := x
    simp only [List.length_cons] at hsum
    have hmod : (h.numComplete + 1) % uintModulus = h.numComplete + 1 :=
      Nat.mod_eq_of_lt (by omega)
    cases rest with
    | nil =>
      simp only [List.length_nil] at hsum
      have : h.numComplete + 1 = h.results.length := by omega
      simp [SetResult.callAll, SetResult.finalHandler, SetResult_call_completeInvoked,
        SetResult_call_posted, hmod, this]
      rw [← this, hmod]
      simp
    | cons y rest2 =>
      simp only [List.length_cons] at hsum
      have hne : h.numComplete + 1 ≠ h.results.length := by omega
      have hlen : (SetResult.call h i w).handler.results.length = h.results.length := by
        rw [SetResult_call_results]; simp
      have hnc : (SetResult.call h i w).handler.numComplete = h.numComplete + 1 := by
        rw [SetResult_call_numComplete, hmod]
      have ih2 := ih (SetResult.call h i w).handler (by simp)
        (by rw [hnc, hlen]; simp only [List.length_cons]; omega) (by rw [hlen]; exact hlt)
      obtain ⟨ih2a, ih2b⟩ := ih2
      constructor
      · rw [SetResult.callAll, List.map_cons, ih2a, SetResult_call_completeInvoked, hmod]
        simp [hne, List.replicate_succ]
      · rw [SetResult.callAll, List.map_cons, ih2b, SetResult_call_posted, hmod]
        simp [hne, List.replicate_succ, SetResult.finalHandler]

lemma SetResult_finalHandler_fields (invs : List (Nat × ItemWriter)) :
    ∀ h : MsgHandler,
      (SetResult.finalHandler h invs).space = h.space ∧
      (SetResult.finalHandler h invs).queue = h.queue ∧
      (SetResult.finalHandler h invs).context = h.context ∧
      (SetResult.finalHandler h invs).results
        = invs.foldl (fun r x => r.set x.1 (some x.2)) h.results := by
  induction invs with
  | nil => intro h; exact ⟨rfl, rfl, rfl, rfl⟩
  | cons x rest ih =>
    intro h
    obtain ⟨i, w⟩ := x
    obtain ⟨h1, h2, h3, h4⟩ := ih (SetResult.call h i w).handler
    obtain ⟨f1, f2, f3⟩ := SetResult_call_fields h i w
    simp only [SetResult.finalHandler, List.foldl_cons]
    exact ⟨h1.trans f1, h2.trans f2, h3.trans f3, by rw [h4, SetResult_call_results]⟩

lemma foldl_set_getElem? (w : Nat → ItemWriter) (order : List Nat) :
    ∀ (r : List (Option ItemWriter)) (j : Nat),
      ((order.map fun i => (i, w i)).foldl (fun r x => r.set x.1 (some x.2)) r)[j]?
        = if j ∈ order ∧ j < r.length then some (some (w j)) else r[j]? := by
  induction order with
  | nil => intro r j; simp
  | cons i rest ih =>
    intro r j
    simp only [List.map_cons, List.foldl_cons]
    rw [ih, List.length_set, List.getElem?_set]
    by_cases hj : j ∈ rest
    · by_cases hl : j < r.length
      · simp [hj, hl]
      · have hn : r[j]? = none := List.getElem?_eq_none (by omega)
        by_cases hij : i = j
        · subst hij; simp [hj, hl, hn]
        · simp [hj, hl, hn, hij]
    · by_cases hij : i = j
      · subst hij
        by_cases hl : i < r.length
        · simp [hj, hl]
        · have hn : r[i]? = none := List.getElem?_eq_none (by omega)
          simp [hj, hl, hn]
      · have : ¬ j = i := fun h => hij h.symm
        simp [hj, hij, this]

/-- Invoking the tokens of all indices below `N`, in any order, leaves slot `i`
holding the writer that token `i` was invoked with. -/
lemma SetResult_finalHandler_results (N : Nat) (w : Nat → ItemWriter) (order : List Nat)
    (space queue context : Nat) (hperm : order.Perm (List.range N)) :
    (SetResult.finalHandler (MsgHandler.new N space queue context)
        (order.map fun i => (i, w i))).results
      = ((List.range N).map w).map some := by
  rw [(SetResult_finalHandler_fields _ _).2.2.2]
  apply List.ext_getElem?
  intro j
  rw [foldl_set_getElem?]
  have hmem : j ∈ order ↔ j < N := by rw [hperm.mem_iff, List.mem_range]
  by_cases hj : j < N
  · simp [MsgHandler.new, hmem, hj]
  · have h1 : (List.replicate N (none : Option ItemWriter))[j]? = none :=
      List.getElem?_eq_none (by simp; omega)
    have h2 : (List.map some (List.map w (List.range N)))[j]? = none :=
      List.getElem?_eq_none (by simp; omega)
    simp only [MsgHandler.new, hmem, hj, false_and, if_false, h1, h2]

lemma MsgHandler_sumSizes_set (ws : List ItemWriter) :
    ∀ acc, acc < sizeModulus →
      MsgHandler.sumSizes (ws.map some) acc
        = some ((acc + (ws.map ItemWriter.size).sum) % sizeModulus) := by
  induction ws with
  | nil =>
    intro acc hacc
    simp [MsgHandler.sumSizes, Nat.mod_eq_of_lt hacc]
  | cons w rest ih =>
    intro acc _
    have hlt : (acc + w.size) % sizeModulus < sizeModulus := Nat.mod_lt _ (by decide)
    simp only [List.map_cons, MsgHandler.sumSizes, List.sum_cons]
    rw [ih _ hlt, Nat.mod_add_mod, Nat.add_assoc]

lemma RecvInlineWriter_size_dvd (n : Nat) : 8 ∣ RecvInlineWriter.size n := by
  have hlt : ((sizeofHelInlineResult + n) % sizeModulus + 7) % sizeModulus < 2 ^ 64 :=
    Nat.mod_lt _ (by decide)
  simp only [RecvInlineWriter.size]
  rw [show sizeModulus - 8 = 2 ^ 64 - 8 from rfl, and_not_seven _ hlt]
  exact Dvd.intro _ rfl

lemma ItemWriter_size_dvd (w : ItemWriter) : 8 ∣ w.size := by
  cases w with
  | RecvInlineWriter e b => exact RecvInlineWriter_size_dvd _
  | OfferWriter e => exact ⟨1, rfl⟩
  | SendStringWriter e => exact ⟨1, rfl⟩
  | PushDescriptorWriter e => exact ⟨1, rfl⟩
  | AcceptWriter e u l => exact ⟨2, rfl⟩
  | RecvStringWriter e n => exact ⟨2, rfl⟩
  | PullDescriptorWriter e u d => exact ⟨2, rfl⟩

lemma and_seven_of_dvd (d : Nat) (h : 8 ∣ d) : d &&& 7 = 0 := by
  have : d &&& (2 ^ 3 - 1) = d % 2 ^ 3 := Nat.and_pow_two_sub_one_eq_mod d 3
  have h2 : d % 8 = 0 := Nat.mod_eq_zero_of_dvd h
  simpa [h2] using this

lemma ItemWriter_write_ok (w : ItemWriter) (s : KernelState) (disp : Nat)
    (hok : w.error = .kErrSuccess)
    (halive : ∀ u, w.weakUniverse = some u → s.universeAlive u = true) :
    ∃ s2 copies, w.write s disp = some (s2, copies) ∧ s2.universeAlive = s.universeAlive := by
  cases w with
  | OfferWriter e =>
    simp only [ItemWriter.error] at hok; subst hok
    exact ⟨s, _, rfl, rfl⟩
  | SendStringWriter e =>
    simp only [ItemWriter.error] at hok; subst hok
    exact ⟨s, _, rfl, rfl⟩
  | RecvInlineWriter e b =>
    simp only [ItemWriter.error] at hok; subst hok
    exact ⟨s, _, rfl, rfl⟩
  | RecvStringWriter e n =>
    simp only [ItemWriter.error] at hok; subst hok
    exact ⟨s, _, rfl, rfl⟩
  | PushDescriptorWriter e =>
    simp only [ItemWriter.error] at hok; subst hok
    exact ⟨s, _, rfl, rfl⟩
  | AcceptWriter e u l =>
    simp only [ItemWriter.error] at hok; subst hok
    have ha : s.universeAlive u = true := halive u rfl
    simp only [ItemWriter.write, attachThroughWeak, ha, if_true, Option.some_bind,
      translateError, Option.map_some']
    exact ⟨_, _, rfl, rfl⟩
  | PullDescriptorWriter e u d =>
    simp only [ItemWriter.error] at hok; subst hok
    have ha : s.universeAlive u = true := halive u rfl
    simp only [ItemWriter.write, attachThroughWeak, ha, if_true, Option.some_bind,
      translateError, Option.map_some']
    exact ⟨_, _, rfl, rfl⟩

lemma submitLoop_cons (tu : UniverseId) (u : Universe) (branch : Nat → LaneHandle)
    (target : LaneHandle) (below : List LaneHandle) (a : HelAction) (rest : List HelAction)
    (i : Nat) :
    submitLoop tu u branch (target :: below) (a :: rest) i =
      match dispatchAction tu u a with
      | none => (.assertionFailed, [])
      | some (.error e) => (.returned e, [])
      | some (.ok p) =>
        afterSubmit { lane := target, op := p.1, token := ⟨p.2, i⟩ }
          (submitLoop tu u branch (nextStack branch i a target below) rest (i + 1)) := by
  obtain ⟨ty, fl, bu, le, ha⟩ := a
  cases ty with
  | kHelActionPushDescriptor =>
    cases hg : u.getDescriptor ha <;>
      simp [submitLoop, dispatchAction, nextStack, HelAction.pushesOutput, hg]
  | _ => simp [submitLoop, dispatchAction, nextStack, HelAction.pushesOutput]

lemma submitLoop_length_of_none (tu : UniverseId) (u : Universe) (branch : Nat → LaneHandle)
    (rest : List HelAction) :
    ∀ (stack : List LaneHandle) (i : Nat),
      (submitLoop tu u branch stack rest i).1 = .returned .kHelErrNone →
      (submitLoop tu u branch stack rest i).2.length = rest.length := by
  induction rest with
  | nil => intro stack i; cases stack <;> simp [submitLoop]
  | cons a rest ih =>
    intro stack i
    cases stack with
    | nil => simp [submitLoop]
    | cons t below =>
      rw [submitLoop_cons]
      rcases hd : dispatchAction tu u a with _ | ⟨e | p⟩
      · simp
      · intro h
        simp only [Outcome.returned.injEq] at h
        subst h
        exfalso
        unfold dispatchAction at hd
        split at hd <;> try cases hd
        split at hd <;> cases hd
      · simp only [afterSubmit, List.length_cons, Nat.add_right_cancel_iff]
        exact ih _ _

lemma helSubmitAsync_of_error (s : KernelState) (t : ThreadId) (space : ObjectId)
    (branch : Nat → LaneHandle) (handle : Handle) (actions : List HelAction)
    (queue context : Nat) (e : HelError) (hr : resolveRootLane s t handle = .error e) :
    helSubmitAsync s t space branch handle actions queue context
      = { outcome := .returned e, handler := none, submitted := [] } := by
  simp [helSubmitAsync, hr]

lemma helSubmitAsync_of_ok (s : KernelState) (t : ThreadId) (space : ObjectId)
    (branch : Nat → LaneHandle) (handle : Handle) (actions : List HelAction)
    (queue context : Nat) (lane : LaneHandle) (hr : resolveRootLane s t handle = .ok lane) :
    helSubmitAsync s t space branch handle actions queue context
      = { outcome := (submitLoop (s.threads t).univ (s.universes (s.threads t).univ) branch
                        [lane] actions 0).1,
          handler := some (MsgHandler.new actions.length space queue context),
          submitted := (submitLoop (s.threads t).univ (s.universes (s.threads t).univ) branch
                        [lane] actions 0).2 } := by
  simp [helSubmitAsync, hr]

/-! ## Completion batches -/

lemma sum_sizes_range (w : Nat → ItemWriter) (N : Nat) :
    (((List.range N).map w).map ItemWriter.size).sum
      = ((List.range N).map fun i => (w i).size).sum := by
  simp [List.map_map, Function.comp_def]

/-- C2 (as stated, refuted): for N = 2^32 the tokens 0, 1, ..., N-1 are invoked
once each and no invocation calls complete(), because the unsigned int value
c + 1 never equals the number of slots. -/
theorem SetResult_complete_never_for_two_pow_32 :
    (SetResult.callAll (MsgHandler.new uintModulus 0 0 0)
        ((List.range uintModulus).map fun i => (i, ItemWriter.OfferWriter .kErrSuccess))).all
      (fun e => !e.completeInvoked) = true :=
  SetResult_callAll_never _ _ (le_of_eq (List.length_replicate _ _).symm)

/-- C2 (amended): for every N with 1 <= N < 2^32 and every order in which the N
tokens are invoked (each index once), complete() is invoked by the N-th
invocation and by no earlier one, and the only submit to the completion queue
is the one of the N-th invocation, reserving the size_t sum of the N sizes. -/
theorem SetResult_complete_exactly_once (N : Nat) (w : Nat → ItemWriter) (order : List Nat)
    (space queue context : Nat) (hN : 1 ≤ N) (h32 : N < uintModulus)
    (hperm : order.Perm (List.range N)) :
    (SetResult.callAll (MsgHandler.new N space queue context)
        (order.map fun i => (i, w i))).map (fun e => e.completeInvoked)
      = List.replicate (N - 1) false ++ [true] ∧
    (SetResult.callAll (MsgHandler.new N space queue context)
        (order.map fun i => (i, w i))).map (fun e => e.posted)
      = List.replicate (N - 1) none ++
          [some { space := space, queue := queue,
                  size := ((List.range N).map fun i => (w i).size).sum % sizeModulus,
                  context := context }] := by
  have hlen : order.length = N := by rw [hperm.length_eq, List.length_range]
  have hne : (order.map fun i => (i, w i)) ≠ [] := by
    intro h
    have : order.length = 0 := by simpa using congrArg List.length h
    omega
  obtain ⟨h1, h2⟩ := SetResult_callAll_last (order.map fun i => (i, w i))
    (MsgHandler.new N space queue context) hne
    (by simp [MsgHandler.new, hlen]) (by simpa [MsgHandler.new] using h32)
  have hres := SetResult_finalHandler_results N w order space queue context hperm
  obtain ⟨hsp, hqu, hctx, -⟩ := SetResult_finalHandler_fields (order.map fun i => (i, w i))
    (MsgHandler.new N space queue context)
  have hc : (SetResult.finalHandler (MsgHandler.new N space queue context)
        (order.map fun i => (i, w i))).complete
      = some { space := space, queue := queue,
               size := ((List.range N).map fun i => (w i).size).sum % sizeModulus,
               context := context } := by
    simp only [MsgHandler.complete, hres, hsp, hqu, hctx]
    rw [MsgHandler_sumSizes_set _ 0 (by decide), Nat.zero_add, sum_sizes_range]
    rfl
  simp only [List.length_map, hlen] at h1 h2
  exact ⟨h1, by rw [h2, hc]⟩

/-- Witness for C2 (amended): two tokens invoked in the order 1, 0. -/
theorem SetResult_complete_exactly_once_witness :
    (SetResult.callAll (MsgHandler.new 2 0 5 6)
        ([1, 0].map fun i => (i, sampleWriters i))).map (fun e => e.completeInvoked)
      = List.replicate (2 - 1) false ++ [true] ∧
    (SetResult.callAll (MsgHandler.new 2 0 5 6)
        ([1, 0].map fun i => (i, sampleWriters i))).map (fun e => e.posted)
      = List.replicate (2 - 1) none ++
          [some { space := 0, queue := 5,
                  size := ((List.range 2).map fun i => (sampleWriters i).size).sum % sizeModulus,
                  context := 6 }] :=
  SetResult_complete_exactly_once 2 sampleWriters [1, 0] 0 5 6 (by decide) (by decide)
    (List.Perm.swap 0 1 [])

/-! ## The lane stack -/

lemma dispatchAction_error_ne_none (tu : UniverseId) (u : Universe) (a : HelAction)
    (e : HelError) (hd : dispatchAction tu u a = some (.error e)) : e ≠ .kHelErrNone := by
  intro h
  subst h
  unfold dispatchAction at hd
  split at hd <;> try cases hd
  split at hd <;> cases hd

lemma refStep_cons (branch : Nat → LaneHandle) (t : LaneHandle) (below : List LaneHandle)
    (acc : List (Option LaneHandle)) (i : Nat) (a : HelAction) :
    refStep branch { stack := t :: below, targets := acc } (i, a)
      = { stack := nextStack branch i a t below, targets := acc ++ [some t] } := by
  simp [refStep, nextStack]

/-- On an accepted submission the loop of helSubmitAsync and the reference
machine pick the same lane for every action, and the reference stack ends
empty. -/
lemma submitLoop_refines (tu : UniverseId) (u : Universe) (branch : Nat → LaneHandle)
    (rest : List HelAction) :
    ∀ (stack : List LaneHandle) (i : Nat) (acc : List (Option LaneHandle)),
      (submitLoop tu u branch stack rest i).1 = .returned .kHelErrNone →
      (List.zip (List.range' i rest.length) rest).foldl (refStep branch)
          { stack := stack, targets := acc }
        = { stack := [],
            targets := acc ++ (submitLoop tu u branch stack rest i).2.map
              (fun x => some x.lane) } := by
  induction rest with
  | nil =>
    intro stack i acc h
    cases stack with
    | nil => simp [submitLoop]
    | cons t below => simp [submitLoop] at h
  | cons a rest ih =>
    intro stack i acc h
    cases stack with
    | nil => simp [submitLoop] at h
    | cons t below =>
      rw [submitLoop_cons] at h ⊢
      rcases hd : dispatchAction tu u a with _ | ⟨e | p⟩
      · simp [hd] at h
      · simp only [hd, Outcome.returned.injEq] at h
        exact absurd h (dispatchAction_error_ne_none tu u a e hd)
      · simp only [hd, afterSubmit] at h ⊢
        simp only [List.length_cons, List.range'_succ, List.zip_cons_cons, List.foldl_cons,
          refStep_cons, List.map_cons]
        rw [ih _ _ _ h]
        simp

lemma submitLoop_offer_send (tu : UniverseId) (u : Universe) (branch : Nat → LaneHandle)
    (root : LaneHandle) (offer send : HelAction)
    (h1 : offer.type = .kHelActionOffer) (h2 : offer.flags = kHelItemAncillary)
    (h3 : send.type = .kHelActionSendFromBuffer) (h4 : send.flags = 0) :
    (submitLoop tu u branch [root] [offer, send] 0).1 = .returned .kHelErrNone ∧
    (submitLoop tu u branch [root] [offer, send] 0).2.map (fun x => x.lane)
      = [root, branch 0] := by
  obtain ⟨ty, fl, bu, le, ha⟩ := offer
  obtain ⟨ty2, fl2, bu2, le2, ha2⟩ := send
  simp only at h1 h2 h3 h4
  subst h1 h2 h3 h4
  simp [submitLoop, afterSubmit, HelAction.chain, HelAction.ancillary, kHelItemChain,
    kHelItemAncillary]

/-- C4: whenever helSubmitAsync accepts an action sequence (returns none), it
has executed every action, action i on the lane that the reference stack
machine of the specification picks for action i, and the reference stack is
empty after the last action.  In particular [offer|ancillary, send-from-buffer]
is accepted, the offer runs on the root lane, the send on the child lane
returned by the offer, and the stack is empty after the second action. -/
theorem helSubmitAsync_refines_stack_machine (s : KernelState) (this_thread : ThreadId)
    (space : ObjectId) (branch : Nat → LaneHandle) (handle : Handle) (queue context : Nat)
    (root : LaneHandle) (hroot : resolveRootLane s this_thread handle = .ok root) :
    (∀ actions : List HelAction,
      (helSubmitAsync s this_thread space branch handle actions queue context).outcome
          = .returned .kHelErrNone →
      (helSubmitAsync s this_thread space branch handle actions queue context).submitted.length
          = actions.length ∧
      (helSubmitAsync s this_thread space branch handle actions queue context).submitted.map
          (fun x => some x.lane) = (refRun branch root actions).targets ∧
      (refRun branch root actions).stack = []) ∧
    (∀ offer send : HelAction,
      offer.type = .kHelActionOffer → offer.flags = kHelItemAncillary →
      send.type = .kHelActionSendFromBuffer → send.flags = 0 →
      (helSubmitAsync s this_thread space branch handle [offer, send] queue context).outcome
          = .returned .kHelErrNone ∧
      (helSubmitAsync s this_thread space branch handle [offer, send] queue
          context).submitted.map (fun x => x.lane) = [root, branch 0] ∧
      (refRun branch root [offer, send]).targets = [some root, some (branch 0)] ∧
      (refRun branch root [offer, send]).stack = []) := by
  have key : ∀ actions : List HelAction,
      (helSubmitAsync s this_thread space branch handle actions queue context).outcome
          = .returned .kHelErrNone →
      (helSubmitAsync s this_thread space branch handle actions queue context).submitted.length
          = actions.length ∧
      (helSubmitAsync s this_thread space branch handle actions queue context).submitted.map
          (fun x => some x.lane) = (refRun branch root actions).targets ∧
      (refRun branch root actions).stack = [] := by
    intro actions
    rw [helSubmitAsync_of_ok _ _ _ _ _ _ _ _ root hroot]
    intro hout
    have href := submitLoop_refines _ _ branch actions [root] 0 [] hout
    simp only [refRun, List.range_eq_range', href, List.nil_append, and_self, and_true]
    exact submitLoop_length_of_none _ _ _ _ _ _ hout
  refine ⟨key, ?_⟩
  intro offer send h1 h2 h3 h4
  have hos := submitLoop_offer_send (s.threads this_thread).univ
    (s.universes (s.threads this_thread).univ) branch root offer send h1 h2 h3 h4
  have hout : (helSubmitAsync s this_thread space branch handle [offer, send] queue
      context).outcome = .returned .kHelErrNone := by
    rw [helSubmitAsync_of_ok _ _ _ _ _ _ _ _ root hroot]
    exact hos.1
  have hl : (helSubmitAsync s this_thread space branch handle [offer, send] queue
      context).submitted.map (fun x => x.lane) = [root, branch 0] := by
    rw [helSubmitAsync_of_ok _ _ _ _ _ _ _ _ root hroot]
    exact hos.2
  obtain ⟨-, k2, k3⟩ := key [offer, send] hout
  refine ⟨hout, hl, ?_, k3⟩
  rw [← k2]
  have := congrArg (List.map some) hl
  simpa [List.map_map, Function.comp_def] using this

/-- Witness for C4: the calling thread submits an ancillary offer followed by a
send on its own lane 100; the send runs on the child lane 10. -/
theorem helSubmitAsync_refines_stack_machine_witness :
    ((helSubmitAsync sampleState 0 0 sampleBranch kHelThisThread
        [sampleAction .kHelActionOffer kHelItemAncillary,
         sampleAction .kHelActionSendFromBuffer 0] 0 0).submitted.length = 2 ∧
      (helSubmitAsync sampleState 0 0 sampleBranch kHelThisThread
        [sampleAction .kHelActionOffer kHelItemAncillary,
         sampleAction .kHelActionSendFromBuffer 0] 0 0).submitted.map (fun x => some x.lane)
        = (refRun sampleBranch 100
            [sampleAction .kHelActionOffer kHelItemAncillary,
             sampleAction .kHelActionSendFromBuffer 0]).targets ∧
      (refRun sampleBranch 100
        [sampleAction .kHelActionOffer kHelItemAncillary,
         sampleAction .kHelActionSendFromBuffer 0]).stack = []) ∧
    (helSubmitAsync sampleState 0 0 sampleBranch kHelThisThread
        [sampleAction .kHelActionOffer kHelItemAncillary,
         sampleAction .kHelActionSendFromBuffer 0] 0 0).submitted.map (fun x => x.lane)
      = [100, sampleBranch 0] :=
  ⟨(helSubmitAsync_refines_stack_machine sampleState 0 0 sampleBranch kHelThisThread 0 0 100
      rfl).1 _ (by decide),
   ((helSubmitAsync_refines_stack_machine sampleState 0 0 sampleBranch kHelThisThread 0 0 100
      rfl).2 (sampleAction .kHelActionOffer kHelItemAncillary)
      (sampleAction .kHelActionSendFromBuffer 0) rfl rfl rfl rfl).2.1⟩

lemma submitLoop_head_lane (tu : UniverseId) (u : Universe) (branch : Nat → LaneHandle)
    (t : LaneHandle) (below : List LaneHandle) (rest : List HelAction) (i : Nat)
    (y : StreamSubmit)
    (hy : (submitLoop tu u branch (t :: below) rest i).2[0]? = some y) : y.lane = t := by
  cases rest with
  | nil => simp [submitLoop] at hy
  | cons a rest =>
    rw [submitLoop_cons] at hy
    rcases hd : dispatchAction tu u a with _ | ⟨e | p⟩
    · simp [hd] at hy
    · simp [hd] at hy
    · simp only [hd, afterSubmit, List.getElem?_cons_zero, Option.some.injEq] at hy
      rw [← hy]

/-- Where the action after a chained action runs: on the same lane, unless the
chained action pushed its output lane. -/
lemma submitLoop_chain_next (tu : UniverseId) (u : Universe) (branch : Nat → LaneHandle)
    (rest : List HelAction) :
    ∀ (stack : List LaneHandle) (i k : Nat) (a : HelAction) (x y : StreamSubmit),
      rest[k]? = some a → a.chain = true →
      (submitLoop tu u branch stack rest i).2[k]? = some x →
      (submitLoop tu u branch stack rest i).2[k + 1]? = some y →
      (a.pushesOutput = false → y.lane = x.lane) ∧
      (a.pushesOutput = true → y.lane = branch (i + k)) := by
  induction rest with
  | nil => intro stack i k a x y ha; simp at ha
  | cons b rest ih =>
    intro stack i k a x y ha hc hx hy
    cases stack with
    | nil => simp [submitLoop] at hx
    | cons t below =>
      rw [submitLoop_cons] at hx hy
      rcases hd : dispatchAction tu u b with _ | ⟨e | p⟩
      · simp [hd] at hx
      · simp [hd] at hx
      · simp only [hd, afterSubmit] at hx hy
        cases k with
        | zero =>
          simp only [List.getElem?_cons_zero, Option.some.injEq] at ha hx
          subst ha
          simp only [List.getElem?_cons_succ] at hy
          simp only [← hx, Nat.add_zero]
          constructor
          · intro hp
            simp only [nextStack, hc, hp, if_true] at hy
            exact submitLoop_head_lane _ _ _ _ _ _ _ _ hy
          · intro hp
            simp only [nextStack, hc, hp, if_true] at hy
            exact submitLoop_head_lane _ _ _ _ _ _ _ _ hy
        | succ k =>
          simp only [List.getElem?_cons_succ] at ha hx hy
          have := ih _ (i + 1) k a x y ha hc hx hy
          rwa [show i + 1 + k = i + (k + 1) by omega] at this

/-- C5 (as stated, refuted): action 0 is an offer carrying the chain flag (and
the ancillary flag) and is not the last action, the submission is accepted,
yet action 1 runs on the child lane 10, not on lane 100 where action 0 ran. -/
theorem helSubmitAsync_chained_ancillary_offer_switches_lane :
    (sampleAction .kHelActionOffer (kHelItemChain ||| kHelItemAncillary)).chain = true ∧
    (helSubmitAsync sampleState 0 0 sampleBranch kHelThisThread
        [sampleAction .kHelActionOffer (kHelItemChain ||| kHelItemAncillary),
         sampleAction .kHelActionSendFromBuffer 0,
         sampleAction .kHelActionSendFromBuffer 0] 0 0).outcome = .returned .kHelErrNone ∧
    (helSubmitAsync sampleState 0 0 sampleBranch kHelThisThread
        [sampleAction .kHelActionOffer (kHelItemChain ||| kHelItemAncillary),
         sampleAction .kHelActionSendFromBuffer 0,
         sampleAction .kHelActionSendFromBuffer 0] 0 0).submitted.map (fun x => x.lane)
      = [100, 10, 100] := by
  decide

/-- C5 (amended): in helSubmitAsync, when action i carries the chain flag and
action i+1 is executed, action i+1 runs on the same lane as action i provided
action i is not an offer or accept with the ancillary flag; if it is, action
i+1 runs on the child lane that the offer or accept returned. -/
theorem helSubmitAsync_chain_next_lane (s : KernelState) (this_thread : ThreadId)
    (space : ObjectId) (branch : Nat → LaneHandle) (handle : Handle)
    (actions : List HelAction) (queue context : Nat) (i : Nat) (a : HelAction)
    (x y : StreamSubmit)
    (ha : actions[i]? = some a) (hchain : a.chain = true)
    (hx : (helSubmitAsync s this_thread space branch handle actions queue
            context).submitted[i]? = some x)
    (hy : (helSubmitAsync s this_thread space branch handle actions queue
            context).submitted[i + 1]? = some y) :
    (a.pushesOutput = false → y.lane = x.lane) ∧
    (a.pushesOutput = true → y.lane = branch i) := by
  cases hr : resolveRootLane s this_thread handle with
  | error e =>
    rw [helSubmitAsync_of_error _ _ _ _ _ _ _ _ e hr] at hx
    simp at hx
  | ok lane =>
    rw [helSubmitAsync_of_ok _ _ _ _ _ _ _ _ lane hr] at hx hy
    have := submitLoop_chain_next _ _ branch actions [lane] 0 i a x y ha hchain hx hy
    simpa using this

/-- Witness for C5 (amended): a chained send followed by a send; both run on
lane 100. -/
theorem helSubmitAsync_chain_next_lane_witness :
    [sampleAction .kHelActionSendFromBuffer kHelItemChain,
      sampleAction .kHelActionSendFromBuffer 0][0]?
      = some (sampleAction .kHelActionSendFromBuffer kHelItemChain) ∧
    (sampleAction .kHelActionSendFromBuffer kHelItemChain).chain = true ∧
    (helSubmitAsync sampleState 0 0 sampleBranch kHelThisThread
        [sampleAction .kHelActionSendFromBuffer kHelItemChain,
         sampleAction .kHelActionSendFromBuffer 0] 0 0).submitted[0]?
      = some { lane := 100, op := .submitSendBuffer 0 0, token := ⟨.SendStringWriter, 0⟩ } ∧
    (helSubmitAsync sampleState 0 0 sampleBranch kHelThisThread
        [sampleAction .kHelActionSendFromBuffer kHelItemChain,
         sampleAction .kHelActionSendFromBuffer 0] 0 0).submitted[0 + 1]?
      = some { lane := 100, op := .submitSendBuffer 0 0, token := ⟨.SendStringWriter, 1⟩ } ∧
    (sampleAction .kHelActionSendFromBuffer kHelItemChain).pushesOutput = false ∧
    ({ lane := 100, op := .submitSendBuffer 0 0, token := ⟨.SendStringWriter, 1⟩ }
        : StreamSubmit).lane
      = ({ lane := 100, op := .submitSendBuffer 0 0, token := ⟨.SendStringWriter, 0⟩ }
        : StreamSubmit).lane :=
  ⟨by decide, by decide, by decide, by decide, by decide,
   (helSubmitAsync_chain_next_lane sampleState 0 0 sampleBranch kHelThisThread
      [sampleAction .kHelActionSendFromBuffer kHelItemChain,
       sampleAction .kHelActionSendFromBuffer 0] 0 0 0
      (sampleAction .kHelActionSendFromBuffer kHelItemChain) _ _
      (by decide) (by decide) (by decide) (by decide)).1 (by decide)⟩

/-! ## Rejected submissions -/

lemma submitLoop_outcome (tu : UniverseId) (u : Universe) (branch : Nat → LaneHandle)
    (rest : List HelAction) :
    ∀ (stack : List LaneHandle) (i : Nat),
      (submitLoop tu u branch stack rest i).1 = .returned .kHelErrNone ∨
      (submitLoop tu u branch stack rest i).1 = .returned .kHelErrNoDescriptor ∨
      (submitLoop tu u branch stack rest i).1 = .assertionFailed := by
  induction rest with
  | nil => intro stack i; cases stack <;> simp [submitLoop]
  | cons a rest ih =>
    intro stack i
    cases stack with
    | nil => simp [submitLoop]
    | cons t below =>
      rw [submitLoop_cons]
      rcases hd : dispatchAction tu u a with _ | ⟨e | p⟩
      · simp
      · have he : e = .kHelErrNoDescriptor := by
          unfold dispatchAction at hd
          split at hd <;> try cases hd
          split at hd <;> cases hd
          rfl
        simp [he]
      · simpa [afterSubmit] using ih _ _

/-- C3 (the code at the failing inputs): helSubmitAsync never returns
illegal-args.  With count = 0, with a stack that runs empty after one of two
actions, and with a stack that is still non-empty after the only action, no
earlier check rejects the call and an assertion fails instead. -/
theorem helSubmitAsync_stack_mismatch_fails_assertion :
    (∀ (s : KernelState) (this_thread : ThreadId) (space : ObjectId)
        (branch : Nat → LaneHandle) (handle : Handle) (actions : List HelAction)
        (queue context : Nat),
      (helSubmitAsync s this_thread space branch handle actions queue context).outcome
        ≠ .returned .kHelErrIllegalArgs) ∧
    (helSubmitAsync sampleState 0 0 sampleBranch kHelThisThread [] 0 0).outcome
      = .assertionFailed ∧
    (helSubmitAsync sampleState 0 0 sampleBranch kHelThisThread
        [sampleAction .kHelActionSendFromBuffer 0,
         sampleAction .kHelActionSendFromBuffer 0] 0 0).outcome = .assertionFailed ∧
    (helSubmitAsync sampleState 0 0 sampleBranch kHelThisThread
        [sampleAction .kHelActionSendFromBuffer kHelItemChain] 0 0).outcome
      = .assertionFailed := by
  refine ⟨?_, by decide, by decide, by decide⟩
  intro s t space branch handle actions queue context
  cases hr : resolveRootLane s t handle with
  | error e =>
    rw [helSubmitAsync_of_error _ _ _ _ _ _ _ _ e hr]
    have he : e ≠ .kHelErrIllegalArgs := by
      intro h
      subst h
      unfold resolveRootLane at hr
      split at hr
      · cases hr
      · split at hr <;> cases hr
    simpa using he
  | ok lane =>
    rw [helSubmitAsync_of_ok _ _ _ _ _ _ _ _ lane hr]
    rcases submitLoop_outcome (s.threads t).univ (s.universes (s.threads t).univ) branch
      actions [lane] 0 with h | h | h <;> simp [h]

/-- C6 (the code at the failing input): the calling thread submits a chained
send followed by a push-descriptor of handle 9, which is not attached.
helSubmitAsync returns no-descriptor, and by then the send has been submitted
to the stream of lane 100. -/
theorem helSubmitAsync_rejected_after_submitting :
    (sampleState.universes (sampleState.threads 0).univ).getDescriptor 9 = none ∧
    (helSubmitAsync sampleState 0 0 sampleBranch kHelThisThread
        [sampleAction .kHelActionSendFromBuffer kHelItemChain, samplePush 0 9] 0 0).outcome
      = .returned .kHelErrNoDescriptor ∧
    (helSubmitAsync sampleState 0 0 sampleBranch kHelThisThread
        [sampleAction .kHelActionSendFromBuffer kHelItemChain, samplePush 0 9] 0 0).submitted
      = [{ lane := 100, op := .submitSendBuffer 0 0, token := ⟨.SendStringWriter, 0⟩ }] := by
  decide

/-! ## Record kinds -/

lemma submitLoop_getElem (tu : UniverseId) (u : Universe) (branch : Nat → LaneHandle)
    (rest : List HelAction) :
    ∀ (stack : List LaneHandle) (i k : Nat) (a : HelAction) (x : StreamSubmit),
      rest[k]? = some a → (submitLoop tu u branch stack rest i).2[k]? = some x →
      dispatchAction tu u a = some (.ok (x.op, x.token.writer)) := by
  induction rest with
  | nil => intro stack i k a x ha; simp at ha
  | cons b rest ih =>
    intro stack i k a x ha hx
    cases stack with
    | nil => simp [submitLoop] at hx
    | cons t below =>
      rw [submitLoop_cons] at hx
      rcases hd : dispatchAction tu u b with _ | ⟨e | p⟩
      · simp [hd] at hx
      · simp [hd] at hx
      · simp only [hd, afterSubmit] at hx
        cases k with
        | zero =>
          simp only [List.getElem?_cons_zero, Option.some.injEq] at ha hx
          subst ha
          rw [hd, ← hx]
        | succ k =>
          simp only [List.getElem?_cons_succ] at ha hx
          exact ih _ _ k a x ha hx

/-- The writer of the token that the switch hands to an action of each type. -/
lemma dispatchAction_writer (tu : UniverseId) (u : Universe) (a : HelAction) (op : StreamOp)
    (k : WriterKind) (hd : dispatchAction tu u a = some (.ok (op, k))) :
    (a.type = .kHelActionOffer ∧ k = .OfferWriter) ∨
    (a.type = .kHelActionAccept ∧ k = .AcceptWriter) ∨
    (a.type = .kHelActionSendFromBuffer ∧ k = .SendStringWriter) ∨
    (a.type = .kHelActionRecvInline ∧ k = .RecvInlineWriter) ∨
    (a.type = .kHelActionRecvToBuffer ∧ k = .RecvStringWriter) ∨
    (a.type = .kHelActionPushDescriptor ∧ k = .PushDescriptorWriter) ∨
    (a.type = .kHelActionPullDescriptor ∧ k = .PullDescriptorWriter) := by
  obtain ⟨ty, fl, bu, le, ha⟩ := a
  cases ty with
  | kHelActionPushDescriptor =>
    cases hg : u.getDescriptor ha <;> simp [dispatchAction, hg] at hd
    simp [hd.2]
  | other v => simp [dispatchAction] at hd
  | _ =>
    simp only [dispatchAction, Option.some.injEq, Except.ok.injEq, Prod.mk.injEq] at hd
    simp [hd.2]

/-- C7: let helSubmitAsync submit action `a` (its k-th) with token `x.token`,
and let that token be invoked with a writer `w` of its type reporting success
(and, for accept and pull-descriptor, a universe that is still live).  Then
write() produces a record whose shape is fixed by the type of `a`: a simple
record (error, 0) for offer, send-from-buffer and push-descriptor; a handle
record (error, 0, handle) for accept and pull-descriptor; a length record
(error, 0, length) for recv-to-buffer; an inline record (error, 0, length)
followed by the payload of that length for recv-inline; the error field is
kHelErrNone and the reserved field is 0 in each. -/
theorem helSubmitAsync_record_kind (s0 : KernelState) (this_thread : ThreadId)
    (space : ObjectId) (branch : Nat → LaneHandle) (handle : Handle)
    (actions : List HelAction) (queue context : Nat) (k : Nat) (a : HelAction)
    (x : StreamSubmit) (w : ItemWriter) (s : KernelState) (disp : Nat)
    (ha : actions[k]? = some a)
    (hx : (helSubmitAsync s0 this_thread space branch handle actions queue
            context).submitted[k]? = some x)
    (hw : w.kind = x.token.writer) (hok : w.error = .kErrSuccess)
    (halive : ∀ u, w.weakUniverse = some u → s.universeAlive u = true) :
    ∃ s2 copies, w.write s disp = some (s2, copies) ∧
      ((a.type = .kHelActionOffer ∨ a.type = .kHelActionSendFromBuffer ∨
          a.type = .kHelActionPushDescriptor) ∧
        copies = [{ disp := disp, data := .HelSimpleResult .kHelErrNone 0,
                    size := sizeofHelSimpleResult }] ∨
       (a.type = .kHelActionAccept ∨ a.type = .kHelActionPullDescriptor) ∧
        (∃ handle, copies = [{ disp := disp, data := .HelHandleResult .kHelErrNone 0 handle,
                               size := sizeofHelHandleResult }]) ∨
       a.type = .kHelActionRecvToBuffer ∧
        (∃ length, copies = [{ disp := disp, data := .HelLengthResult .kHelErrNone 0 length,
                               size := sizeofHelLengthResult }]) ∨
       a.type = .kHelActionRecvInline ∧
        (∃ payload : List Nat,
          copies = [{ disp := disp, data := .HelInlineResult .kHelErrNone 0 payload.length,
                      size := sizeofHelInlineResult },
                    { disp := (disp + offsetofHelInlineResultData) % sizeModulus,
                      data := .bytes payload, size := payload.length }])) := by
  have hd : dispatchAction (s0.threads this_thread).univ
      (s0.universes (s0.threads this_thread).univ) a = some (.ok (x.op, x.token.writer)) := by
    cases hr : resolveRootLane s0 this_thread handle with
    | error e =>
      rw [helSubmitAsync_of_error _ _ _ _ _ _ _ _ e hr] at hx
      simp at hx
    | ok lane =>
      rw [helSubmitAsync_of_ok _ _ _ _ _ _ _ _ lane hr] at hx
      exact submitLoop_getElem _ _ branch actions [lane] 0 k a x ha hx
  have hk := dispatchAction_writer _ _ a _ _ hd
  rw [← hw] at hk
  cases w with
  | OfferWriter e =>
    simp only [ItemWriter.error] at hok; subst hok
    refine ⟨s, _, rfl, ?_⟩
    simp only [ItemWriter.kind] at hk
    simp_all
  | SendStringWriter e =>
    simp only [ItemWriter.error] at hok; subst hok
    refine ⟨s, _, rfl, ?_⟩
    simp only [ItemWriter.kind] at hk
    simp_all
  | PushDescriptorWriter e =>
    simp only [ItemWriter.error] at hok; subst hok
    refine ⟨s, _, rfl, ?_⟩
    simp only [ItemWriter.kind] at hk
    simp_all
  | RecvStringWriter e n =>
    simp only [ItemWriter.error] at hok; subst hok
    refine ⟨s, _, rfl, ?_⟩
    simp only [ItemWriter.kind] at hk
    simp_all
  | RecvInlineWriter e b =>
    simp only [ItemWriter.error] at hok; subst hok
    refine ⟨s, _, rfl, ?_⟩
    simp only [ItemWriter.kind] at hk
    simp_all
    exact ⟨b, rfl, rfl, rfl⟩
  | AcceptWriter e u l =>
    simp only [ItemWriter.error] at hok; subst hok
    have hal : s.universeAlive u = true := halive u rfl
    simp only [ItemWriter.write, attachThroughWeak, hal, if_true, Option.some_bind,
      translateError, Option.map_some']
    refine ⟨_, _, rfl, ?_⟩
    simp only [ItemWriter.kind] at hk
    simp_all
  | PullDescriptorWriter e u d =>
    simp only [ItemWriter.error] at hok; subst hok
    have hal : s.universeAlive u = true := halive u rfl
    simp only [ItemWriter.write, attachThroughWeak, hal, if_true, Option.some_bind,
      translateError, Option.map_some']
    refine ⟨_, _, rfl, ?_⟩
    simp only [ItemWriter.kind] at hk
    simp_all

/-- Witness for C7: the accept of [accept|ancillary, recv-inline] gets an
AcceptWriter token, whose writer attaches the lane and writes a handle record. -/
theorem helSubmitAsync_record_kind_witness :
    [sampleAction .kHelActionAccept kHelItemAncillary,
      sampleAction .kHelActionRecvInline 0][0]?
      = some (sampleAction .kHelActionAccept kHelItemAncillary) ∧
    (helSubmitAsync sampleState 0 0 sampleBranch kHelThisThread
        [sampleAction .kHelActionAccept kHelItemAncillary,
         sampleAction .kHelActionRecvInline 0] 0 0).submitted[0]?
      = some { lane := 100, op := .submitAccept 0, token := ⟨.AcceptWriter, 0⟩ } ∧
    (∃ s2 copies,
      (ItemWriter.AcceptWriter .kErrSuccess 0 10).write sampleState 0 = some (s2, copies) ∧
      (((sampleAction .kHelActionAccept kHelItemAncillary).type = .kHelActionOffer ∨
          (sampleAction .kHelActionAccept kHelItemAncillary).type
            = .kHelActionSendFromBuffer ∨
          (sampleAction .kHelActionAccept kHelItemAncillary).type
            = .kHelActionPushDescriptor) ∧
        copies = [{ disp := 0, data := .HelSimpleResult .kHelErrNone 0,
                    size := sizeofHelSimpleResult }] ∨
       ((sampleAction .kHelActionAccept kHelItemAncillary).type = .kHelActionAccept ∨
          (sampleAction .kHelActionAccept kHelItemAncillary).type
            = .kHelActionPullDescriptor) ∧
        (∃ handle, copies = [{ disp := 0, data := .HelHandleResult .kHelErrNone 0 handle,
                               size := sizeofHelHandleResult }]) ∨
       (sampleAction .kHelActionAccept kHelItemAncillary).type = .kHelActionRecvToBuffer ∧
        (∃ length, copies = [{ disp := 0, data := .HelLengthResult .kHelErrNone 0 length,
                               size := sizeofHelLengthResult }]) ∨
       (sampleAction .kHelActionAccept kHelItemAncillary).type = .kHelActionRecvInline ∧
        (∃ payload : List Nat,
          copies = [{ disp := 0, data := .HelInlineResult .kHelErrNone 0 payload.length,
                      size := sizeofHelInlineResult },
                    { disp := (0 + offsetofHelInlineResultData) % sizeModulus,
                      data := .bytes payload, size := payload.length }]))) :=
  ⟨by decide, by decide,
   helSubmitAsync_record_kind sampleState 0 0 sampleBranch kHelThisThread
     [sampleAction .kHelActionAccept kHelItemAncillary,
      sampleAction .kHelActionRecvInline 0] 0 0 0
     (sampleAction .kHelActionAccept kHelItemAncillary)
     { lane := 100, op := .submitAccept 0, token := ⟨.AcceptWriter, 0⟩ }
     (.AcceptWriter .kErrSuccess 0 10) sampleState 0
     (by decide) (by decide) rfl rfl (fun _ _ => rfl)⟩

/-! ## helCloseDescriptor -/

lemma lookup_filter_self (l : List (Handle × AnyDescriptor)) (h : Handle) :
    (l.filter (fun e => e.1 != h)).lookup h = none := by
  induction l with
  | nil => rfl
  | cons x rest ih =>
    obtain ⟨k, d⟩ := x
    by_cases hk : k = h
    · have hf : (k != h) = false := by simp [hk]
      rw [List.filter_cons]
      simp only [hf, Bool.false_eq_true, if_false]
      exact ih
    · have hf : (k != h) = true := by simpa using hk
      have hb : (h == k) = false := by simpa using fun e => hk e.symm
      rw [List.filter_cons]
      simp only [hf, if_true, List.lookup, hb]
      exact ih

lemma lookup_filter_of_ne (l : List (Handle × AnyDescriptor)) (h g : Handle) (hne : g ≠ h) :
    (l.filter (fun e => e.1 != h)).lookup g = l.lookup g := by
  induction l with
  | nil => rfl
  | cons x rest ih =>
    obtain ⟨k, d⟩ := x
    by_cases hk : k = h
    · have hf : (k != h) = false := by simp [hk]
      have hb : (g == k) = false := by simpa [hk] using hne
      rw [List.filter_cons]
      simp only [hf, Bool.false_eq_true, if_false, List.lookup, hb]
      exact ih
    · have hf : (k != h) = true := by simpa using hk
      rw [List.filter_cons]
      simp only [hf, if_true]
      by_cases hg : g = k
      · have hb : (g == k) = true := by simpa using hg
        simp only [List.lookup, hb]
      · have hb : (g == k) = false := by simpa using hg
        simp only [List.lookup, hb]
        exact ih

lemma helCloseDescriptor_of_absent (s : KernelState) (t : ThreadId) (handle : Handle)
    (h : (s.universes (s.threads t).univ).getDescriptor handle = none) :
    helCloseDescriptor s t handle = SysResult.fail s .kHelErrNoDescriptor := by
  simp [helCloseDescriptor, Universe.detachDescriptor, h]

lemma helCloseDescriptor_of_present (s : KernelState) (t : ThreadId) (handle : Handle)
    (d : AnyDescriptor)
    (h : (s.universes (s.threads t).univ).getDescriptor handle = some d) :
    helCloseDescriptor s t handle =
      { state :=
          { s with
            universes :=
              Function.update s.universes (s.threads t).univ
                { descriptorMap :=
                    (s.universes (s.threads t).univ).descriptorMap.filter
                      (fun e => e.1 != handle),
                  nextHandle := (s.universes (s.threads t).univ).nextHandle } },
        outcome := .returned .kHelErrNone, out := none, invoked := [] } := by
  simp [helCloseDescriptor, Universe.detachDescriptor, h]

lemma helMemoryInfo_of_absent (s : KernelState) (t : ThreadId) (handle : Handle)
    (h : (s.universes (s.threads t).univ).getDescriptor handle = none) :
    helMemoryInfo s t handle = SysResult.fail s .kHelErrNoDescriptor := by
  simp [helMemoryInfo, h]

/-- C11: helCloseDescriptor(H) returns no-descriptor and leaves the kernel state
unchanged if H is not attached in the caller's universe.  Otherwise it returns
none and detaches exactly H: every other handle of the universe resolves as
before, every other universe is unchanged, and H no longer resolves.  In every
state in which H does not resolve (so after the close, until an attach maps H
again) helMemoryInfo(H) and helCloseDescriptor(H) return no-descriptor without
changing anything. -/
theorem helCloseDescriptor_detaches (s : KernelState) (this_thread : ThreadId)
    (handle : Handle) :
    ((s.universes (s.threads this_thread).univ).getDescriptor handle = none →
      (helCloseDescriptor s this_thread handle).outcome = .returned .kHelErrNoDescriptor ∧
      (helCloseDescriptor s this_thread handle).state = s) ∧
    (∀ d, (s.universes (s.threads this_thread).univ).getDescriptor handle = some d →
      (helCloseDescriptor s this_thread handle).outcome = .returned .kHelErrNone ∧
      (helCloseDescriptor s this_thread handle).state.threads = s.threads ∧
      (∀ other : Handle, other ≠ handle →
        ((helCloseDescriptor s this_thread handle).state.universes
            (s.threads this_thread).univ).getDescriptor other
          = (s.universes (s.threads this_thread).univ).getDescriptor other) ∧
      (∀ u : UniverseId, u ≠ (s.threads this_thread).univ →
        (helCloseDescriptor s this_thread handle).state.universes u = s.universes u) ∧
      ((helCloseDescriptor s this_thread handle).state.universes
          (s.threads this_thread).univ).getDescriptor handle = none) ∧
    (∀ later : KernelState,
      (later.universes (later.threads this_thread).univ).getDescriptor handle = none →
      (helMemoryInfo later this_thread handle).outcome = .returned .kHelErrNoDescriptor ∧
      (helMemoryInfo later this_thread handle).out = none ∧
      (helCloseDescriptor later this_thread handle).outcome
        = .returned .kHelErrNoDescriptor ∧
      (helCloseDescriptor later this_thread handle).state = later) := by
  refine ⟨fun h => ?_, fun d h => ?_, fun later h => ?_⟩
  · rw [helCloseDescriptor_of_absent s this_thread handle h]
    exact ⟨rfl, rfl⟩
  · rw [helCloseDescriptor_of_present s this_thread handle d h]
    refine ⟨rfl, rfl, fun other hne => ?_, fun u hu => ?_, ?_⟩
    · simp only [Function.update_same, Universe.getDescriptor]
      exact lookup_filter_of_ne _ _ _ hne
    · simp only [Function.update_noteq hu]
    · simp only [Function.update_same, Universe.getDescriptor]
      exact lookup_filter_self _ _
  · rw [helMemoryInfo_of_absent later this_thread handle h,
      helCloseDescriptor_of_absent later this_thread handle h]
    exact ⟨rfl, rfl, rfl, rfl⟩

/-- Witness for C11: closing the unattached handle 9 fails; closing the memory
handle 1 succeeds, after which handle 2 still resolves and handle 1 is refused
by helMemoryInfo and by a second helCloseDescriptor. -/
theorem helCloseDescriptor_detaches_witness :
    (helCloseDescriptor sampleState 0 9).outcome = .returned .kHelErrNoDescriptor ∧
    (helCloseDescriptor sampleState 0 1).outcome = .returned .kHelErrNone ∧
    ((helCloseDescriptor sampleState 0 1).state.universes
        (sampleState.threads 0).univ).getDescriptor 2
      = (sampleState.universes (sampleState.threads 0).univ).getDescriptor 2 ∧
    (helMemoryInfo (helCloseDescriptor sampleState 0 1).state 0 1).outcome
      = .returned .kHelErrNoDescriptor ∧
    (helCloseDescriptor (helCloseDescriptor sampleState 0 1).state 0 1).outcome
      = .returned .kHelErrNoDescriptor :=
  ⟨((helCloseDescriptor_detaches sampleState 0 9).1 (by decide)).1,
   ((helCloseDescriptor_detaches sampleState 0 1).2.1 (.MemoryAccessDescriptor 0)
      (by decide)).1,
   ((helCloseDescriptor_detaches sampleState 0 1).2.1 (.MemoryAccessDescriptor 0)
      (by decide)).2.2.1 2 (by decide),
   ((helCloseDescriptor_detaches sampleState 0 1).2.2
      (helCloseDescriptor sampleState 0 1).state (by decide)).1,
   ((helCloseDescriptor_detaches sampleState 0 1).2.2
      (helCloseDescriptor sampleState 0 1).state (by decide)).2.2.1⟩

/-! ## helMapMemory, helCompleteLoad, helSubmitLockMemory -/

/-- C12: helMapMemory returns illegal-args whenever length is 0 or the hint
pointer, the offset or the length is not a multiple of the page size, whatever
the two handles are (the check comes before every lookup); the kernel state is
unchanged, AddressSpace::map is not called and the out-pointer is not
written. -/
theorem helMapMemory_alignment_first (s : KernelState) (this_thread : ThreadId)
    (memory_handle space_handle : Handle) (pointer offset length flags actual_address : Nat)
    (h : length = 0 ∨ pointer % kPageSize ≠ 0 ∨ offset % kPageSize ≠ 0 ∨
      length % kPageSize ≠ 0) :
    (helMapMemory s this_thread memory_handle space_handle pointer offset length flags
        actual_address).outcome = .returned .kHelErrIllegalArgs ∧
    (helMapMemory s this_thread memory_handle space_handle pointer offset length flags
        actual_address).state = s ∧
    (helMapMemory s this_thread memory_handle space_handle pointer offset length flags
        actual_address).invoked = [] ∧
    (helMapMemory s this_thread memory_handle space_handle pointer offset length flags
        actual_address).out = none := by
  have key : helMapMemory s this_thread memory_handle space_handle pointer offset length flags
      actual_address = SysResult.fail s .kHelErrIllegalArgs := by
    unfold helMapMemory
    by_cases h1 : length = 0
    · rw [if_pos h1]
    · rw [if_neg h1]
      by_cases h2 : pointer % kPageSize ≠ 0
      · rw [if_pos h2]
      · rw [if_neg h2]
        by_cases h3 : offset % kPageSize ≠ 0
        · rw [if_pos h3]
        · rw [if_neg h3]
          by_cases h4 : length % kPageSize ≠ 0
          · rw [if_pos h4]
          · exfalso
            rcases h with h | h | h | h
            · exact h1 h
            · exact h2 h
            · exact h3 h
            · exact h4 h
  rw [key]
  exact ⟨rfl, rfl, rfl, rfl⟩

/-- Witness for C12: a zero length with an unattached memory handle, and an
unaligned hint with a handle of the wrong variant, both give illegal-args. -/
theorem helMapMemory_alignment_first_witness :
    (helMapMemory sampleState 0 9 0 0 0 0 kHelMapReadWrite 0).outcome
      = .returned .kHelErrIllegalArgs ∧
    (helMapMemory sampleState 0 2 0 17 0 4096 kHelMapReadWrite 0).outcome
      = .returned .kHelErrIllegalArgs ∧
    (helMapMemory sampleState 0 2 0 17 0 4096 kHelMapReadWrite 0).invoked = [] :=
  ⟨(helMapMemory_alignment_first sampleState 0 9 0 0 0 0 kHelMapReadWrite 0
      (Or.inl rfl)).1,
   (helMapMemory_alignment_first sampleState 0 2 0 17 0 4096 kHelMapReadWrite 0
      (Or.inr (Or.inl (by decide)))).1,
   (helMapMemory_alignment_first sampleState 0 2 0 17 0 4096 kHelMapReadWrite 0
      (Or.inr (Or.inl (by decide)))).2.2.1⟩

/-- C13 (the code at the failing inputs): with aligned arguments and valid
handles, helMapMemory with two protection bits (read-only | read-write) or
with no protection bit does not return illegal-args: the assertion
`(flags & mask) == kHelMapReadOnly` fails.  With exactly one protection bit
the region is mapped with that protection. -/
theorem helMapMemory_protection_asserts :
    (helMapMemory sampleState 0 1 0 0 0 4096 (kHelMapReadOnly ||| kHelMapReadWrite)
        0).outcome = .assertionFailed ∧
    (helMapMemory sampleState 0 1 0 0 0 4096 0 0).outcome = .assertionFailed ∧
    (helMapMemory sampleState 0 1 0 0 0 4096 kHelMapReadOnly 77).invoked
      = [.map 50 0 0 0 4096 [.kMapPreferTop, .kMapReadOnly], .invalidateSpace] ∧
    (helMapMemory sampleState 0 1 0 0 0 4096 kHelMapReadWrite 77).invoked
      = [.map 50 0 0 0 4096 [.kMapPreferTop, .kMapReadWrite], .invalidateSpace] ∧
    (helMapMemory sampleState 0 1 0 0 0 4096 kHelMapReadExecute 77).invoked
      = [.map 50 0 0 0 4096 [.kMapPreferTop, .kMapReadExecute], .invalidateSpace] ∧
    (helMapMemory sampleState 0 1 0 0 0 4096 kHelMapReadExecute 77).outcome
      = .returned .kHelErrNone := by
  decide

/-- C14 (the code at the failing inputs): with the memory handle 1 and the
unaligned offset 1, helCompleteLoad fails its assertion instead of returning
illegal-args, and helSubmitLockMemory returns none after calling
submitInitiateLoad with the unaligned offset. -/
theorem helCompleteLoad_helSubmitLockMemory_unaligned :
    (helCompleteLoad sampleState 0 1 1 4096).outcome = .assertionFailed ∧
    (helCompleteLoad sampleState 0 1 0 100).outcome = .assertionFailed ∧
    (helSubmitLockMemory sampleState 0 1 1 4096 5 6).outcome = .returned .kHelErrNone ∧
    (helSubmitLockMemory sampleState 0 1 1 4096 5 6).invoked
      = [.submitInitiateLoad 0 1 4096 50 5 6] ∧
    (helSubmitLockMemory sampleState 0 1 0 100 5 6).invoked
      = [.submitInitiateLoad 0 0 100 50 5 6] := by
  decide

/-! ## ObserveThreadWriter -/

/-- C15: let the four named interrupt codes be pairwise distinct and below
kIntrSuperCall.  For a writer whose error translates (kErrSuccess),
ObserveThreadWriter::write puts kHelObserveStop, kHelObservePanic,
kHelObserveBreakpoint, kHelObservePageFault into the observation field for the
interrupts stop, panic, breakpoint, page-fault, and kHelObserveSuperCall + n
for the interrupt kIntrSuperCall + n (n >= 0, both inside unsigned int); for
every other interrupt code it panics and writes no record. -/
theorem ObserveThreadWriter_observation_mapping (codes : ObserveCodes) (error : Error)
    (e : HelError) (he : translateError error = some e)
    (h12 : codes.kIntrStop ≠ codes.kIntrPanic) (h13 : codes.kIntrStop ≠ codes.kIntrBreakpoint)
    (h14 : codes.kIntrStop ≠ codes.kIntrPageFault)
    (h23 : codes.kIntrPanic ≠ codes.kIntrBreakpoint)
    (h24 : codes.kIntrPanic ≠ codes.kIntrPageFault)
    (h34 : codes.kIntrBreakpoint ≠ codes.kIntrPageFault)
    (h1 : codes.kIntrStop < codes.kIntrSuperCall) (h2 : codes.kIntrPanic < codes.kIntrSuperCall)
    (h3 : codes.kIntrBreakpoint < codes.kIntrSuperCall)
    (h4 : codes.kIntrPageFault < codes.kIntrSuperCall) :
    ObserveThreadWriter.write codes error codes.kIntrStop
      = some [{ disp := 0, data := .HelObserveResult e codes.kHelObserveStop 0,
                size := sizeofHelSimpleResult }] ∧
    ObserveThreadWriter.write codes error codes.kIntrPanic
      = some [{ disp := 0, data := .HelObserveResult e codes.kHelObservePanic 0,
                size := sizeofHelSimpleResult }] ∧
    ObserveThreadWriter.write codes error codes.kIntrBreakpoint
      = some [{ disp := 0, data := .HelObserveResult e codes.kHelObserveBreakpoint 0,
                size := sizeofHelSimpleResult }] ∧
    ObserveThreadWriter.write codes error codes.kIntrPageFault
      = some [{ disp := 0, data := .HelObserveResult e codes.kHelObservePageFault 0,
                size := sizeofHelSimpleResult }] ∧
    (∀ n : Nat, codes.kIntrSuperCall + n < uintModulus →
      codes.kHelObserveSuperCall + n < uintModulus →
      ObserveThreadWriter.write codes error (codes.kIntrSuperCall + n)
        = some [{ disp := 0, data := .HelObserveResult e (codes.kHelObserveSuperCall + n) 0,
                  size := sizeofHelSimpleResult }]) ∧
    (∀ interrupt : Nat, interrupt ≠ codes.kIntrStop → interrupt ≠ codes.kIntrPanic →
      interrupt ≠ codes.kIntrBreakpoint → interrupt ≠ codes.kIntrPageFault →
      interrupt < codes.kIntrSuperCall →
      ObserveThreadWriter.write codes error interrupt = none) := by
  refine ⟨?_, ?_, ?_, ?_, ?_, ?_⟩
  · simp [ObserveThreadWriter.write, ObserveThreadWriter.observation, he]
  · simp [ObserveThreadWriter.write, ObserveThreadWriter.observation, he, h12.symm]
  · simp [ObserveThreadWriter.write, ObserveThreadWriter.observation, he, h13.symm, h23.symm]
  · simp [ObserveThreadWriter.write, ObserveThreadWriter.observation, he, h14.symm, h24.symm,
      h34.symm]
  · intro n hn hm
    have a1 : codes.kIntrSuperCall + n ≠ codes.kIntrStop := by omega
    have a2 : codes.kIntrSuperCall + n ≠ codes.kIntrPanic := by omega
    have a3 : codes.kIntrSuperCall + n ≠ codes.kIntrBreakpoint := by omega
    have a4 : codes.kIntrSuperCall + n ≠ codes.kIntrPageFault := by omega
    simp [ObserveThreadWriter.write, ObserveThreadWriter.observation, he, a1, a2, a3, a4,
      Nat.mod_eq_of_lt hm]
  · intro i i1 i2 i3 i4 i5
    have : ¬ i ≥ codes.kIntrSuperCall := by omega
    simp [ObserveThreadWriter.write, ObserveThreadWriter.observation, i1, i2, i3, i4, this]

/-- Witness for C15: page-fault, the supercall with n = 7 and the unnamed
interrupt code 9. -/
theorem ObserveThreadWriter_observation_mapping_witness :
    ObserveThreadWriter.write sampleObserveCodes .kErrSuccess
        sampleObserveCodes.kIntrPageFault
      = some [{ disp := 0,
                data := .HelObserveResult .kHelErrNone
                  sampleObserveCodes.kHelObservePageFault 0,
                size := sizeofHelSimpleResult }] ∧
    ObserveThreadWriter.write sampleObserveCodes .kErrSuccess
        (sampleObserveCodes.kIntrSuperCall + 7)
      = some [{ disp := 0,
                data := .HelObserveResult .kHelErrNone
                  (sampleObserveCodes.kHelObserveSuperCall + 7) 0,
                size := sizeofHelSimpleResult }] ∧
    ObserveThreadWriter.write sampleObserveCodes .kErrSuccess 9 = none :=
  ⟨(ObserveThreadWriter_observation_mapping sampleObserveCodes .kErrSuccess .kHelErrNone rfl
      (by decide) (by decide) (by decide) (by decide) (by decide) (by decide)
      (by decide) (by decide) (by decide) (by decide)).2.2.2.1,
   (ObserveThreadWriter_observation_mapping sampleObserveCodes .kErrSuccess .kHelErrNone rfl
      (by decide) (by decide) (by decide) (by decide) (by decide) (by decide)
      (by decide) (by decide) (by decide) (by decide)).2.2.2.2.1 7 (by decide) (by decide),
   (ObserveThreadWriter_observation_mapping sampleObserveCodes .kErrSuccess .kHelErrNone rfl
      (by decide) (by decide) (by decide) (by decide) (by decide) (by decide)
      (by decide) (by decide) (by decide) (by decide)).2.2.2.2.2 9 (by decide) (by decide)
      (by decide) (by decide) (by decide)⟩

/-! ## Errors in completion records -/

/-- C16 (the code at the failing inputs): translateError has no case for
closed-locally, closed-remotely or buffer-too-small and asserts on them, so a
writer holding such an error writes no record, and a batch that contains one
is not written to the end. -/
theorem translateError_asserts_on_failure :
    translateError .kErrClosedLocally = none ∧
    translateError .kErrClosedRemotely = none ∧
    translateError .kErrBufferTooSmall = none ∧
    ((ItemWriter.SendStringWriter .kErrClosedRemotely).write sampleState 8).isNone = true ∧
    ((ItemWriter.RecvStringWriter .kErrBufferTooSmall 0).write sampleState 8).isNone = true ∧
    (sampleFailedBatch.write sampleState).isNone = true := by
  decide

/-! ## helLoadRegisters and helStoreRegisters -/

/-- C17 (as stated, refuted): handle 4 is a valid thread handle and debug is
one of the four register sets, yet helLoadRegisters returns illegal-args. -/
theorem helLoadRegisters_debug_illegal_args :
    (sampleState.universes (sampleState.threads 0).univ).getDescriptor 4
      = some (.ThreadDescriptor 1) ∧
    (helLoadRegisters sampleState 0 4 .kHelRegsDebug).outcome
      = .returned .kHelErrIllegalArgs := by
  decide

/-- C17 (amended): for a valid thread handle, helStoreRegisters accepts every
register set in {program, general, thread, debug} and helLoadRegisters accepts
{program, general, thread}, each returning none; helLoadRegisters returns
illegal-args for debug and for every other value of `set`, helStoreRegisters
for every other value, and in these cases the kernel state (hence every
register) is unchanged and no word of the image is written. -/
theorem registers_accepted_sets (s : KernelState) (this_thread : ThreadId) (handle : Handle)
    (thread : ThreadId) (image : Nat → Nat)
    (h : (s.universes (s.threads this_thread).univ).getDescriptor handle
      = some (.ThreadDescriptor thread)) :
    ((helLoadRegisters s this_thread handle .kHelRegsProgram).outcome
        = .returned .kHelErrNone ∧
      (helLoadRegisters s this_thread handle .kHelRegsGeneral).outcome
        = .returned .kHelErrNone ∧
      (helLoadRegisters s this_thread handle .kHelRegsThread).outcome
        = .returned .kHelErrNone) ∧
    ((helLoadRegisters s this_thread handle .kHelRegsDebug).outcome
        = .returned .kHelErrIllegalArgs ∧
      (helLoadRegisters s this_thread handle .kHelRegsDebug).state = s ∧
      (helLoadRegisters s this_thread handle .kHelRegsDebug).out = none) ∧
    (∀ v : Int,
      (helLoadRegisters s this_thread handle (.other v)).outcome
        = .returned .kHelErrIllegalArgs ∧
      (helLoadRegisters s this_thread handle (.other v)).state = s ∧
      (helLoadRegisters s this_thread handle (.other v)).out = none) ∧
    ((helStoreRegisters s this_thread handle .kHelRegsProgram image).outcome
        = .returned .kHelErrNone ∧
      (helStoreRegisters s this_thread handle .kHelRegsGeneral image).outcome
        = .returned .kHelErrNone ∧
      (helStoreRegisters s this_thread handle .kHelRegsThread image).outcome
        = .returned .kHelErrNone ∧
      (helStoreRegisters s this_thread handle .kHelRegsDebug image).outcome
        = .returned .kHelErrNone) ∧
    (∀ v : Int,
      (helStoreRegisters s this_thread handle (.other v) image).outcome
        = .returned .kHelErrIllegalArgs ∧
      (helStoreRegisters s this_thread handle (.other v) image).state = s) := by
  obtain ⟨target, hr⟩ : ∃ target, resolveStoreThread s this_thread handle = .ok target := by
    by_cases hthis : handle = kHelThisThread
    · exact ⟨this_thread, by simp [resolveStoreThread, hthis]⟩
    · exact ⟨thread, by simp [resolveStoreThread, hthis, h]⟩
  refine ⟨⟨?_, ?_, ?_⟩, ⟨?_, ?_, ?_⟩, fun v => ⟨?_, ?_, ?_⟩, ⟨?_, ?_, ?_, ?_⟩,
    fun v => ⟨?_, ?_⟩⟩
  all_goals simp [helLoadRegisters, h, helStoreRegisters, hr, SysResult.fail]

/-- Witness for C17 (amended): thread handle 4 of the sample universe. -/
theorem registers_accepted_sets_witness :
    (helLoadRegisters sampleState 0 4 .kHelRegsGeneral).outcome = .returned .kHelErrNone ∧
    (helLoadRegisters sampleState 0 4 (.other 99)).outcome = .returned .kHelErrIllegalArgs ∧
    (helStoreRegisters sampleState 0 4 .kHelRegsDebug sampleImage).outcome
      = .returned .kHelErrNone ∧
    (helStoreRegisters sampleState 0 4 (.other 99) sampleImage).state = sampleState :=
  ⟨(registers_accepted_sets sampleState 0 4 1 sampleImage (by decide)).1.2.1,
   ((registers_accepted_sets sampleState 0 4 1 sampleImage (by decide)).2.2.1
      99).1,
   (registers_accepted_sets sampleState 0 4 1 sampleImage (by decide)).2.2.2.1.2.2.2,
   ((registers_accepted_sets sampleState 0 4 1 sampleImage (by decide)).2.2.2.2 99).2⟩

/-! ## Handle validation -/

/-- C18: each of helMemoryInfo, helSubmitManageMemory, helSubmitObserve,
helResume, helLoadRegisters, helLoadForeign, helAcknowledgeIrq,
helSubmitWaitForIrq and helEnableIo returns no-descriptor when its handle is
absent from the caller's universe and bad-descriptor when the handle resolves
to a descriptor of another variant than the call requires; in both cases the
call is an early return: the kernel state is unchanged, nothing is stored
through an out-pointer and no operation is invoked on any object. -/
theorem typed_handle_validation (s : KernelState) (this_thread : ThreadId) (handle : Handle)
    (queue context address length : Nat) (loaded : List Nat) (set : RegisterSet) :
    ((s.universes (s.threads this_thread).univ).getDescriptor handle = none →
      helMemoryInfo s this_thread handle = SysResult.fail s .kHelErrNoDescriptor ∧
      helSubmitManageMemory s this_thread handle queue context
        = SysResult.fail s .kHelErrNoDescriptor ∧
      helSubmitObserve s this_thread handle queue context
        = SysResult.fail s .kHelErrNoDescriptor ∧
      helResume s this_thread handle = SysResult.fail s .kHelErrNoDescriptor ∧
      helLoadRegisters s this_thread handle set = SysResult.fail s .kHelErrNoDescriptor ∧
      helLoadForeign s this_thread handle address length loaded
        = SysResult.fail s .kHelErrNoDescriptor ∧
      helAcknowledgeIrq s this_thread handle = SysResult.fail s .kHelErrNoDescriptor ∧
      helSubmitWaitForIrq s this_thread handle queue context
        = SysResult.fail s .kHelErrNoDescriptor ∧
      helEnableIo s this_thread handle = SysResult.fail s .kHelErrNoDescriptor) ∧
    (∀ d, (s.universes (s.threads this_thread).univ).getDescriptor handle = some d →
      (d.isMemoryAccessDescriptor = false →
        helMemoryInfo s this_thread handle = SysResult.fail s .kHelErrBadDescriptor ∧
        helSubmitManageMemory s this_thread handle queue context
          = SysResult.fail s .kHelErrBadDescriptor) ∧
      (d.isThreadDescriptor = false →
        helSubmitObserve s this_thread handle queue context
          = SysResult.fail s .kHelErrBadDescriptor ∧
        helResume s this_thread handle = SysResult.fail s .kHelErrBadDescriptor ∧
        helLoadRegisters s this_thread handle set = SysResult.fail s .kHelErrBadDescriptor) ∧
      (d.isAddressSpaceDescriptor = false →
        helLoadForeign s this_thread handle address length loaded
          = SysResult.fail s .kHelErrBadDescriptor) ∧
      (d.isIrqDescriptor = false →
        helAcknowledgeIrq s this_thread handle = SysResult.fail s .kHelErrBadDescriptor ∧
        helSubmitWaitForIrq s this_thread handle queue context
          = SysResult.fail s .kHelErrBadDescriptor) ∧
      (d.isIoDescriptor = false →
        helEnableIo s this_thread handle = SysResult.fail s .kHelErrBadDescriptor)) ∧
    (∀ e : HelError,
      (SysResult.fail s e : SysResult Unit).state = s ∧
      (SysResult.fail s e : SysResult Unit).outcome = .returned e ∧
      (SysResult.fail s e : SysResult Unit).out = none ∧
      (SysResult.fail s e : SysResult Unit).invoked = []) := by
  refine ⟨fun h => ?_, fun d h => ⟨fun hd => ?_, fun hd => ?_, fun hd => ?_, fun hd => ?_,
    fun hd => ?_⟩, fun e => ⟨rfl, rfl, rfl, rfl⟩⟩
  · simp [helMemoryInfo, helSubmitManageMemory, helSubmitObserve, helResume,
      helLoadRegisters, helLoadForeign, helAcknowledgeIrq, helSubmitWaitForIrq, helEnableIo, h]
  · cases d <;> simp_all [helMemoryInfo, helSubmitManageMemory,
      AnyDescriptor.isMemoryAccessDescriptor]
  · cases d <;> simp_all [helSubmitObserve, helResume, helLoadRegisters,
      AnyDescriptor.isThreadDescriptor]
  · cases d <;> simp_all [helLoadForeign, AnyDescriptor.isAddressSpaceDescriptor]
  · cases d <;> simp_all [helAcknowledgeIrq, helSubmitWaitForIrq,
      AnyDescriptor.isIrqDescriptor]
  · cases d <;> simp_all [helEnableIo, AnyDescriptor.isIoDescriptor]

/-- Witness for C18: the unattached handle 9 and the lane handle 2 are refused
by helMemoryInfo and helResume. -/
theorem typed_handle_validation_witness :
    helMemoryInfo sampleState 0 9 = SysResult.fail sampleState .kHelErrNoDescriptor ∧
    helResume sampleState 0 9 = SysResult.fail sampleState .kHelErrNoDescriptor ∧
    helMemoryInfo sampleState 0 2 = SysResult.fail sampleState .kHelErrBadDescriptor ∧
    helResume sampleState 0 2 = SysResult.fail sampleState .kHelErrBadDescriptor :=
  ⟨((typed_handle_validation sampleState 0 9 0 0 0 0 [] .kHelRegsProgram).1 (by decide)).1,
   ((typed_handle_validation sampleState 0 9 0 0 0 0 [] .kHelRegsProgram).1
      (by decide)).2.2.2.1,
   (((typed_handle_validation sampleState 0 2 0 0 0 0 [] .kHelRegsProgram).2.1
      (.LaneDescriptor 7) (by decide)).1 (by decide)).1,
   (((typed_handle_validation sampleState 0 2 0 0 0 0 [] .kHelRegsProgram).2.1
      (.LaneDescriptor 7) (by decide)).2.1 (by decide)).2.1⟩

/-! ## Out-parameters -/

lemma out_none_of_fail {α : Type} (r : SysResult α) (s : KernelState) (e0 : HelError)
    (hr : r = SysResult.fail s e0) :
    ∀ e, r.outcome = .returned e → e ≠ .kHelErrNone → r.out = none := by
  intro e _ _
  rw [hr]
  rfl

lemma out_none_of_assert {α : Type} (r : SysResult α) (s : KernelState)
    (hr : r = SysResult.assertFail s) :
    ∀ e, r.outcome = .returned e → e ≠ .kHelErrNone → r.out = none := by
  intro e _ _
  rw [hr]
  rfl

lemma out_none_of_success {α : Type} (r : SysResult α)
    (hr : r.outcome = .returned .kHelErrNone) :
    ∀ e, r.outcome = .returned e → e ≠ .kHelErrNone → r.out = none := by
  intro e h1 h2
  rw [hr] at h1
  exact absurd (Outcome.returned.inj h1).symm h2

lemma helAllocateMemory_out (s : KernelState) (t : ThreadId) (size flags : Nat)
    (memory : ObjectId) :
    ∀ e, (helAllocateMemory s t size flags memory).outcome = .returned e →
      e ≠ .kHelErrNone → (helAllocateMemory s t size flags memory).out = none := by
  unfold helAllocateMemory
  split
  · exact out_none_of_assert _ s rfl
  · split
    · exact out_none_of_assert _ s rfl
    · exact out_none_of_success _ rfl

lemma helCreateManagedMemory_out (s : KernelState) (t : ThreadId) (size flags : Nat)
    (managed backing frontal : ObjectId) :
    ∀ e, (helCreateManagedMemory s t size flags managed backing frontal).outcome
        = .returned e →
      e ≠ .kHelErrNone →
      (helCreateManagedMemory s t size flags managed backing frontal).out = none := by
  unfold helCreateManagedMemory
  split
  · exact out_none_of_assert _ s rfl
  · split
    · exact out_none_of_assert _ s rfl
    · exact out_none_of_success _ rfl

lemma helAccessPhysical_out (s : KernelState) (t : ThreadId) (physical size : Nat)
    (memory : ObjectId) :
    ∀ e, (helAccessPhysical s t physical size memory).outcome = .returned e →
      e ≠ .kHelErrNone → (helAccessPhysical s t physical size memory).out = none := by
  unfold helAccessPhysical
  split
  · exact out_none_of_assert _ s rfl
  · split
    · exact out_none_of_assert _ s rfl
    · exact out_none_of_success _ rfl

lemma helDescriptorInfo_out (s : KernelState) (t : ThreadId) (handle : Handle) :
    (helDescriptorInfo s t handle).out = none := by
  unfold helDescriptorInfo
  split <;> rfl

lemma helForkSpace_out (s : KernelState) (t : ThreadId) (handle : Handle) (forked : ObjectId) :
    ∀ e, (helForkSpace s t handle forked).outcome = .returned e →
      e ≠ .kHelErrNone → (helForkSpace s t handle forked).out = none := by
  unfold helForkSpace
  split
  · exact out_none_of_fail _ s _ rfl
  · exact out_none_of_success _ rfl

lemma helMapMemory_out (s : KernelState) (t : ThreadId) (memory_handle space_handle : Handle)
    (pointer offset length flags actual_address : Nat) :
    ∀ e, (helMapMemory s t memory_handle space_handle pointer offset length flags
          actual_address).outcome = .returned e →
      e ≠ .kHelErrNone →
      (helMapMemory s t memory_handle space_handle pointer offset length flags
          actual_address).out = none := by
  unfold helMapMemory
  split
  · exact out_none_of_fail _ s _ rfl
  · split
    · exact out_none_of_fail _ s _ rfl
    · split
      · exact out_none_of_fail _ s _ rfl
      · split
        · exact out_none_of_fail _ s _ rfl
        · split
          · exact out_none_of_fail _ s _ rfl
          · split
            · exact out_none_of_fail _ s _ rfl
            · split
              · exact out_none_of_assert _ s rfl
              · exact out_none_of_success _ rfl
          · exact out_none_of_fail _ s _ rfl

lemma helLoadForeign_out (s : KernelState) (t : ThreadId) (handle : Handle)
    (address length : Nat) (loaded : List Nat) :
    ∀ e, (helLoadForeign s t handle address length loaded).outcome = .returned e →
      e ≠ .kHelErrNone → (helLoadForeign s t handle address length loaded).out = none := by
  unfold helLoadForeign
  split
  · exact out_none_of_fail _ s _ rfl
  · exact out_none_of_success _ rfl
  · exact out_none_of_fail _ s _ rfl

lemma helMemoryInfo_out (s : KernelState) (t : ThreadId) (handle : Handle) :
    ∀ e, (helMemoryInfo s t handle).outcome = .returned e →
      e ≠ .kHelErrNone → (helMemoryInfo s t handle).out = none := by
  unfold helMemoryInfo
  split
  · exact out_none_of_fail _ s _ rfl
  · exact out_none_of_success _ rfl
  · exact out_none_of_fail _ s _ rfl

lemma helCreateThread_out (s : KernelState) (t : ThreadId) (universe_handle space_handle : Handle)
    (ip sp flags : Nat) (new_thread : ThreadId) (created : Thread) :
    ∀ e, (helCreateThread s t universe_handle space_handle ip sp flags new_thread
          created).outcome = .returned e →
      e ≠ .kHelErrNone →
      (helCreateThread s t universe_handle space_handle ip sp flags new_thread
          created).out = none := by
  unfold helCreateThread
  split
  · exact out_none_of_fail _ s _ rfl
  · split
    · exact out_none_of_fail _ s _ rfl
    · split
      · exact out_none_of_fail _ s _ rfl
      · exact out_none_of_success _ rfl

lemma helLoadRegisters_out (s : KernelState) (t : ThreadId) (handle : Handle)
    (set : RegisterSet) :
    ∀ e, (helLoadRegisters s t handle set).outcome = .returned e →
      e ≠ .kHelErrNone → (helLoadRegisters s t handle set).out = none := by
  unfold helLoadRegisters
  split
  · exact out_none_of_fail _ s _ rfl
  · split
    · exact out_none_of_success _ rfl
    · exact out_none_of_success _ rfl
    · exact out_none_of_success _ rfl
    · exact out_none_of_fail _ s _ rfl
  · exact out_none_of_fail _ s _ rfl

lemma helTransferDescriptor_out (s : KernelState) (t : ThreadId) (handle uh : Handle)
    (h : (helTransferDescriptor s t handle uh).error ≠ .kHelErrNone) :
    (helTransferDescriptor s t handle uh).out = none := by
  cases hd : (s.universes (s.threads t).univ).getDescriptor handle with
  | none => rw [helTransferDescriptor_of_absent s t handle uh hd]
  | some d =>
    cases ht : resolveTargetUniverse (s.threads t).univ (s.universes (s.threads t).univ) uh with
    | error e => rw [helTransferDescriptor_of_target_error s t handle uh d e hd ht]
    | ok target =>
      rw [helTransferDescriptor_of_target_ok s t handle uh d target hd ht] at h
      exact absurd rfl h

/-- C19: every system call of hel.cpp that stores through an out-pointer
(helCreateUniverse, helTransferDescriptor, helDescriptorInfo, helAllocateMemory,
helCreateManagedMemory, helAccessPhysical, helCreateSpace, helForkSpace,
helMapMemory, helPointerPhysical, helLoadForeign, helMemoryInfo, helCreateThread,
helLoadRegisters, helGetClock, helCreateStream, helAccessIrq, helAccessIo) has
not written its out-parameter whenever it returns an error code other than
none. -/
theorem out_parameters_written_only_on_success (s : KernelState) (this_thread : ThreadId) :
    (∀ (new_universe : UniverseId) (e : HelError),
      (helCreateUniverse s this_thread new_universe).outcome = .returned e →
      e ≠ .kHelErrNone → (helCreateUniverse s this_thread new_universe).out = none) ∧
    (∀ handle universe_handle : Handle,
      (helTransferDescriptor s this_thread handle universe_handle).error ≠ .kHelErrNone →
      (helTransferDescriptor s this_thread handle universe_handle).out = none) ∧
    (∀ (handle : Handle) (e : HelError),
      (helDescriptorInfo s this_thread handle).outcome = .returned e →
      e ≠ .kHelErrNone → (helDescriptorInfo s this_thread handle).out = none) ∧
    (∀ (size flags : Nat) (memory : ObjectId) (e : HelError),
      (helAllocateMemory s this_thread size flags memory).outcome = .returned e →
      e ≠ .kHelErrNone → (helAllocateMemory s this_thread size flags memory).out = none) ∧
    (∀ (size flags : Nat) (managed backing frontal : ObjectId) (e : HelError),
      (helCreateManagedMemory s this_thread size flags managed backing frontal).outcome
        = .returned e →
      e ≠ .kHelErrNone →
      (helCreateManagedMemory s this_thread size flags managed backing frontal).out = none) ∧
    (∀ (physical size : Nat) (memory : ObjectId) (e : HelError),
      (helAccessPhysical s this_thread physical size memory).outcome = .returned e →
      e ≠ .kHelErrNone → (helAccessPhysical s this_thread physical size memory).out = none) ∧
    (∀ (space : ObjectId) (e : HelError),
      (helCreateSpace s this_thread space).outcome = .returned e →
      e ≠ .kHelErrNone → (helCreateSpace s this_thread space).out = none) ∧
    (∀ (handle : Handle) (forked : ObjectId) (e : HelError),
      (helForkSpace s this_thread handle forked).outcome = .returned e →
      e ≠ .kHelErrNone → (helForkSpace s this_thread handle forked).out = none) ∧
    (∀ (memory_handle space_handle : Handle) (pointer offset length flags actual : Nat)
        (e : HelError),
      (helMapMemory s this_thread memory_handle space_handle pointer offset length flags
          actual).outcome = .returned e →
      e ≠ .kHelErrNone →
      (helMapMemory s this_thread memory_handle space_handle pointer offset length flags
          actual).out = none) ∧
    (∀ (pointer page_physical : Nat) (e : HelError),
      (helPointerPhysical s this_thread pointer page_physical).outcome = .returned e →
      e ≠ .kHelErrNone → (helPointerPhysical s this_thread pointer page_physical).out = none) ∧
    (∀ (handle : Handle) (address length : Nat) (loaded : List Nat) (e : HelError),
      (helLoadForeign s this_thread handle address length loaded).outcome = .returned e →
      e ≠ .kHelErrNone →
      (helLoadForeign s this_thread handle address length loaded).out = none) ∧
    (∀ (handle : Handle) (e : HelError),
      (helMemoryInfo s this_thread handle).outcome = .returned e →
      e ≠ .kHelErrNone → (helMemoryInfo s this_thread handle).out = none) ∧
    (∀ (universe_handle space_handle : Handle) (ip sp flags : Nat) (new_thread : ThreadId)
        (created : Thread) (e : HelError),
      (helCreateThread s this_thread universe_handle space_handle ip sp flags new_thread
          created).outcome = .returned e →
      e ≠ .kHelErrNone →
      (helCreateThread s this_thread universe_handle space_handle ip sp flags new_thread
          created).out = none) ∧
    (∀ (handle : Handle) (set : RegisterSet) (e : HelError),
      (helLoadRegisters s this_thread handle set).outcome = .returned e →
      e ≠ .kHelErrNone → (helLoadRegisters s this_thread handle set).out = none) ∧
    (∀ (nanos : Nat) (e : HelError),
      (helGetClock s nanos).outcome = .returned e →
      e ≠ .kHelErrNone → (helGetClock s nanos).out = none) ∧
    (∀ (lane1 lane2 : LaneHandle) (e : HelError),
      (helCreateStream s this_thread lane1 lane2).outcome = .returned e →
      e ≠ .kHelErrNone → (helCreateStream s this_thread lane1 lane2).out = none) ∧
    (∀ (number : Int) (irq : ObjectId) (e : HelError),
      (helAccessIrq s this_thread number irq).outcome = .returned e →
      e ≠ .kHelErrNone → (helAccessIrq s this_thread number irq).out = none) ∧
    (∀ (ports : List Nat) (io_space : ObjectId) (e : HelError),
      (helAccessIo s this_thread ports io_space).outcome = .returned e →
      e ≠ .kHelErrNone → (helAccessIo s this_thread ports io_space).out = none) := by
  refine ⟨?_, ?_, ?_, ?_, ?_, ?_, ?_, ?_, ?_, ?_, ?_, ?_, ?_, ?_, ?_, ?_, ?_, ?_⟩
  · exact fun n => out_none_of_success _ rfl
  · exact fun handle uh => helTransferDescriptor_out s this_thread handle uh
  · exact fun handle e _ _ => helDescriptorInfo_out s this_thread handle
  · exact fun size flags memory => helAllocateMemory_out s this_thread size flags memory
  · exact fun size flags a b c => helCreateManagedMemory_out s this_thread size flags a b c
  · exact fun p size m => helAccessPhysical_out s this_thread p size m
  · exact fun sp => out_none_of_success _ rfl
  · exact fun handle forked => helForkSpace_out s this_thread handle forked
  · exact fun mh sh p o l f a => helMapMemory_out s this_thread mh sh p o l f a
  · exact fun p pp => out_none_of_success _ rfl
  · exact fun handle a l ld => helLoadForeign_out s this_thread handle a l ld
  · exact fun handle => helMemoryInfo_out s this_thread handle
  · exact fun uh sh ip sp f nt c => helCreateThread_out s this_thread uh sh ip sp f nt c
  · exact fun handle set => helLoadRegisters_out s this_thread handle set
  · exact fun n => out_none_of_success _ rfl
  · exact fun l1 l2 => out_none_of_success _ rfl
  · exact fun n irq => out_none_of_success _ rfl
  · exact fun ports io => out_none_of_success _ rfl

/-- Witness for C19: helMapMemory with a zero length, helMemoryInfo on a lane
handle, helLoadRegisters with the debug set and helTransferDescriptor of an
unattached handle return errors and write nothing. -/
theorem out_parameters_written_only_on_success_witness :
    (helMapMemory sampleState 0 1 0 0 0 0 kHelMapReadWrite 77).out = none ∧
    (helMemoryInfo sampleState 0 2).out = none ∧
    (helLoadRegisters sampleState 0 4 .kHelRegsDebug).out = none ∧
    (helTransferDescriptor sampleState 0 9 3).out = none :=
  ⟨(out_parameters_written_only_on_success sampleState 0).2.2.2.2.2.2.2.2.1
      1 0 0 0 0 kHelMapReadWrite 77 .kHelErrIllegalArgs (by decide) (by decide),
   (out_parameters_written_only_on_success sampleState 0).2.2.2.2.2.2.2.2.2.2.2.1
      2 .kHelErrBadDescriptor (by decide) (by decide),
   (out_parameters_written_only_on_success sampleState 0).2.2.2.2.2.2.2.2.2.2.2.2.2.1
      4 .kHelRegsDebug .kHelErrIllegalArgs (by decide) (by decide),
   (out_parameters_written_only_on_success sampleState 0).2.1 9 3 (by decide)⟩

/-! ## Reachable assertions -/

/-- C20 (the code at the failing inputs): assertions of hel.cpp fail on plain
user arguments: helAllocateMemory and helCreateManagedMemory with size 0 or an
unaligned size, helAccessPhysical with an unaligned address, helDescriptorInfo
with an attached handle, helCompleteLoad with an unaligned offset, and
helSubmitAsync with count 0 or an unknown action type. -/
theorem assertions_reachable_from_user_arguments :
    (helAllocateMemory sampleState 0 0 0 7).outcome = .assertionFailed ∧
    (helAllocateMemory sampleState 0 100 0 7).outcome = .assertionFailed ∧
    (helCreateManagedMemory sampleState 0 0 0 7 8 9).outcome = .assertionFailed ∧
    (helCreateManagedMemory sampleState 0 100 0 7 8 9).outcome = .assertionFailed ∧
    (helAccessPhysical sampleState 0 1 4096 7).outcome = .assertionFailed ∧
    (sampleState.universes (sampleState.threads 0).univ).getDescriptor 1
      = some (.MemoryAccessDescriptor 0) ∧
    (helDescriptorInfo sampleState 0 1).outcome = .assertionFailed ∧
    (helCompleteLoad sampleState 0 1 1 4096).outcome = .assertionFailed ∧
    (helSubmitAsync sampleState 0 0 sampleBranch kHelThisThread [] 0 0).outcome
      = .assertionFailed ∧
    (helSubmitAsync sampleState 0 0 sampleBranch kHelThisThread
        [sampleAction (.other 99) 0] 0 0).outcome = .assertionFailed := by
  decide

/-! ## Futex -/

lemma runWaitCallbacks_of_not_mem (l : List ThreadId) :
    ∀ (waiting : ThreadId → Bool) (t : ThreadId), t ∉ l →
      runWaitCallbacks waiting l t = waiting t := by
  induction l with
  | nil => intro waiting t _; rfl
  | cons x rest ih =>
    intro waiting t ht
    have h1 : t ≠ x := fun h => ht (h ▸ List.mem_cons_self _ _)
    have h2 : t ∉ rest := fun h => ht (List.mem_cons_of_mem _ h)
    rw [runWaitCallbacks, ih _ t h2, Function.update_noteq h1]

lemma runWaitCallbacks_of_mem (l : List ThreadId) :
    ∀ (waiting : ThreadId → Bool) (t : ThreadId), t ∈ l →
      runWaitCallbacks waiting l t = false := by
  induction l with
  | nil => intro waiting t ht; simp at ht
  | cons x rest ih =>
    intro waiting t ht
    by_cases hr : t ∈ rest
    · rw [runWaitCallbacks, ih _ t hr]
    · have hx : t = x := by
        rcases List.mem_cons.mp ht with h | h
        · exact h
        · exact absurd h hr
      subst hx
      rw [runWaitCallbacks, runWaitCallbacks_of_not_mem rest _ t hr, Function.update_same]

lemma helFutexWait_of_equal (s : KernelState) (w : FutexWorld) (t : ThreadId) (pointer : Nat)
    (expected : Int) :
    helFutexWait s w t pointer expected expected =
      ({ futexSpace := Function.update w.futexSpace (s.threads t).addressSpace
            { queues := Function.update (w.futexSpace (s.threads t).addressSpace).queues
                pointer ((w.futexSpace (s.threads t).addressSpace).queues pointer ++ [t]) },
         waiting := Function.update w.waiting t true },
       .blocked) := by
  simp [helFutexWait, FutexSpace.waitIf]

lemma helFutexWait_of_differs (s : KernelState) (w : FutexWorld) (t : ThreadId)
    (pointer : Nat) (expected loaded : Int) (h : loaded ≠ expected) :
    helFutexWait s w t pointer expected loaded = (w, .returned .kHelErrNone) := by
  have hb : (expected == loaded) = false := by simpa using fun e => h e.symm
  simp [helFutexWait, FutexSpace.waitIf, hb]

/-- C21: helFutexWait(pointer, expected) enqueues the caller on the queue of
the address `pointer` in the futex of the caller's address space and blocks
when the value loaded from *pointer equals `expected`; when the value differs
it returns none at once, enqueues nothing and does not block.  After a
helFutexWake on the same address by a thread of the same address space the
blocked waiter is no longer waiting (its call returns none), and helFutexWake
returns none. -/
theorem helFutexWait_blocks_iff_equal (s : KernelState) (w : FutexWorld)
    (this_thread : ThreadId) (pointer : Nat) (expected loaded : Int) :
    (loaded = expected →
      (helFutexWait s w this_thread pointer expected loaded).2 = .blocked ∧
      this_thread ∈ ((helFutexWait s w this_thread pointer expected loaded).1.futexSpace
        (s.threads this_thread).addressSpace).queues pointer ∧
      (helFutexWait s w this_thread pointer expected loaded).1.waiting this_thread = true) ∧
    (loaded ≠ expected →
      (helFutexWait s w this_thread pointer expected loaded).2 = .returned .kHelErrNone ∧
      (helFutexWait s w this_thread pointer expected loaded).1 = w) ∧
    (∀ waker : ThreadId,
      (s.threads waker).addressSpace = (s.threads this_thread).addressSpace →
      loaded = expected →
      (helFutexWake s (helFutexWait s w this_thread pointer expected loaded).1 waker
          pointer).2 = .kHelErrNone ∧
      (helFutexWake s (helFutexWait s w this_thread pointer expected loaded).1 waker
          pointer).1.waiting this_thread = false ∧
      ((helFutexWake s (helFutexWait s w this_thread pointer expected loaded).1 waker
          pointer).1.futexSpace (s.threads this_thread).addressSpace).queues pointer = []) := by
  refine ⟨fun h => ?_, fun h => ?_, fun waker hsp h => ?_⟩
  · subst h
    rw [helFutexWait_of_equal]
    simp
  · rw [helFutexWait_of_differs s w this_thread pointer expected loaded h]
    exact ⟨rfl, rfl⟩
  · subst h
    rw [helFutexWait_of_equal]
    simp only [helFutexWake, FutexSpace.wake]
    rw [hsp]
    simp only [Function.update_same, true_and, and_true]
    exact runWaitCallbacks_of_mem _ _ _ (List.mem_append_right _ (List.mem_singleton_self _))

/-- Witness for C21: thread 0 waits on address 64 holding the expected value 1
and blocks; with the value 2 it returns at once; a wake by thread 1, which has
the same address space, releases the blocked waiter. -/
theorem helFutexWait_blocks_iff_equal_witness :
    (helFutexWait sampleState sampleFutexWorld 0 64 1 1).2 = .blocked ∧
    (helFutexWait sampleState sampleFutexWorld 0 64 1 2).2 = .returned .kHelErrNone ∧
    (helFutexWake sampleState (helFutexWait sampleState sampleFutexWorld 0 64 1 1).1 1
        64).1.waiting 0 = false :=
  ⟨((helFutexWait_blocks_iff_equal sampleState sampleFutexWorld 0 64 1 1).1 rfl).1,
   ((helFutexWait_blocks_iff_equal sampleState sampleFutexWorld 0 64 1 2).2.1
      (by decide)).1,
   ((helFutexWait_blocks_iff_equal sampleState sampleFutexWorld 0 64 1 1).2.2 1 rfl
      rfl).2.1⟩

/-! ## Push and pull of descriptors -/

lemma helSubmitAsync_getElem (s : KernelState) (t : ThreadId) (space : ObjectId)
    (branch : Nat → LaneHandle) (handle : Handle) (actions : List HelAction)
    (queue context : Nat) (k : Nat) (a : HelAction) (x : StreamSubmit)
    (ha : actions[k]? = some a)
    (hx : (helSubmitAsync s t space branch handle actions queue context).submitted[k]?
      = some x) :
    dispatchAction (s.threads t).univ (s.universes (s.threads t).univ) a
      = some (.ok (x.op, x.token.writer)) := by
  cases hr : resolveRootLane s t handle with
  | error e =>
    rw [helSubmitAsync_of_error _ _ _ _ _ _ _ _ e hr] at hx
    simp at hx
  | ok lane =>
    rw [helSubmitAsync_of_ok _ _ _ _ _ _ _ _ lane hr] at hx
    exact submitLoop_getElem _ _ branch actions [lane] 0 k a x ha hx

lemma dispatchAction_push (tu : UniverseId) (u : Universe) (a : HelAction) (op : StreamOp)
    (k : WriterKind) (htype : a.type = .kHelActionPushDescriptor)
    (hd : dispatchAction tu u a = some (.ok (op, k))) :
    ∃ d, u.getDescriptor a.handle = some d ∧ op = .submitPushDescriptor d := by
  obtain ⟨ty, fl, bu, le, ha⟩ := a
  simp only at htype
  subst htype
  cases hg : u.getDescriptor ha with
  | none => simp [dispatchAction, hg] at hd
  | some d =>
    simp only [dispatchAction, hg, Option.some.injEq, Except.ok.injEq, Prod.mk.injEq] at hd
    exact ⟨d, rfl, hd.1.symm⟩

lemma dispatchAction_pull (tu : UniverseId) (u : Universe) (a : HelAction) (op : StreamOp)
    (k : WriterKind) (htype : a.type = .kHelActionPullDescriptor)
    (hd : dispatchAction tu u a = some (.ok (op, k))) :
    op = .submitPullDescriptor tu ∧ k = .PullDescriptorWriter := by
  obtain ⟨ty, fl, bu, le, ha⟩ := a
  simp only at htype
  subst htype
  simp only [dispatchAction, Option.some.injEq, Except.ok.injEq, Prod.mk.injEq] at hd
  exact ⟨hd.1.symm, hd.2.symm⟩

/-- C22 (as stated, refuted): handle 2 names a lane descriptor; the calling
thread pushes it and helSubmitAsync accepts, handing a copy of the descriptor
to the stream.  helSubmitAsync only looks descriptors up, so the universe is
as before: handle 2 still resolves to the lane, and a further submission
through handle 2 runs on that lane. -/
theorem helSubmitAsync_push_lane_keeps_handle :
    (helSubmitAsync sampleState 0 0 sampleBranch kHelThisThread [samplePush 0 2] 0 0).outcome
      = .returned .kHelErrNone ∧
    (helSubmitAsync sampleState 0 0 sampleBranch kHelThisThread [samplePush 0 2] 0
        0).submitted
      = [{ lane := 100, op := .submitPushDescriptor (.LaneDescriptor 7),
           token := ⟨.PushDescriptorWriter, 0⟩ }] ∧
    (sampleState.universes (sampleState.threads 0).univ).getDescriptor 2
      = some (.LaneDescriptor 7) ∧
    (helSubmitAsync sampleState 0 0 sampleBranch 2
        [sampleAction .kHelActionSendFromBuffer 0] 0 0).submitted.map (fun x => x.lane)
      = [7] := by
  decide

/-- C22 (amended): a push-descriptor action that helSubmitAsync submits hands
the stream a copy of the descriptor its operand handle resolves to, whatever
the variant (lane descriptors included); helSubmitAsync does not detach
anything, so the operand handle still resolves to that descriptor in the
sender's universe. -/
theorem helSubmitAsync_push_copies_operand (s : KernelState) (this_thread : ThreadId)
    (space : ObjectId) (branch : Nat → LaneHandle) (handle : Handle)
    (actions : List HelAction) (queue context : Nat) (k : Nat) (a : HelAction)
    (x : StreamSubmit)
    (ha : actions[k]? = some a) (htype : a.type = .kHelActionPushDescriptor)
    (hx : (helSubmitAsync s this_thread space branch handle actions queue
            context).submitted[k]? = some x) :
    ∃ d, (s.universes (s.threads this_thread).univ).getDescriptor a.handle = some d ∧
      x.op = .submitPushDescriptor d := by
  have hd := helSubmitAsync_getElem s this_thread space branch handle actions queue context
    k a x ha hx
  exact dispatchAction_push _ _ a _ _ htype hd

/-- Witness for C22 (amended): pushing the lane handle 2 and the memory
handle 1. -/
theorem helSubmitAsync_push_copies_operand_witness :
    (∃ d, (sampleState.universes (sampleState.threads 0).univ).getDescriptor
        (samplePush kHelItemChain 2).handle = some d ∧
      ({ lane := 100, op := .submitPushDescriptor (.LaneDescriptor 7),
         token := ⟨.PushDescriptorWriter, 0⟩ } : StreamSubmit).op
        = .submitPushDescriptor d) ∧
    (∃ d, (sampleState.universes (sampleState.threads 0).univ).getDescriptor
        (samplePush 0 1).handle = some d ∧
      ({ lane := 100, op := .submitPushDescriptor (.MemoryAccessDescriptor 0),
         token := ⟨.PushDescriptorWriter, 1⟩ } : StreamSubmit).op
        = .submitPushDescriptor d) :=
  ⟨helSubmitAsync_push_copies_operand sampleState 0 0 sampleBranch kHelThisThread
      [samplePush kHelItemChain 2, samplePush 0 1] 0 0 0 (samplePush kHelItemChain 2) _
      (by decide) rfl (by decide),
   helSubmitAsync_push_copies_operand sampleState 0 0 sampleBranch kHelThisThread
      [samplePush kHelItemChain 2, samplePush 0 1] 0 0 1 (samplePush 0 1) _
      (by decide) rfl (by decide)⟩

lemma PullDescriptorWriter_write (s : KernelState) (u : UniverseId) (d : AnyDescriptor)
    (disp : Nat) (halive : s.universeAlive u = true) :
    (ItemWriter.PullDescriptorWriter .kErrSuccess u d).write s disp =
      some ((attachIn s u d).1,
        [{ disp := disp, data := .HelHandleResult .kHelErrNone 0 (attachIn s u d).2,
           size := sizeofHelHandleResult }]) := by
  simp [ItemWriter.write, attachThroughWeak, halive, translateError, attachIn]

/-- C23: let the sender's handle resolve to descriptor `d`.  A push-descriptor
action naming that handle hands a copy of `d` to submitPushDescriptor; a
pull-descriptor action passes the universe of the thread that submitted it to
submitPullDescriptor and gets a PullDescriptorWriter token.  When that writer
holds `d` and the receiver's universe, write() attaches `d` there and puts
exactly the handle returned by the attach into a handle record; afterwards
that handle resolves in the receiver's universe to `d`, the sender's handle
still resolves to `d`, and for a memory descriptor helMemoryInfo reports the
same length through both handles. -/
theorem push_pull_preserves_descriptor (s : KernelState) (sender receiver : ThreadId)
    (handle : Handle) (d : AnyDescriptor) (disp : Nat)
    (hd : (s.universes (s.threads sender).univ).getDescriptor handle = some d)
    (halive : s.universeAlive (s.threads receiver).univ = true) :
    (∀ (space : ObjectId) (branch : Nat → LaneHandle) (root : Handle)
        (actions : List HelAction) (queue context k : Nat) (a : HelAction) (x : StreamSubmit),
      actions[k]? = some a → a.type = .kHelActionPushDescriptor → a.handle = handle →
      (helSubmitAsync s sender space branch root actions queue context).submitted[k]?
        = some x →
      x.op = .submitPushDescriptor d) ∧
    (∀ (space : ObjectId) (branch : Nat → LaneHandle) (root : Handle)
        (actions : List HelAction) (queue context k : Nat) (a : HelAction) (x : StreamSubmit),
      actions[k]? = some a → a.type = .kHelActionPullDescriptor →
      (helSubmitAsync s receiver space branch root actions queue context).submitted[k]?
        = some x →
      x.op = .submitPullDescriptor (s.threads receiver).univ ∧
      x.token.writer = .PullDescriptorWriter) ∧
    (∃ s2 received,
      (ItemWriter.PullDescriptorWriter .kErrSuccess (s.threads receiver).univ d).write s disp
        = some (s2, [{ disp := disp, data := .HelHandleResult .kHelErrNone 0 received,
                       size := sizeofHelHandleResult }]) ∧
      received = ((s.universes (s.threads receiver).univ).attachDescriptor d).1 ∧
      (s2.universes (s.threads receiver).univ).getDescriptor received = some d ∧
      (s2.universes (s.threads sender).univ).getDescriptor handle = some d ∧
      (∀ memory : ObjectId, d = .MemoryAccessDescriptor memory →
        (helMemoryInfo s2 receiver received).out = some (s.memoryLength memory) ∧
        (helMemoryInfo s2 sender handle).out = some (s.memoryLength memory))) := by
  refine ⟨?_, ?_, ?_⟩
  · intro space branch root actions queue context k a x ha htype hh hx
    have hdisp := helSubmitAsync_getElem s sender space branch root actions queue context
      k a x ha hx
    obtain ⟨d2, h1, h2⟩ := dispatchAction_push _ _ a _ _ htype hdisp
    rw [hh, hd] at h1
    rw [h2, ← Option.some.inj h1]
  · intro space branch root actions queue context k a x ha htype hx
    have hdisp := helSubmitAsync_getElem s receiver space branch root actions queue context
      k a x ha hx
    exact dispatchAction_pull _ _ a _ _ htype hdisp
  · have hrecv : ((attachIn s (s.threads receiver).univ d).1.universes
        (s.threads receiver).univ).getDescriptor (attachIn s (s.threads receiver).univ d).2
        = some d := by
      simp only [attachIn, Function.update_same]
      exact getDescriptor_attach_self _ d
    have hsend : ((attachIn s (s.threads receiver).univ d).1.universes
        (s.threads sender).univ).getDescriptor handle = some d := by
      simp only [attachIn]
      by_cases hx : (s.threads sender).univ = (s.threads receiver).univ
      · rw [← hx, Function.update_same]
        exact getDescriptor_attach_copy _ d handle hd
      · rw [Function.update_noteq hx]
        exact hd
    refine ⟨(attachIn s (s.threads receiver).univ d).1,
      (attachIn s (s.threads receiver).univ d).2,
      PullDescriptorWriter_write s _ d disp halive, rfl, hrecv, hsend, ?_⟩
    intro memory hm
    subst hm
    have ht : (attachIn s (s.threads receiver).univ
        (.MemoryAccessDescriptor memory)).1.threads = s.threads := rfl
    constructor
    · simp only [helMemoryInfo, ht, hrecv]
      rfl
    · simp only [helMemoryInfo, ht, hsend]
      rfl

/-- Witness for C23: thread 0 pushes its memory handle 1 and pulls it back into
its own universe; the record carries the fresh handle 5, which resolves to the
same memory object, and helMemoryInfo reports 8192 for both handles. -/
theorem push_pull_preserves_descriptor_witness :
    (helSubmitAsync sampleState 0 0 sampleBranch kHelThisThread
        [samplePush kHelItemChain 1, samplePull] 0 0).submitted.map (fun x => x.op)
      = [.submitPushDescriptor (.MemoryAccessDescriptor 0), .submitPullDescriptor 0] ∧
    (∃ s2 received,
      (ItemWriter.PullDescriptorWriter .kErrSuccess (sampleState.threads 0).univ
          (.MemoryAccessDescriptor 0)).write sampleState 8
        = some (s2, [{ disp := 8, data := .HelHandleResult .kHelErrNone 0 received,
                       size := sizeofHelHandleResult }]) ∧
      received = ((sampleState.universes (sampleState.threads 0).univ).attachDescriptor
        (.MemoryAccessDescriptor 0)).1 ∧
      (s2.universes (sampleState.threads 0).univ).getDescriptor received
        = some (.MemoryAccessDescriptor 0) ∧
      (s2.universes (sampleState.threads 0).univ).getDescriptor 1
        = some (.MemoryAccessDescriptor 0) ∧
      (∀ memory : ObjectId, AnyDescriptor.MemoryAccessDescriptor 0
          = .MemoryAccessDescriptor memory →
        (helMemoryInfo s2 0 received).out = some (sampleState.memoryLength memory) ∧
        (helMemoryInfo s2 0 1).out = some (sampleState.memoryLength memory))) :=
  ⟨by decide,
   (push_pull_preserves_descriptor sampleState 0 0 1 (.MemoryAccessDescriptor 0) 8
      (by decide) (by decide)).2.2⟩

lemma threadFlagMask_eq :
    uintModulus - 1 - (kHelThreadExclusive ||| kHelThreadTrapsAreFatal ||| kHelThreadStopped)
      = 4294967270 := by
  decide

lemma threadFlagMask_testBit (i : Nat) (hi : i < 32) (h0 : i ≠ 0) (h3 : i ≠ 3) (h4 : i ≠ 4) :
    Nat.testBit 4294967270 i = true := by
  interval_cases i <;> first | contradiction | decide

lemma helCreateThread_of_bad_flags (s : KernelState) (this_thread : ThreadId)
    (universe_handle space_handle : Handle) (ip sp flags : Nat)
    (new_thread : ThreadId) (created : Thread)
    (h : flags &&& 4294967270 ≠ 0) :
    helCreateThread s this_thread universe_handle space_handle ip sp flags new_thread created
      = SysResult.fail s .kHelErrIllegalArgs := by
  simp only [helCreateThread, threadFlagMask_eq]
  rw [if_pos h]

lemma resolveThreadUniverse_error_ne_none (s : KernelState) (t : ThreadId) (h : Handle)
    (e : HelError) (he : resolveThreadUniverse s t h = .error e) : e ≠ .kHelErrNone := by
  unfold resolveThreadUniverse at he
  split at he
  · cases he
  · split at he <;> cases he <;> decide

lemma resolveSpace_error_ne_none (s : KernelState) (t : ThreadId) (h : Handle)
    (e : HelError) (he : resolveSpace s t h = .error e) : e ≠ .kHelErrNone := by
  unfold resolveSpace at he
  split at he
  · cases he
  · split at he <;> cases he <;> decide

lemma helCreateThread_of_good_flags (s : KernelState) (this_thread : ThreadId)
    (universe_handle space_handle : Handle) (ip sp flags : Nat)
    (new_thread : ThreadId) (created : Thread)
    (h : flags &&& 4294967270 = 0)
    (hok : (helCreateThread s this_thread universe_handle space_handle ip sp flags
      new_thread created).outcome = .returned .kHelErrNone) :
    ((helCreateThread s this_thread universe_handle space_handle ip sp flags
        new_thread created).state.threads new_thread).flags
      = { kFlagExclusive :=
            created.flags.kFlagExclusive || (flags &&& kHelThreadExclusive != 0),
          kFlagTrapsAreFatal :=
            created.flags.kFlagTrapsAreFatal || (flags &&& kHelThreadTrapsAreFatal != 0) } ∧
    (∃ univ space,
      (helCreateThread s this_thread universe_handle space_handle ip sp flags
        new_thread created).invoked
      = [.threadCreate new_thread univ space ip sp, .schedulerAttach new_thread]
          ++ (if flags &&& kHelThreadStopped = 0 then [.resumeOther new_thread] else [])) := by
  simp only [helCreateThread, threadFlagMask_eq] at hok ⊢
  rw [if_neg (not_not.mpr h)] at hok ⊢
  revert hok
  cases hu : resolveThreadUniverse s this_thread universe_handle with
  | error e =>
    intro hok
    simp only [SysResult.fail, Outcome.returned.injEq] at hok
    exact absurd hok (resolveThreadUniverse_error_ne_none s this_thread universe_handle e hu)
  | ok univ =>
    simp only []
    cases hs : resolveSpace s this_thread space_handle with
    | error e =>
      intro hok
      simp only [SysResult.fail, Outcome.returned.injEq] at hok
      exact absurd hok (resolveSpace_error_ne_none s this_thread space_handle e hs)
    | ok space =>
      intro _
      refine ⟨?_, univ, space, rfl⟩
      simp [attachIn]

/-- C24: for a 32-bit `flags` word, helCreateThread returns illegal-args with
the state unchanged, nothing stored and no call made (in particular no handle
lookup result matters and Thread::create is not called) whenever some bit other
than exclusive (bit 0), traps-are-fatal (bit 3) and stopped (bit 4) is set.
When no such bit is set and the call succeeds, each of the two flags of the new
thread is the flag Thread::create left or-ed with the requested one, hence set
iff requested when Thread::create leaves the flags clear, and resumeOther is
called on the new thread iff the stopped bit is not set. -/
theorem helCreateThread_flags (s : KernelState) (this_thread : ThreadId)
    (universe_handle space_handle : Handle) (ip sp flags : Nat)
    (new_thread : ThreadId) (created : Thread) (hflags : flags < uintModulus) :
    ((∃ i, flags.testBit i = true ∧ i ≠ 0 ∧ i ≠ 3 ∧ i ≠ 4) →
      (helCreateThread s this_thread universe_handle space_handle ip sp flags
          new_thread created).outcome = .returned .kHelErrIllegalArgs ∧
      (helCreateThread s this_thread universe_handle space_handle ip sp flags
          new_thread created).state = s ∧
      (helCreateThread s this_thread universe_handle space_handle ip sp flags
          new_thread created).out = none ∧
      (helCreateThread s this_thread universe_handle space_handle ip sp flags
          new_thread created).invoked = []) ∧
    ((∀ i, flags.testBit i = true → i = 0 ∨ i = 3 ∨ i = 4) →
      (helCreateThread s this_thread universe_handle space_handle ip sp flags
          new_thread created).outcome = .returned .kHelErrNone →
      (((helCreateThread s this_thread universe_handle space_handle ip sp flags
          new_thread created).state.threads new_thread).flags.kFlagExclusive
        = (created.flags.kFlagExclusive || flags.testBit 0)) ∧
      (((helCreateThread s this_thread universe_handle space_handle ip sp flags
          new_thread created).state.threads new_thread).flags.kFlagTrapsAreFatal
        = (created.flags.kFlagTrapsAreFatal || flags.testBit 3)) ∧
      (created.flags = { kFlagExclusive := false, kFlagTrapsAreFatal := false } →
        (((helCreateThread s this_thread universe_handle space_handle ip sp flags
            new_thread created).state.threads new_thread).flags.kFlagExclusive = true
          ↔ flags &&& kHelThreadExclusive ≠ 0) ∧
        (((helCreateThread s this_thread universe_handle space_handle ip sp flags
            new_thread created).state.threads new_thread).flags.kFlagTrapsAreFatal = true
          ↔ flags &&& kHelThreadTrapsAreFatal ≠ 0)) ∧
      (KernelOp.resumeOther new_thread ∈
          (helCreateThread s this_thread universe_handle space_handle ip sp flags
            new_thread created).invoked
        ↔ flags &&& kHelThreadStopped = 0)) := by
  constructor
  · rintro ⟨i, hbit, h0, h3, h4⟩
    have hi : i < 32 := by
      by_contra hge
      have hlt : flags < 2 ^ i :=
        lt_of_lt_of_le hflags (Nat.pow_le_pow_right (by decide) (not_lt.mp hge))
      rw [Nat.testBit_lt_two_pow hlt] at hbit
      exact Bool.false_ne_true hbit
    have hne : flags &&& 4294967270 ≠ 0 := by
      intro hz
      have hb : (flags &&& 4294967270).testBit i = true := by
        rw [Nat.testBit_and, hbit, threadFlagMask_testBit i hi h0 h3 h4]
        rfl
      rw [hz, Nat.zero_testBit] at hb
      exact Bool.false_ne_true hb
    rw [helCreateThread_of_bad_flags s this_thread universe_handle space_handle ip sp flags
      new_thread created hne]
    exact ⟨rfl, rfl, rfl, rfl⟩
  · intro hall hok
    have hz : flags &&& 4294967270 = 0 := by
      apply Nat.eq_of_testBit_eq
      intro i
      rw [Nat.testBit_and, Nat.zero_testBit]
      cases hb : flags.testBit i with
      | false => rfl
      | true =>
        rcases hall i hb with h | h | h <;> subst h <;> decide
    obtain ⟨hfl, univ, space, hinv⟩ := helCreateThread_of_good_flags s this_thread
      universe_handle space_handle ip sp flags new_thread created hz hok
    have h1 : (flags &&& kHelThreadExclusive != 0) = flags.testBit 0 := by
      have := Nat.and_two_pow flags 0
      simp only [kHelThreadExclusive]
      cases hb : flags.testBit 0 <;> simp_all
    have h8 : (flags &&& kHelThreadTrapsAreFatal != 0) = flags.testBit 3 := by
      have := Nat.and_two_pow flags 3
      simp only [kHelThreadTrapsAreFatal]
      cases hb : flags.testBit 3 <;> simp_all
    refine ⟨?_, ?_, ?_, ?_⟩
    · rw [hfl, h1]
    · rw [hfl, h8]
    · intro hc
      rw [hfl, hc]
      simp
    · rw [hinv]
      by_cases hst : flags &&& kHelThreadStopped = 0
      · simp [hst]
      · simp [hst]

/-- Witness for C24: flags 2 has bit 1 set and is rejected; flags 9 (exclusive
and traps-are-fatal, not stopped) succeeds on the sample state. -/
theorem helCreateThread_flags_witness :
    ((helCreateThread sampleState 0 99 99 4096 8192 2 7 (sampleState.threads 0)).outcome
        = .returned .kHelErrIllegalArgs ∧
     (helCreateThread sampleState 0 99 99 4096 8192 2 7 (sampleState.threads 0)).state
        = sampleState ∧
     (helCreateThread sampleState 0 99 99 4096 8192 2 7 (sampleState.threads 0)).out = none ∧
     (helCreateThread sampleState 0 99 99 4096 8192 2 7 (sampleState.threads 0)).invoked
        = []) ∧
    (KernelOp.resumeOther 7 ∈
        (helCreateThread sampleState 0 kHelNullHandle kHelNullHandle 4096 8192 9 7
          (sampleState.threads 0)).invoked
      ↔ 9 &&& kHelThreadStopped = 0) :=
  ⟨(helCreateThread_flags sampleState 0 99 99 4096 8192 2 7 (sampleState.threads 0)
      (by decide)).1 ⟨1, by decide, by decide, by decide, by decide⟩,
   ((helCreateThread_flags sampleState 0 kHelNullHandle kHelNullHandle 4096 8192 9 7
      (sampleState.threads 0) (by decide)).2
      (by
        intro i hb
        have hi : i < 4 := by
          by_contra hge
          have hlt : 9 < 2 ^ i :=
            lt_of_lt_of_le (by decide : 9 < 2 ^ 4)
              (Nat.pow_le_pow_right (by decide) (not_lt.mp hge))
          rw [Nat.testBit_lt_two_pow hlt] at hb
          exact Bool.false_ne_true hb
        interval_cases i
        · exact Or.inl rfl
        · exact absurd hb (by decide)
        · exact absurd hb (by decide)
        · exact Or.inr (Or.inl rfl))
      (by decide)).2.2.2⟩

lemma helSubmitAsync_first_lane (s : KernelState) (t : ThreadId) (space : ObjectId)
    (branch : Nat → LaneHandle) (handle : Handle) (actions : List HelAction)
    (queue context : Nat) (lane : LaneHandle) (y : StreamSubmit)
    (hr : resolveRootLane s t handle = .ok lane)
    (hy : (helSubmitAsync s t space branch handle actions queue context).submitted[0]?
      = some y) : y.lane = lane := by
  rw [helSubmitAsync_of_ok _ _ _ _ _ _ _ _ lane hr] at hy
  exact submitLoop_head_lane _ _ branch lane [] actions 0 y hy

/-- C25: the root lane of helSubmitAsync.  With the this-thread sentinel the
first action is submitted on the calling thread's inferior lane; with a handle
to a lane descriptor, on that lane; with a handle to a thread descriptor, on
that thread's superior lane.  A handle to a descriptor of any other variant
makes the call return bad-descriptor and an absent handle no-descriptor, in
both cases with no handler constructed and nothing submitted. -/
theorem helSubmitAsync_root_lane (s : KernelState) (this_thread : ThreadId) (space : ObjectId)
    (branch : Nat → LaneHandle) (handle : Handle) (actions : List HelAction)
    (queue context : Nat) :
    (handle = kHelThisThread →
      resolveRootLane s this_thread handle = .ok (s.threads this_thread).inferiorLane ∧
      ∀ y, (helSubmitAsync s this_thread space branch handle actions queue context).submitted[0]?
          = some y → y.lane = (s.threads this_thread).inferiorLane) ∧
    (∀ lane, handle ≠ kHelThisThread →
      (s.universes (s.threads this_thread).univ).getDescriptor handle
        = some (.LaneDescriptor lane) →
      resolveRootLane s this_thread handle = .ok lane ∧
      ∀ y, (helSubmitAsync s this_thread space branch handle actions queue context).submitted[0]?
          = some y → y.lane = lane) ∧
    (∀ thread, handle ≠ kHelThisThread →
      (s.universes (s.threads this_thread).univ).getDescriptor handle
        = some (.ThreadDescriptor thread) →
      resolveRootLane s this_thread handle = .ok (s.threads thread).superiorLane ∧
      ∀ y, (helSubmitAsync s this_thread space branch handle actions queue context).submitted[0]?
          = some y → y.lane = (s.threads thread).superiorLane) ∧
    (∀ d, handle ≠ kHelThisThread →
      (s.universes (s.threads this_thread).univ).getDescriptor handle = some d →
      d.isLaneDescriptor = false → d.isThreadDescriptor = false →
      helSubmitAsync s this_thread space branch handle actions queue context
        = { outcome := .returned .kHelErrBadDescriptor, handler := none, submitted := [] }) ∧
    (handle ≠ kHelThisThread →
      (s.universes (s.threads this_thread).univ).getDescriptor handle = none →
      helSubmitAsync s this_thread space branch handle actions queue context
        = { outcome := .returned .kHelErrNoDescriptor, handler := none, submitted := [] }) := by
  refine ⟨?_, ?_, ?_, ?_, ?_⟩
  · intro hh
    have hr : resolveRootLane s this_thread handle
        = .ok (s.threads this_thread).inferiorLane := by
      simp [resolveRootLane, hh]
    exact ⟨hr, fun y hy => helSubmitAsync_first_lane s this_thread space branch handle actions
      queue context _ y hr hy⟩
  · intro lane hh hd
    have hr : resolveRootLane s this_thread handle = .ok lane := by
      simp [resolveRootLane, hh, hd]
    exact ⟨hr, fun y hy => helSubmitAsync_first_lane s this_thread space branch handle actions
      queue context _ y hr hy⟩
  · intro thread hh hd
    have hr : resolveRootLane s this_thread handle = .ok (s.threads thread).superiorLane := by
      simp [resolveRootLane, hh, hd]
    exact ⟨hr, fun y hy => helSubmitAsync_first_lane s this_thread space branch handle actions
      queue context _ y hr hy⟩
  · intro d hh hd hl ht
    apply helSubmitAsync_of_error
    cases d <;>
      simp_all [resolveRootLane, AnyDescriptor.isLaneDescriptor,
        AnyDescriptor.isThreadDescriptor]
  · intro hh hd
    apply helSubmitAsync_of_error
    simp [resolveRootLane, hh, hd]

/-- Witness for C25 on the sample state, where every thread has inferior lane
100 and superior lane 200, handle 2 names lane 7, handle 4 a thread, handle 1 a
memory object and handle 99 nothing. -/
theorem helSubmitAsync_root_lane_witness :
    ((helSubmitAsync sampleState 0 0 sampleBranch kHelThisThread
        [sampleAction .kHelActionSendFromBuffer 0] 0 0).submitted.map (fun x => x.lane)
        = [100] ∧
      ∀ y, (helSubmitAsync sampleState 0 0 sampleBranch kHelThisThread
          [sampleAction .kHelActionSendFromBuffer 0] 0 0).submitted[0]? = some y →
        y.lane = (sampleState.threads 0).inferiorLane) ∧
    ((helSubmitAsync sampleState 0 0 sampleBranch 2
        [sampleAction .kHelActionSendFromBuffer 0] 0 0).submitted.map (fun x => x.lane)
        = [7] ∧
      ∀ y, (helSubmitAsync sampleState 0 0 sampleBranch 2
          [sampleAction .kHelActionSendFromBuffer 0] 0 0).submitted[0]? = some y →
        y.lane = 7) ∧
    ((helSubmitAsync sampleState 0 0 sampleBranch 4
        [sampleAction .kHelActionSendFromBuffer 0] 0 0).submitted.map (fun x => x.lane)
        = [200] ∧
      ∀ y, (helSubmitAsync sampleState 0 0 sampleBranch 4
          [sampleAction .kHelActionSendFromBuffer 0] 0 0).submitted[0]? = some y →
        y.lane = (sampleState.threads 1).superiorLane) ∧
    helSubmitAsync sampleState 0 0 sampleBranch 1
        [sampleAction .kHelActionSendFromBuffer 0] 0 0
      = { outcome := .returned .kHelErrBadDescriptor, handler := none, submitted := [] } ∧
    helSubmitAsync sampleState 0 0 sampleBranch 99
        [sampleAction .kHelActionSendFromBuffer 0] 0 0
      = { outcome := .returned .kHelErrNoDescriptor, handler := none, submitted := [] } :=
  ⟨⟨by decide,
    ((helSubmitAsync_root_lane sampleState 0 0 sampleBranch kHelThisThread
      [sampleAction .kHelActionSendFromBuffer 0] 0 0).1 rfl).2⟩,
   ⟨by decide,
    ((helSubmitAsync_root_lane sampleState 0 0 sampleBranch 2
      [sampleAction .kHelActionSendFromBuffer 0] 0 0).2.1 7 (by decide) (by decide)).2⟩,
   ⟨by decide,
    ((helSubmitAsync_root_lane sampleState 0 0 sampleBranch 4
      [sampleAction .kHelActionSendFromBuffer 0] 0 0).2.2.1 1 (by decide) (by decide)).2⟩,
   (helSubmitAsync_root_lane sampleState 0 0 sampleBranch 1
      [sampleAction .kHelActionSendFromBuffer 0] 0 0).2.2.2.1 (.MemoryAccessDescriptor 0)
      (by decide) (by decide) rfl rfl,
   (helSubmitAsync_root_lane sampleState 0 0 sampleBranch 99
      [sampleAction .kHelActionSendFromBuffer 0] 0 0).2.2.2.2 (by decide) (by decide)⟩

/-! ## Alignment of the records of a batch -/

lemma dvd_add_size_mod (disp : Nat) (w : ItemWriter) (h : 8 ∣ disp) :
    8 ∣ (disp + w.size) % sizeModulus :=
  (Nat.dvd_mod_iff (by decide : 8 ∣ sizeModulus)).mpr (Nat.dvd_add h (ItemWriter_size_dvd w))

lemma MsgHandler_writeLoop_aligned (ws : List ItemWriter) :
    ∀ (s : KernelState) (disp : Nat),
      (∀ w ∈ ws, w.error = .kErrSuccess) →
      (∀ w ∈ ws, ∀ u, w.weakUniverse = some u → s.universeAlive u = true) →
      8 ∣ disp →
      ∃ s2 calls, MsgHandler.writeLoop (ws.map some) s disp = some (s2, calls) ∧
        calls.map (fun c => c.writer) = ws ∧ ∀ c ∈ calls, c.disp &&& 7 = 0 := by
  induction ws with
  | nil =>
    intro s disp _ _ _
    exact ⟨s, [], rfl, rfl, fun c hc => absurd hc (List.not_mem_nil c)⟩
  | cons w rest ih =>
    intro s disp hok halive hal
    obtain ⟨s1, copies, hw, hs1⟩ := ItemWriter_write_ok w s disp
      (hok w (List.mem_cons_self _ _)) (halive w (List.mem_cons_self _ _))
    obtain ⟨s2, calls, hloop, hwr, hcalls⟩ := ih s1 ((disp + w.size) % sizeModulus)
      (fun x hx => hok x (List.mem_cons_of_mem _ hx))
      (fun x hx u hu => by rw [hs1]; exact halive x (List.mem_cons_of_mem _ hx) u hu)
      (dvd_add_size_mod disp w hal)
    refine ⟨s2, { writer := w, disp := disp, copies := copies } :: calls, ?_, ?_, ?_⟩
    · simp only [List.map_cons, MsgHandler.writeLoop, and_seven_of_dvd disp hal, ne_eq,
        not_true_eq_false, if_false, hw, Option.some_bind, hloop, Option.map_some']
    · simp only [List.map_cons, hwr]
    · intro c hc
      rcases List.mem_cons.mp hc with h | h
      · rw [h]
        exact and_seven_of_dvd disp hal
      · exact hcalls c h

lemma MsgHandler_writeLoop_none (ws : List ItemWriter) :
    ∀ (s : KernelState) (disp : Nat), 8 ∣ disp →
      MsgHandler.writeLoop (ws.map some) s disp = none →
      ∃ w ∈ ws, ∃ s1 d, d &&& 7 = 0 ∧ w.write s1 d = none := by
  induction ws with
  | nil =>
    intro s disp _ h
    simp [MsgHandler.writeLoop] at h
  | cons w rest ih =>
    intro s disp hal h
    cases hw : w.write s disp with
    | none => exact ⟨w, List.mem_cons_self _ _, s, disp, and_seven_of_dvd disp hal, hw⟩
    | some r =>
      simp only [List.map_cons, MsgHandler.writeLoop, and_seven_of_dvd disp hal, ne_eq,
        not_true_eq_false, if_false, hw, Option.some_bind, Option.map_eq_none'] at h
      obtain ⟨x, hx, s1, d, hd, hn⟩ := ih r.1 _ (dvd_add_size_mod disp w hal) h
      exact ⟨x, List.mem_cons_of_mem _ hx, s1, d, hd, hn⟩

/-- C26: size() of every ItemWriter variant is a multiple of 8 for all of its
inputs.  Hence in a completed batch (every slot filled) MsgHandler::write can
only stop at an assertion inside a writer, never at the alignment assertion;
and when every writer reports success and the universes that accept and pull
writers attach to are live, write() runs to the end, calls the writers in slot
order, and every displacement it passes has its low three bits clear. -/
theorem MsgHandler_write_aligned :
    (∀ w : ItemWriter, 8 ∣ w.size) ∧
    (∀ (h : MsgHandler) (ws : List ItemWriter) (s : KernelState),
      h.results = ws.map some →
      h.write s = none → ∃ w ∈ ws, ∃ s1 d, d &&& 7 = 0 ∧ w.write s1 d = none) ∧
    (∀ (h : MsgHandler) (ws : List ItemWriter) (s : KernelState),
      h.results = ws.map some →
      (∀ w ∈ ws, w.error = .kErrSuccess) →
      (∀ w ∈ ws, ∀ u, w.weakUniverse = some u → s.universeAlive u = true) →
      ∃ s2 calls, h.write s = some (s2, calls) ∧
        calls.map (fun c => c.writer) = ws ∧ ∀ c ∈ calls, c.disp &&& 7 = 0) := by
  refine ⟨ItemWriter_size_dvd, ?_, ?_⟩
  · intro h ws s hres hnone
    rw [MsgHandler.write, hres] at hnone
    exact MsgHandler_writeLoop_none ws s 0 (dvd_zero 8) hnone
  · intro h ws s hres hok halive
    rw [MsgHandler.write, hres]
    exact MsgHandler_writeLoop_aligned ws s 0 hok halive (dvd_zero 8)

/-- Witness for C26: a batch of an inline record with a 2-byte payload (size 24)
followed by an offer record is written at displacements 0 and 24. -/
theorem MsgHandler_write_aligned_witness :
    (MsgHandler.write
        { results := [sampleWriters 1, sampleWriters 0].map some, numComplete := 2,
          space := 0, queue := 5, context := 6 } sampleState).map
      (fun r => r.2.map (fun c => c.disp)) = some [0, 24] ∧
    ∃ s2 calls,
      MsgHandler.write
        { results := [sampleWriters 1, sampleWriters 0].map some, numComplete := 2,
          space := 0, queue := 5, context := 6 } sampleState = some (s2, calls) ∧
      calls.map (fun c => c.writer) = [sampleWriters 1, sampleWriters 0] ∧
      ∀ c ∈ calls, c.disp &&& 7 = 0 :=
  ⟨by decide,
   MsgHandler_write_aligned.2.2
     { results := [sampleWriters 1, sampleWriters 0].map some, numComplete := 2,
       space := 0, queue := 5, context := 6 }
     [sampleWriters 1, sampleWriters 0] sampleState rfl
     (by decide) (by decide)⟩

/-! ## Bytes written by the record writers -/

/-- C28 (the code at the failing input): ObserveThreadWriter::size() announces
sizeof(HelObserveResult) bytes, but whenever write() runs to its copyTo call it
copies sizeof(HelSimpleResult) bytes, which is fewer; for the stop interrupt
the copy is 8 bytes of a 16-byte record.  LockMemoryWriter and AwaitIrqWriter,
by contrast, copy exactly the size() they announce. -/
theorem ObserveThreadWriter_write_copies_simple_result_size :
    (∀ (codes : ObserveCodes) (error : Error) (interrupt : Nat),
      ((ObserveThreadWriter.write codes error interrupt).getD []).all
        (fun c => decide (c.size = sizeofHelSimpleResult ∧ c.size < ObserveThreadWriter.size))
        = true) ∧
    (ObserveThreadWriter.write sampleObserveCodes .kErrSuccess
        sampleObserveCodes.kIntrStop).map (fun copies => copies.map (fun c => c.size))
      = some [8] ∧
    ObserveThreadWriter.size = 16 ∧
    (LockMemoryWriter.write .kErrSuccess).map (fun copies => copies.map (fun c => c.size))
      = some [LockMemoryWriter.size] := by
  refine ⟨?_, by decide, by decide, by decide⟩
  intro codes error interrupt
  cases ho : ObserveThreadWriter.observation codes interrupt with
  | none => simp [ObserveThreadWriter.write, ho]
  | some o =>
    cases he : translateError error with
    | none => simp [ObserveThreadWriter.write, ho, he]
    | some e =>
      simp [ObserveThreadWriter.write, ho, he, sizeofHelSimpleResult,
        ObserveThreadWriter.size, sizeofHelObserveResult]

/-! ## The pin table index -/

/-- C30 (the code at the failing input): helAccessIrq performs no check on
`number`.  For number = 16 and number = -1 the index lies outside the 16-entry
table, yet the call attaches the IRQ object to globalSystemIrqs[number] and
returns none with a new handle; in general the pin index it uses is the
argument itself. -/
theorem helAccessIrq_index_unchecked :
    (∀ (s : KernelState) (t : ThreadId) (number : Int) (irq : ObjectId),
      (helAccessIrq s t number irq).invoked = [.attachIrq number irq] ∧
      (helAccessIrq s t number irq).outcome = .returned .kHelErrNone) ∧
    pinIndexInBounds 16 = false ∧
    (helAccessIrq sampleState 0 16 7).invoked = [.attachIrq 16 7] ∧
    (helAccessIrq sampleState 0 16 7).outcome = .returned .kHelErrNone ∧
    (helAccessIrq sampleState 0 16 7).out = some 5 ∧
    pinIndexInBounds (-1) = false ∧
    (helAccessIrq sampleState 0 (-1) 7).invoked = [.attachIrq (-1) 7] ∧
    (helAccessIrq sampleState 0 (-1) 7).outcome = .returned .kHelErrNone :=
  ⟨fun _ _ _ _ => ⟨rfl, rfl⟩, by decide, by decide, by decide, by decide, by decide,
   by decide, by decide⟩

/-! ## Register images -/

lemma setExecutor_univ (s : KernelState) (thread t : ThreadId) (e : Executor) :
    ((setExecutor s thread e).threads t).univ = (s.threads t).univ := by
  simp only [setExecutor]
  by_cases h : t = thread
  · subst h
    rw [Function.update_same]
  · rw [Function.update_noteq h]

lemma setExecutor_executor (s : KernelState) (thread : ThreadId) (e : Executor) :
    ((setExecutor s thread e).threads thread).executor = e := by
  simp only [setExecutor, Function.update_same]

/-- The words helLoadRegisters stores for the three sets it knows, read from an
executor. -/
lemma helLoadRegisters_setExecutor (s : KernelState) (t : ThreadId) (handle : Handle)
    (thread : ThreadId) (e : Executor)
    (hd : (s.universes (s.threads t).univ).getDescriptor handle
      = some (.ThreadDescriptor thread)) :
    helLoadRegisters (setExecutor s thread e) t handle .kHelRegsProgram
      = { state := setExecutor s thread e, outcome := .returned .kHelErrNone,
          out := some [e.ip, e.sp], invoked := [] } ∧
    helLoadRegisters (setExecutor s thread e) t handle .kHelRegsGeneral
      = { state := setExecutor s thread e, outcome := .returned .kHelErrNone,
          out := some [e.general.rax, e.general.rbx, e.general.rcx, e.general.rdx,
            e.general.rdi, e.general.rsi, e.general.r8, e.general.r9, e.general.r10,
            e.general.r11, e.general.r12, e.general.r13, e.general.r14, e.general.r15,
            e.general.rbp],
          invoked := [] } ∧
    helLoadRegisters (setExecutor s thread e) t handle .kHelRegsThread
      = { state := setExecutor s thread e, outcome := .returned .kHelErrNone,
          out := some [e.general.clientFs, e.general.clientGs], invoked := [] } := by
  have hu : (setExecutor s thread e).universes = s.universes := rfl
  have hd2 : ((setExecutor s thread e).universes
      ((setExecutor s thread e).threads t).univ).getDescriptor handle
      = some (.ThreadDescriptor thread) := by
    rw [setExecutor_univ, hu, hd]
  refine ⟨?_, ?_, ?_⟩ <;>
    simp only [helLoadRegisters, hd2, setExecutor_executor]

lemma helLoadRegisters_of_thread (s : KernelState) (t : ThreadId) (handle : Handle)
    (thread : ThreadId)
    (hd : (s.universes (s.threads t).univ).getDescriptor handle
      = some (.ThreadDescriptor thread)) :
    (helLoadRegisters s t handle .kHelRegsProgram).out
      = some [(s.threads thread).executor.ip, (s.threads thread).executor.sp] ∧
    (helLoadRegisters s t handle .kHelRegsGeneral).out
      = some [(s.threads thread).executor.general.rax, (s.threads thread).executor.general.rbx,
          (s.threads thread).executor.general.rcx, (s.threads thread).executor.general.rdx,
          (s.threads thread).executor.general.rdi, (s.threads thread).executor.general.rsi,
          (s.threads thread).executor.general.r8, (s.threads thread).executor.general.r9,
          (s.threads thread).executor.general.r10, (s.threads thread).executor.general.r11,
          (s.threads thread).executor.general.r12, (s.threads thread).executor.general.r13,
          (s.threads thread).executor.general.r14, (s.threads thread).executor.general.r15,
          (s.threads thread).executor.general.rbp] ∧
    (helLoadRegisters s t handle .kHelRegsThread).out
      = some [(s.threads thread).executor.general.clientFs,
          (s.threads thread).executor.general.clientGs] := by
  refine ⟨?_, ?_, ?_⟩ <;> simp only [helLoadRegisters, hd]

lemma helStoreRegisters_of_thread (s : KernelState) (t : ThreadId) (handle : Handle)
    (thread : ThreadId) (image : Nat → Nat)
    (hd : (s.universes (s.threads t).univ).getDescriptor handle
      = some (.ThreadDescriptor thread))
    (hne : handle ≠ kHelThisThread) :
    helStoreRegisters s t handle .kHelRegsProgram image
      = { state := setExecutor s thread
            { (s.threads thread).executor with ip := image 0, sp := image 1 },
          outcome := .returned .kHelErrNone, out := none, invoked := [] } ∧
    helStoreRegisters s t handle .kHelRegsGeneral image
      = { state := setExecutor s thread
            { (s.threads thread).executor with
              general :=
                { (s.threads thread).executor.general with
                  rax := image 0, rbx := image 1, rcx := image 2, rdx := image 3,
                  rdi := image 4, rsi := image 5, r8 := image 6, r9 := image 7,
                  r10 := image 8, r11 := image 9, r12 := image 10, r13 := image 11,
                  r14 := image 12, r15 := image 13, rbp := image 14 } },
          outcome := .returned .kHelErrNone, out := none, invoked := [] } ∧
    helStoreRegisters s t handle .kHelRegsThread image
      = { state := setExecutor s thread
            { (s.threads thread).executor with
              general :=
                { (s.threads thread).executor.general with
                  clientFs := image 0, clientGs := image 1 } },
          outcome := .returned .kHelErrNone, out := none, invoked := [] } := by
  have hr : resolveStoreThread s t handle = .ok thread := by
    simp [resolveStoreThread, hne, hd]
  refine ⟨?_, ?_, ?_⟩ <;> simp only [helStoreRegisters, hr]

/-- C27: let `handle` (not the this-thread sentinel) be attached to a thread
descriptor in the caller's universe.  For each set in {program, general,
thread}, helStoreRegisters succeeds and a following helLoadRegisters of the same
set succeeds and stores the words of the stored image in order: image[0..1] for
program (ip, sp), image[0..14] for general (rax, rbx, rcx, rdx, rdi, rsi,
r8..r15, rbp), image[0..1] for thread (clientFs, clientGs).  A store to one of
the three sets leaves what helLoadRegisters reports for the other two sets
unchanged. -/
theorem registers_store_then_load (s : KernelState) (this_thread : ThreadId)
    (handle : Handle) (thread : ThreadId) (image : Nat → Nat)
    (hd : (s.universes (s.threads this_thread).univ).getDescriptor handle
      = some (.ThreadDescriptor thread))
    (hne : handle ≠ kHelThisThread) :
    (∀ set, set = RegisterSet.kHelRegsProgram ∨ set = .kHelRegsGeneral ∨ set = .kHelRegsThread →
      (helStoreRegisters s this_thread handle set image).outcome = .returned .kHelErrNone ∧
      (helLoadRegisters (helStoreRegisters s this_thread handle set image).state
        this_thread handle set).outcome = .returned .kHelErrNone) ∧
    (helLoadRegisters (helStoreRegisters s this_thread handle .kHelRegsProgram image).state
        this_thread handle .kHelRegsProgram).out = some ((List.range 2).map image) ∧
    (helLoadRegisters (helStoreRegisters s this_thread handle .kHelRegsGeneral image).state
        this_thread handle .kHelRegsGeneral).out = some ((List.range 15).map image) ∧
    (helLoadRegisters (helStoreRegisters s this_thread handle .kHelRegsThread image).state
        this_thread handle .kHelRegsThread).out = some ((List.range 2).map image) ∧
    (∀ stored loaded,
      stored = RegisterSet.kHelRegsProgram ∨ stored = .kHelRegsGeneral
        ∨ stored = .kHelRegsThread →
      loaded = RegisterSet.kHelRegsProgram ∨ loaded = .kHelRegsGeneral
        ∨ loaded = .kHelRegsThread →
      stored ≠ loaded →
      (helLoadRegisters (helStoreRegisters s this_thread handle stored image).state
        this_thread handle loaded).out
        = (helLoadRegisters s this_thread handle loaded).out) := by
  obtain ⟨hsp, hsg, hst⟩ := helStoreRegisters_of_thread s this_thread handle thread image hd hne
  obtain ⟨hlp, hlg, hlt⟩ := helLoadRegisters_of_thread s this_thread handle thread hd
  refine ⟨?_, ?_, ?_, ?_, ?_⟩
  · intro set hset
    rcases hset with h | h | h <;> subst h
    · rw [hsp]
      exact ⟨rfl, by rw [(helLoadRegisters_setExecutor s this_thread handle thread _ hd).1]⟩
    · rw [hsg]
      exact ⟨rfl, by rw [(helLoadRegisters_setExecutor s this_thread handle thread _ hd).2.1]⟩
    · rw [hst]
      exact ⟨rfl, by rw [(helLoadRegisters_setExecutor s this_thread handle thread _ hd).2.2]⟩
  · rw [hsp, (helLoadRegisters_setExecutor s this_thread handle thread _ hd).1]
    rfl
  · rw [hsg, (helLoadRegisters_setExecutor s this_thread handle thread _ hd).2.1]
    rfl
  · rw [hst, (helLoadRegisters_setExecutor s this_thread handle thread _ hd).2.2]
    rfl
  · intro stored loaded hs hl hne2
    rcases hs with h | h | h <;> subst h <;> rcases hl with h | h | h <;> subst h
    · exact absurd rfl hne2
    · rw [hsp, (helLoadRegisters_setExecutor s this_thread handle thread _ hd).2.1, hlg]
    · rw [hsp, (helLoadRegisters_setExecutor s this_thread handle thread _ hd).2.2, hlt]
    · rw [hsg, (helLoadRegisters_setExecutor s this_thread handle thread _ hd).1, hlp]
    · exact absurd rfl hne2
    · rw [hsg, (helLoadRegisters_setExecutor s this_thread handle thread _ hd).2.2, hlt]
    · rw [hst, (helLoadRegisters_setExecutor s this_thread handle thread _ hd).1, hlp]
    · rw [hst, (helLoadRegisters_setExecutor s this_thread handle thread _ hd).2.1, hlg]
    · exact absurd rfl hne2

/-- Witness for C27: thread 0 stores the image 1000, 1001, ... through handle 4
(a thread descriptor in the sample universe) and loads it back; a store of the
program set leaves the general registers as they were. -/
theorem registers_store_then_load_witness :
    (helLoadRegisters (helStoreRegisters sampleState 0 4 .kHelRegsProgram sampleImage).state
        0 4 .kHelRegsProgram).out = some ((List.range 2).map sampleImage) ∧
    (helLoadRegisters (helStoreRegisters sampleState 0 4 .kHelRegsGeneral sampleImage).state
        0 4 .kHelRegsGeneral).out = some ((List.range 15).map sampleImage) ∧
    (helLoadRegisters (helStoreRegisters sampleState 0 4 .kHelRegsThread sampleImage).state
        0 4 .kHelRegsThread).out = some ((List.range 2).map sampleImage) ∧
    (helLoadRegisters (helStoreRegisters sampleState 0 4 .kHelRegsProgram sampleImage).state
        0 4 .kHelRegsGeneral).out
      = some [1, 2, 3, 4, 5, 6, 8, 9, 10, 11, 12, 13, 14, 15, 16] :=
  ⟨(registers_store_then_load sampleState 0 4 1 sampleImage (by decide) (by decide)).2.1,
   (registers_store_then_load sampleState 0 4 1 sampleImage (by decide) (by decide)).2.2.1,
   (registers_store_then_load sampleState 0 4 1 sampleImage (by decide) (by decide)).2.2.2.1,
   by decide⟩

/-! ## The UART receive queue -/

lemma copyLoop_eq (count : Nat) :
    ∀ (recvBuffer : List Nat), count ≤ recvBuffer.length →
      processRecv.copyLoop count recvBuffer
        = some (recvBuffer.take count, recvBuffer.drop count) := by
  induction count with
  | zero => intro b _; rfl
  | succ n ih =>
    intro b hb
    cases b with
    | nil => simp at hb
    | cons x rest =>
      have hn : n ≤ rest.length := by simpa using hb
      simp [processRecv.copyLoop, ih rest hn]

lemma processRecv_cons (req : ReadRequest) (rest : List ReadRequest) (byte : Nat)
    (more : List Nat) :
    processRecv (req :: rest) (byte :: more) =
      (processRecv rest ((byte :: more).drop (min req.maxLength (byte :: more).length))).map
        fun t => (t.1,
          { request := req,
            stored := (byte :: more).take (min req.maxLength (byte :: more).length),
            value := min req.maxLength (byte :: more).length } :: t.2) := by
  rw [processRecv]
  simp only [List.isEmpty_cons, Bool.false_eq_true, if_false]
  rw [copyLoop_eq _ _ (min_le_right _ _)]
  rfl

/-- C29: for every request queue and receive buffer processRecv terminates (the
model is total and never reads an empty deque) and leaves at least one of
recvRequests and recvBuffer empty.  The requests it completed are the front
requests of the queue in order, and the rest of the queue stays; the bytes
stored for them followed by the bytes left in recvBuffer are the original
buffer.  The i-th completed request has its promise set to read_size =
min(maxLength, bytes buffered at that moment) and received exactly the next
read_size bytes of the original buffer. -/
theorem processRecv_completes_front_requests (recvRequests : List ReadRequest) :
    ∀ (recvBuffer : List Nat),
    ∃ st completions, processRecv recvRequests recvBuffer = some (st, completions) ∧
      (st.recvRequests = [] ∨ st.recvBuffer = []) ∧
      recvRequests = completions.map (fun c => c.request) ++ st.recvRequests ∧
      recvBuffer = (completions.map (fun c => c.stored)).flatten ++ st.recvBuffer ∧
      ∀ i c, completions[i]? = some c →
        c.value = min c.request.maxLength
          (recvBuffer.length - ((completions.take i).map (fun d => d.value)).sum) ∧
        c.stored = (recvBuffer.drop ((completions.take i).map (fun d => d.value)).sum).take
          c.value := by
  induction recvRequests with
  | nil =>
    intro buf
    refine ⟨{ recvRequests := [], recvBuffer := buf }, [], rfl, Or.inl rfl, rfl, ?_, ?_⟩
    · simp
    · intro i c hc
      simp at hc
  | cons req rest ih =>
    intro buf
    cases buf with
    | nil =>
      refine ⟨{ recvRequests := req :: rest, recvBuffer := [] }, [], rfl, Or.inr rfl, rfl,
        rfl, ?_⟩
      intro i c hc
      simp at hc
    | cons byte more =>
      obtain ⟨st, cs, hrun, hempty, hreq, hbuf, hall⟩ :=
        ih ((byte :: more).drop (min req.maxLength (byte :: more).length))
      refine ⟨st,
        { request := req,
          stored := (byte :: more).take (min req.maxLength (byte :: more).length),
          value := min req.maxLength (byte :: more).length } :: cs,
        ?_, hempty, ?_, ?_, ?_⟩
      · rw [processRecv_cons, hrun]
        rfl
      · simp only [List.map_cons, List.cons_append, ← hreq]
      · simp only [List.map_cons, List.flatten_cons, List.append_assoc, ← hbuf,
          List.take_append_drop]
      · intro i c hc
        cases i with
        | zero =>
          simp only [List.getElem?_cons_zero, Option.some.injEq] at hc
          subst hc
          simp
        | succ j =>
          simp only [List.getElem?_cons_succ] at hc
          obtain ⟨hv, hs⟩ := hall j c hc
          simp only [List.take_succ_cons, List.map_cons, List.sum_cons]
          constructor
          · rw [hv, List.length_drop, Nat.sub_sub]
          · rw [hs, List.drop_drop]

/-- Witness for C29: two requests of at most 2 and 5 bytes and a buffer of four
bytes; the first request gets 2 bytes, the second the remaining 2, and both
queues end empty. -/
theorem processRecv_completes_front_requests_witness :
    processRecv [{ buffer := 100, maxLength := 2 }, { buffer := 200, maxLength := 5 }]
        [104, 105, 106, 107]
      = some ({ recvRequests := [], recvBuffer := [] },
          [{ request := { buffer := 100, maxLength := 2 }, stored := [104, 105], value := 2 },
           { request := { buffer := 200, maxLength := 5 }, stored := [106, 107],
             value := 2 }]) ∧
    ∃ st completions,
      processRecv [{ buffer := 100, maxLength := 2 }, { buffer := 200, maxLength := 5 }]
        [104, 105, 106, 107] = some (st, completions) ∧
      (st.recvRequests = [] ∨ st.recvBuffer = []) ∧
      [{ buffer := 100, maxLength := 2 }, { buffer := 200, maxLength := 5 }]
        = completions.map (fun c => c.request) ++ st.recvRequests ∧
      [104, 105, 106, 107] = (completions.map (fun c => c.stored)).flatten ++ st.recvBuffer ∧
      ∀ i c, completions[i]? = some c →
        c.value = min c.request.maxLength
          ([104, 105, 106, 107].length - ((completions.take i).map (fun d => d.value)).sum) ∧
        c.stored
          = ([104, 105, 106, 107].drop ((completions.take i).map (fun d => d.value)).sum).take
              c.value :=
  ⟨by decide,
   processRecv_completes_front_requests
     [{ buffer := 100, maxLength := 2 }, { buffer := 200, maxLength := 5 }]
     [104, 105, 106, 107]⟩

end Thor
